import Mathlib

/-!
# HydraNFC v2: ISO14443-A tag discovery and its reporting checker

A shallow embedding of `src/hydranfc_v2/hydranfc_v2.c`:

* `hydranfc_v2_scan_iso14443A`: request, anti-collision and select over one or two
  cascade levels, the Mifare Ultralight bulk read and the halt;
* `hydranfc_v2_scan_mifare` and `hydranfc_v2_read_mifare_ul`: the reporting of a
  discovery record together with the BCC verdicts.

In the source the three functions stand in `#if 0` blocks marked TODO; the development
is about their text.

Bytes and counters are natural numbers; a value stored in a `uint8_t` goes through `u8`.
Buffers are lists whose length is the capacity of the C array.  The driver of the radio
front-end (`Trf797x...`) is not part of the sources: what an exchange receives is a
parameter `Medium`, a function of everything that happened on the link so far and of
the operation being performed.  A run of the scan yields the record, the locals and the
sequence of operations on the front-end, each with the bytes it received.
-/

namespace HydraNFC

/-! ## Constants -/

/-- Array capacities declared in `hydranfc_v2.h`.  The header is not part of the
sources, so the capacities are parameters of the development. -/
structure Sizes where
  MIFARE_DATA_MAX : Nat
  MIFARE_ATQA_MAX : Nat
  MIFARE_SAK_MAX : Nat
  MIFARE_UID_MAX : Nat
  MIFARE_HALT_MAX : Nat
  MIFARE_UL_DATA_MAX : Nat
  deriving DecidableEq, Repr

/-- `#define MIFARE_UL_DATA (MIFARE_UL_DATA_MAX/4)`. -/
def MIFARE_UL_DATA (z : Sizes) : Nat := z.MIFARE_UL_DATA_MAX / 4

/-- `#define MIFARE_CL1_MAX (5)`. -/
def MIFARE_CL1_MAX : Nat := 5

/-- `#define MIFARE_CL2_MAX (5)`. -/
def MIFARE_CL2_MAX : Nat := 5

/-- Register address of the ISO control register; the source comments name it
"ISO Control Register (0x01)". -/
def ISO_CONTROL : Nat := 0x01

/-- Register address of the modulator control register; the source comments name it
"Modulator and SYS_CLK Control Register (0x09)". -/
def MODULATOR_CONTROL : Nat := 0x09

/-- `#define ISO14443A_SEL_L1_CT 0x88`. -/
def ISO14443A_SEL_L1_CT : Nat := 0x88

/-- Capacities under which no access of the scan leaves its array and every count fits
a `uint8_t`. -/
def Sizes.WF (z : Sizes) : Prop :=
  2 + z.MIFARE_UID_MAX ≤ z.MIFARE_DATA_MAX ∧ z.MIFARE_DATA_MAX ≤ 255 ∧
  2 ≤ z.MIFARE_ATQA_MAX ∧ z.MIFARE_ATQA_MAX ≤ 255 ∧
  2 ≤ z.MIFARE_SAK_MAX ∧ z.MIFARE_SAK_MAX ≤ 255 ∧
  7 ≤ z.MIFARE_UID_MAX ∧ z.MIFARE_HALT_MAX ≤ 255 ∧ z.MIFARE_UL_DATA_MAX ≤ 255

instance (z : Sizes) : Decidable z.WF := by
  unfold Sizes.WF; infer_instance

/-- Conversion to `uint8_t`. -/
def u8 (n : Nat) : Nat := n % 256

/-! ## The link -/

/-- One operation on the radio front-end, with its arguments. -/
inductive Op where
  | InitialSettings
  | ResetFIFO
  | WriteSingle (buf : List Nat)
  | TurnRfOn
  | TurnRfOff
  | transceive_bits (tx_byte nb_bits rx_max timeout_ms crc : Nat)
  | transceive_bytes (tx : List Nat) (rx_max timeout_ms crc : Nat)
  deriving DecidableEq, Repr

/-- An operation together with the bytes it received (none for a register access). -/
structure Ev where
  op : Op
  rx : List Nat
  deriving DecidableEq, Repr

/-- The radio front-end and whatever is in the field: the bytes answered to an
operation, given all earlier events. -/
abbrev Medium := List Ev → Op → List Nat

/-- The discovery record `t_hydranfc_v2_scan_iso14443A`. -/
structure t_hydranfc_v2_scan_iso14443A where
  atqa_buf_nb_rx_data : Nat
  atqa_buf : List Nat
  sak1_buf_nb_rx_data : Nat
  sak1_buf : List Nat
  sak2_buf_nb_rx_data : Nat
  sak2_buf : List Nat
  uid_buf_nb_rx_data : Nat
  uid_buf : List Nat
  mf_ul_data_nb_rx_data : Nat
  mf_ul_data : List Nat
  halt_buf_nb_rx_data : Nat
  halt_buf : List Nat
  deriving DecidableEq, Repr

/-- `memset(data, 0, sizeof(t_hydranfc_v2_scan_iso14443A))`. -/
def memset_data (z : Sizes) (_data : t_hydranfc_v2_scan_iso14443A) :
    t_hydranfc_v2_scan_iso14443A :=
  { atqa_buf_nb_rx_data := 0, atqa_buf := List.replicate z.MIFARE_ATQA_MAX 0
    sak1_buf_nb_rx_data := 0, sak1_buf := List.replicate z.MIFARE_SAK_MAX 0
    sak2_buf_nb_rx_data := 0, sak2_buf := List.replicate z.MIFARE_SAK_MAX 0
    uid_buf_nb_rx_data := 0, uid_buf := List.replicate z.MIFARE_UID_MAX 0
    mf_ul_data_nb_rx_data := 0, mf_ul_data := List.replicate z.MIFARE_UL_DATA_MAX 0
    halt_buf_nb_rx_data := 0, halt_buf := List.replicate z.MIFARE_HALT_MAX 0 }

/-- Content of the uninitialised local arrays when the scan is entered. -/
structure Stack where
  data_buf : Nat → Nat
  CL1_buf : Nat → Nat
  CL2_buf : Nat → Nat

/-- The record pointed to by `data`, the locals of the scan, and the events so far. -/
structure Frame where
  data : t_hydranfc_v2_scan_iso14443A
  data_buf : List Nat
  CL1_buf : List Nat
  CL2_buf : List Nat
  CL1_buf_size : Nat
  CL2_buf_size : Nat
  log : List Ev
  deriving DecidableEq, Repr

/-- A register access or a field switch: recorded, nothing received. -/
def Frame.emit (f : Frame) (o : Op) : Frame :=
  { f with log := f.log ++ [⟨o, []⟩] }

/-- An exchange and the bytes it received, recorded. -/
def Frame.xchg (f : Frame) (o : Op) (rx : List Nat) : Frame :=
  { f with log := f.log ++ [⟨o, rx⟩] }

/-- The assignment `data_buf[i] = v`. -/
def Frame.setb (f : Frame) (i v : Nat) : Frame :=
  { f with data_buf := f.data_buf.set i v }

/-- Received bytes written at the start of the receive area `rx_data`. -/
def store (rx_data : List Nat) (rx : List Nat) : List Nat :=
  rx.take rx_data.length ++ rx_data.drop rx.length

/-- Received bytes written into `buf` from index `off` on. -/
def storeAt (buf : List Nat) (off : Nat) (rx : List Nat) : List Nat :=
  buf.take off ++ store (buf.drop off) rx

/-- What the link answers to operation `o` after the events `log`, cut to the
`rx_max` bytes the receive area can take; empty on timeout. -/
def answer (m : Medium) (log : List Ev) (o : Op) (rx_max : Nat) : List Nat :=
  (m log o).take rx_max

/-- Modelled from the spec: `Trf797x_transceive_bits`, whose body is not in the
sources.  It transmits `nb_bits` bits of one byte, waits for the answer and reports
the received bytes, at most `rx_max` of them, none on timeout.  What it reports is
given by the medium. -/
def Trf797x_transceive_bits (m : Medium) (f : Frame) (tx_byte nb_bits rx_max timeout_ms crc : Nat) :
    List Nat × Frame :=
  let o := Op.transceive_bits tx_byte nb_bits rx_max timeout_ms crc
  let rx := answer m f.log o rx_max
  (rx, f.xchg o rx)

/-- Modelled from the spec: `Trf797x_transceive_bytes`, whose body is not in the
sources.  It transmits the first `tx_nb` bytes of `tx_data`, waits for the answer and
reports the received bytes, at most `rx_max` of them, none on timeout.  What it reports
is given by the medium. -/
def Trf797x_transceive_bytes (m : Medium) (f : Frame) (tx_data : List Nat) (tx_nb : Nat)
    (rx_max timeout_ms crc : Nat) : List Nat × Frame :=
  let o := Op.transceive_bytes (tx_data.take tx_nb) rx_max timeout_ms crc
  let rx := answer m f.log o rx_max
  (rx, f.xchg o rx)

/-! ## `hydranfc_v2_scan_iso14443A` -/

/-- Send REQA (7 bits) and receive ATQA into `data->atqa_buf`. -/
def send_REQA (z : Sizes) (m : Medium) (f : Frame) : Frame :=
  let f := f.setb 0 0x26
  let r := Trf797x_transceive_bits m f (f.data_buf.getD 0 0) 7 z.MIFARE_ATQA_MAX 10 0
  let f := r.2
  { f with data := { f.data with
      atqa_buf := store f.data.atqa_buf r.1
      atqa_buf_nb_rx_data := u8 r.1.length } }

/-- The request and its single retry. -/
def scan_request (z : Sizes) (m : Medium) (f : Frame) : Frame :=
  let f := send_REQA z m f
  if f.data.atqa_buf_nb_rx_data = 0 then send_REQA z m f else f

/-- The loops `for (i = 0; i < n; i++) data_buf[2 + i] = src[i];` on the array. -/
def copy_loop (data_buf src : List Nat) (n : Nat) : List Nat :=
  (List.range n).foldl (fun b i => b.set (2 + i) (src.getD i 0)) data_buf

/-- The loops `for (i = 0; i < n; i++) data_buf[2 + i] = src[i];`. -/
def copy_to_data_buf (f : Frame) (src : List Nat) (n : Nat) : Frame :=
  { f with data_buf := copy_loop f.data_buf src n }

/-- One step of the loops appending to the UID:
`data->uid_buf[data->uid_buf_nb_rx_data] = v; data->uid_buf_nb_rx_data++;`. -/
def push_uid (d : t_hydranfc_v2_scan_iso14443A) (v : Nat) : t_hydranfc_v2_scan_iso14443A :=
  { d with
    uid_buf := d.uid_buf.set d.uid_buf_nb_rx_data v
    uid_buf_nb_rx_data := u8 (d.uid_buf_nb_rx_data + 1) }

/-- The loops `for (i = 0; i < n; i++)` appending `src[first + i]` to the UID, the
indices `i` listed in `is`. -/
def push_uid_loop (f : Frame) (src : List Nat) (first : Nat) (is : List Nat) : Frame :=
  { f with data := is.foldl (fun d i => push_uid d (src.getD (first + i) 0)) f.data }

/-- One iteration of the read loop: `READ` of block `i` appended to `data->mf_ul_data`. -/
def read_block (z : Sizes) (m : Medium) (f : Frame) (i : Nat) : Frame :=
  let f := (f.setb 0 0x30).setb 1 (u8 i)
  let r := Trf797x_transceive_bytes m f f.data_buf 2 (MIFARE_UL_DATA z) 20 1
  let f := r.2
  { f with data := { f.data with
      mf_ul_data := storeAt f.data.mf_ul_data f.data.mf_ul_data_nb_rx_data r.1
      mf_ul_data_nb_rx_data := u8 (f.data.mf_ul_data_nb_rx_data + r.1.length) } }

/-- The loop `for (i = 0; i < 16; i += 4)` over the block reads. -/
def read_blocks (z : Sizes) (m : Medium) (f : Frame) : Frame :=
  [0, 4, 8, 12].foldl (read_block z m) f

/-- Send HALT on the extended path; the count is added to `halt_buf_nb_rx_data`. -/
def send_HALT_add (z : Sizes) (m : Medium) (f : Frame) : Frame :=
  let f := (f.setb 0 0x50).setb 1 0x00
  let r := Trf797x_transceive_bytes m f f.data_buf 2 z.MIFARE_HALT_MAX 20 1
  let f := r.2
  { f with data := { f.data with
      halt_buf := store f.data.halt_buf r.1
      halt_buf_nb_rx_data := u8 (f.data.halt_buf_nb_rx_data + r.1.length) } }

/-- Send HALT on the single-cascade path; the count is assigned. -/
def send_HALT (z : Sizes) (m : Medium) (f : Frame) : Frame :=
  let f := (f.setb 0 0x50).setb 1 0x00
  let r := Trf797x_transceive_bytes m f f.data_buf 2 z.MIFARE_HALT_MAX 20 1
  let f := r.2
  { f with data := { f.data with
      halt_buf := store f.data.halt_buf r.1
      halt_buf_nb_rx_data := u8 r.1.length } }

/-- The test "is it a Mifare Ultra Light" on the record. -/
def is_mifare_ul (d : t_hydranfc_v2_scan_iso14443A) : Prop :=
  d.atqa_buf.getD 0 0 = 0x44 ∧ d.atqa_buf.getD 1 0 = 0x00 ∧
  d.sak1_buf.getD 0 0 = 0x04 ∧ d.sak2_buf.getD 1 0 = 0x00

instance (d : t_hydranfc_v2_scan_iso14443A) : Decidable (is_mifare_ul d) := by
  unfold is_mifare_ul; infer_instance

/-- The body of `if (CL2_buf_size > 0)`: the last four UID bytes, the switch to
RX CRC, the level-2 select, then the bulk read or the halt. -/
def scan_cl2_select (z : Sizes) (m : Medium) (f : Frame) : Frame :=
  let f := push_uid_loop f f.CL2_buf 0 [0, 1, 2, 3]
  let f := (f.setb 0 ISO_CONTROL).setb 1 0x08
  let f := f.emit (Op.WriteSingle (f.data_buf.take 2))
  let f := (f.setb 0 0x95).setb 1 0x70
  let f := copy_to_data_buf f f.CL2_buf f.CL2_buf_size
  let r := Trf797x_transceive_bytes m f f.data_buf (2 + f.CL2_buf_size) z.MIFARE_SAK_MAX 20 1
  let f := r.2
  let f := { f with data := { f.data with
      sak2_buf := store f.data.sak2_buf r.1
      sak2_buf_nb_rx_data := u8 r.1.length } }
  if f.data.sak2_buf_nb_rx_data > 0 then
    if is_mifare_ul f.data then read_blocks z m f else f
  else send_HALT_add z m f

/-- The body of `if (data->sak1_buf_nb_rx_data > 0)`: level-2 anti-collision. -/
def scan_cl2 (z : Sizes) (m : Medium) (f : Frame) : Frame :=
  let f := (f.setb 0 0x95).setb 1 0x20
  let r := Trf797x_transceive_bytes m f f.data_buf 2 MIFARE_CL2_MAX 10 0
  let f := r.2
  let f := { f with CL2_buf := store f.CL2_buf r.1, CL2_buf_size := u8 r.1.length }
  if f.CL2_buf_size > 0 then scan_cl2_select z m f else f

/-- The branch `if (CL1_buf[0] == 0x88)`: tag with a 7 bytes UID. -/
def scan_uid7 (z : Sizes) (m : Medium) (f : Frame) : Frame :=
  let f := push_uid_loop f f.CL1_buf 1 [0, 1, 2]
  let f := (f.setb 0 0x93).setb 1 0x70
  let f := copy_to_data_buf f f.CL1_buf f.CL1_buf_size
  let r := Trf797x_transceive_bytes m f f.data_buf (2 + f.CL1_buf_size) z.MIFARE_SAK_MAX 20 1
  let f := r.2
  let f := { f with data := { f.data with
      sak1_buf := store f.data.sak1_buf r.1
      sak1_buf_nb_rx_data := u8 r.1.length } }
  let f := if f.data.sak1_buf_nb_rx_data ≥ 3 then
      { f with data := { f.data with sak1_buf_nb_rx_data := u8 (f.data.sak1_buf_nb_rx_data - 2) } }
    else f
  if f.data.sak1_buf_nb_rx_data > 0 then scan_cl2 z m f else f

/-- The `else` branch: tag with a 4 bytes UID. -/
def scan_uid4 (z : Sizes) (m : Medium) (f : Frame) : Frame :=
  let r := Trf797x_transceive_bytes m f f.data_buf 2 z.MIFARE_UID_MAX 10 0
  let f := r.2
  let f := { f with data := { f.data with
      uid_buf := store f.data.uid_buf r.1
      uid_buf_nb_rx_data := u8 r.1.length } }
  if f.data.uid_buf_nb_rx_data > 0 then
    let f := (f.setb 0 ISO_CONTROL).setb 1 0x08
    let f := f.emit (Op.WriteSingle (f.data_buf.take 2))
    let f := (f.setb 0 0x93).setb 1 0x70
    let f := copy_to_data_buf f f.data.uid_buf f.data.uid_buf_nb_rx_data
    let r := Trf797x_transceive_bytes m f f.data_buf (2 + f.data.uid_buf_nb_rx_data)
      z.MIFARE_SAK_MAX 20 1
    let f := r.2
    let f := { f with data := { f.data with
        sak1_buf := store f.data.sak1_buf r.1
        sak1_buf_nb_rx_data := u8 r.1.length } }
    send_HALT z m f
  else f

/-- The body of `if (data->atqa_buf_nb_rx_data > 0)`: level-1 anti-collision and the
choice between the two UID sizes. -/
def scan_tag (z : Sizes) (m : Medium) (f : Frame) : Frame :=
  let f := (f.setb 0 0x93).setb 1 0x20
  let r := Trf797x_transceive_bytes m f f.data_buf 2 MIFARE_CL1_MAX 10 0
  let f := r.2
  let f := { f with CL1_buf := store f.CL1_buf r.1, CL1_buf_size := u8 r.1.length }
  if f.CL1_buf.getD 0 0 = 0x88 then scan_uid7 z m f else scan_uid4 z m f

/-- The state in which the scan starts: `*data` cleared, the locals holding whatever
the stack holds, the sizes zero, no event yet. -/
def scan_entry (z : Sizes) (stk : Stack) (data : t_hydranfc_v2_scan_iso14443A) : Frame :=
  { data := memset_data z data
    data_buf := (List.range z.MIFARE_DATA_MAX).map stk.data_buf
    CL1_buf := (List.range MIFARE_CL1_MAX).map stk.CL1_buf
    CL2_buf := (List.range MIFARE_CL2_MAX).map stk.CL2_buf
    CL1_buf_size := 0
    CL2_buf_size := 0
    log := [] }

/-- Chip set-up before the request: initial settings, FIFO reset, modulator control
`0x31`, ISO control `0x88` (no RX CRC), field on. -/
def scan_setup (f : Frame) : Frame :=
  let f := f.emit Op.InitialSettings
  let f := f.emit Op.ResetFIFO
  let f := (f.setb 0 MODULATOR_CONTROL).setb 1 0x31
  let f := f.emit (Op.WriteSingle (f.data_buf.take 2))
  let f := (f.setb 0 ISO_CONTROL).setb 1 0x88
  let f := f.emit (Op.WriteSingle (f.data_buf.take 2))
  f.emit Op.TurnRfOn

/-- The function `hydranfc_v2_scan_iso14443A`.  The result is the final frame: the
record in `data`, the locals, and the events of the run in order.  The counter
`irq_count`, which the function only resets, is left out. -/
def hydranfc_v2_scan_iso14443A (z : Sizes) (m : Medium) (stk : Stack)
    (data : t_hydranfc_v2_scan_iso14443A) : Frame :=
  let f := scan_setup (scan_entry z stk data)
  let f := scan_request z m f
  let f := if f.data.atqa_buf_nb_rx_data > 0 then scan_tag z m f else f
  f.emit Op.TurnRfOff

/-! ## The commands of the scan -/

/-- REQA: the 7 bits of `0x26`, answer into `atqa_buf`, 10 ms, no CRC. -/
def REQA (z : Sizes) : Op := Op.transceive_bits 0x26 7 z.MIFARE_ATQA_MAX 10 0

/-- Anti-collision of cascade level 1, `0x93 0x20`, answer into `CL1_buf`. -/
def ANTICOLL_CL1 : Op := Op.transceive_bytes [0x93, 0x20] MIFARE_CL1_MAX 10 0

/-- Anti-collision of cascade level 1 sent again on the 4 bytes UID branch, answer
into `uid_buf`. -/
def ANTICOLL_UID (z : Sizes) : Op := Op.transceive_bytes [0x93, 0x20] z.MIFARE_UID_MAX 10 0

/-- Select of cascade level 1, `0x93 0x70` followed by `payload`, with CRC. -/
def SELECT_CL1 (z : Sizes) (payload : List Nat) : Op :=
  Op.transceive_bytes (0x93 :: 0x70 :: payload) z.MIFARE_SAK_MAX 20 1

/-- Anti-collision of cascade level 2, `0x95 0x20`, answer into `CL2_buf`. -/
def ANTICOLL_CL2 : Op := Op.transceive_bytes [0x95, 0x20] MIFARE_CL2_MAX 10 0

/-- Select of cascade level 2, `0x95 0x70` followed by `payload`, with CRC. -/
def SELECT_CL2 (z : Sizes) (payload : List Nat) : Op :=
  Op.transceive_bytes (0x95 :: 0x70 :: payload) z.MIFARE_SAK_MAX 20 1

/-- Read of block `i`, `0x30 i`, with CRC. -/
def READ (z : Sizes) (i : Nat) : Op := Op.transceive_bytes [0x30, i] (MIFARE_UL_DATA z) 20 1

/-- Halt, `0x50 0x00`, with CRC. -/
def HALT (z : Sizes) : Op := Op.transceive_bytes [0x50, 0x00] z.MIFARE_HALT_MAX 20 1

/-- Write of `v` to the ISO control register. -/
def ISO_WRITE (v : Nat) : Op := Op.WriteSingle [ISO_CONTROL, v]

/-- The events of the chip set-up, in order. -/
def setup_log : List Ev :=
  [⟨Op.InitialSettings, []⟩, ⟨Op.ResetFIFO, []⟩, ⟨Op.WriteSingle [ MODULATOR_CONTROL, 0x31], []⟩,
   ⟨ISO_WRITE 0x88, []⟩, ⟨Op.TurnRfOn, []⟩]

/-! ## The frames along a run -/

/-- The frame after the chip set-up. -/
def after_setup (z : Sizes) (stk : Stack) (data : t_hydranfc_v2_scan_iso14443A) : Frame :=
  { data := memset_data z data
    data_buf := (((((List.range z.MIFARE_DATA_MAX).map stk.data_buf).set 0 MODULATOR_CONTROL).set 1
      0x31).set 0 ISO_CONTROL).set 1 0x88
    CL1_buf := (List.range MIFARE_CL1_MAX).map stk.CL1_buf
    CL2_buf := (List.range MIFARE_CL2_MAX).map stk.CL2_buf
    CL1_buf_size := 0
    CL2_buf_size := 0
    log := setup_log }

/-- The frame after a REQA that received `r`. -/
def after_REQA (z : Sizes) (f : Frame) (r : List Nat) : Frame :=
  { f with
    data_buf := f.data_buf.set 0 0x26
    log := f.log ++ [⟨REQA z, r⟩]
    data := { f.data with
      atqa_buf := store f.data.atqa_buf r
      atqa_buf_nb_rx_data := r.length } }

/-- The frame after the level-1 anti-collision that received `r`. -/
def after_anticoll_CL1 (f : Frame) (r : List Nat) : Frame :=
  { f with
    data_buf := (f.data_buf.set 0 0x93).set 1 0x20
    log := f.log ++ [⟨ANTICOLL_CL1, r⟩]
    CL1_buf := store f.CL1_buf r
    CL1_buf_size := r.length }

/-- The frame after the first three UID bytes were taken from `CL1_buf` and the
level-1 select received `r`; two CRC bytes are taken off the count from 3 bytes on. -/
def after_select_CL1 (z : Sizes) (f : Frame) (r : List Nat) : Frame :=
  { f with
    data_buf := copy_loop ((f.data_buf.set 0 0x93).set 1 0x70) f.CL1_buf f.CL1_buf_size
    log := f.log ++ [⟨SELECT_CL1 z (f.CL1_buf.take f.CL1_buf_size), r⟩]
    data := { (push_uid_loop f f.CL1_buf 1 [0, 1, 2]).data with
      sak1_buf := store f.data.sak1_buf r
      sak1_buf_nb_rx_data := if 3 ≤ r.length then r.length - 2 else r.length } }

/-- The frame after the level-2 anti-collision that received `r`. -/
def after_anticoll_CL2 (f : Frame) (r : List Nat) : Frame :=
  { f with
    data_buf := (f.data_buf.set 0 0x95).set 1 0x20
    log := f.log ++ [⟨ANTICOLL_CL2, r⟩]
    CL2_buf := store f.CL2_buf r
    CL2_buf_size := r.length }

/-- The frame after four UID bytes were taken from `CL2_buf`, RX CRC was switched on
and the level-2 select received `r`. -/
def after_select_CL2 (z : Sizes) (f : Frame) (r : List Nat) : Frame :=
  { f with
    data_buf := copy_loop ((((f.data_buf.set 0 ISO_CONTROL).set 1 0x08).set 0 0x95).set 1 0x70)
      f.CL2_buf f.CL2_buf_size
    log := f.log ++ [⟨ISO_WRITE 0x08, []⟩, ⟨SELECT_CL2 z (f.CL2_buf.take f.CL2_buf_size), r⟩]
    data := { (push_uid_loop f f.CL2_buf 0 [0, 1, 2, 3]).data with
      sak2_buf := store f.data.sak2_buf r
      sak2_buf_nb_rx_data := r.length } }

/-- The frame after the read of block `i` that received `r`. -/
def after_READ (z : Sizes) (f : Frame) (i : Nat) (r : List Nat) : Frame :=
  { f with
    data_buf := (f.data_buf.set 0 0x30).set 1 i
    log := f.log ++ [⟨READ z i, r⟩]
    data := { f.data with
      mf_ul_data := storeAt f.data.mf_ul_data f.data.mf_ul_data_nb_rx_data r
      mf_ul_data_nb_rx_data := u8 (f.data.mf_ul_data_nb_rx_data + r.length) } }

/-- The frame after the halt of the extended path that received `r`. -/
def after_HALT_add (z : Sizes) (f : Frame) (r : List Nat) : Frame :=
  { f with
    data_buf := (f.data_buf.set 0 0x50).set 1 0x00
    log := f.log ++ [⟨HALT z, r⟩]
    data := { f.data with
      halt_buf := store f.data.halt_buf r
      halt_buf_nb_rx_data := u8 (f.data.halt_buf_nb_rx_data + r.length) } }

/-- The frame after the halt of the single-cascade path that received `r`. -/
def after_HALT (z : Sizes) (f : Frame) (r : List Nat) : Frame :=
  { f with
    data_buf := (f.data_buf.set 0 0x50).set 1 0x00
    log := f.log ++ [⟨HALT z, r⟩]
    data := { f.data with
      halt_buf := store f.data.halt_buf r
      halt_buf_nb_rx_data := r.length } }

/-- The frame after the second level-1 anti-collision, which received `r` into
`uid_buf`. -/
def after_anticoll_UID (z : Sizes) (f : Frame) (r : List Nat) : Frame :=
  { f with
    log := f.log ++ [⟨ANTICOLL_UID z, r⟩]
    data := { f.data with
      uid_buf := store f.data.uid_buf r
      uid_buf_nb_rx_data := r.length } }

/-- The frame after RX CRC was switched on and the select of the single-cascade path
received `r`. -/
def after_select_UID (z : Sizes) (f : Frame) (r : List Nat) : Frame :=
  { f with
    data_buf := copy_loop ((((f.data_buf.set 0 ISO_CONTROL).set 1 0x08).set 0 0x93).set 1 0x70)
      f.data.uid_buf f.data.uid_buf_nb_rx_data
    log := f.log ++ [⟨ISO_WRITE 0x08, []⟩,
      ⟨SELECT_CL1 z (f.data.uid_buf.take f.data.uid_buf_nb_rx_data), r⟩]
    data := { f.data with
      sak1_buf := store f.data.sak1_buf r
      sak1_buf_nb_rx_data := r.length } }

/-- The runs of `scan_tag` from a frame `f`, one constructor for each path through
the function, in terms of the bytes received at each exchange. -/
inductive TagRun (z : Sizes) (f : Frame) : Frame → Prop
  | sak1_timeout (c1 : List Nat) (hc1 : c1.length ≤ 5)
      (hct : (store f.CL1_buf c1).getD 0 0 = 0x88) :
      TagRun z f (after_select_CL1 z (after_anticoll_CL1 f c1) [])
  | cl2_timeout (c1 s1 : List Nat) (hc1 : c1.length ≤ 5)
      (hct : (store f.CL1_buf c1).getD 0 0 = 0x88)
      (hs1 : s1 ≠ []) (hs1l : s1.length ≤ z.MIFARE_SAK_MAX) :
      TagRun z f (after_anticoll_CL2 (after_select_CL1 z (after_anticoll_CL1 f c1) s1) [])
  | sak2_timeout (c1 s1 c2 h : List Nat) (hc1 : c1.length ≤ 5)
      (hct : (store f.CL1_buf c1).getD 0 0 = 0x88)
      (hs1 : s1 ≠ []) (hs1l : s1.length ≤ z.MIFARE_SAK_MAX)
      (hc2 : c2 ≠ []) (hc2l : c2.length ≤ 5) (hh : h.length ≤ z.MIFARE_HALT_MAX) :
      TagRun z f (after_HALT_add z (after_select_CL2 z (after_anticoll_CL2
        (after_select_CL1 z (after_anticoll_CL1 f c1) s1) c2) []) h)
  | bulk_read (c1 s1 c2 s2 d0 d1 d2 d3 : List Nat) (hc1 : c1.length ≤ 5)
      (hct : (store f.CL1_buf c1).getD 0 0 = 0x88)
      (hs1 : s1 ≠ []) (hs1l : s1.length ≤ z.MIFARE_SAK_MAX)
      (hc2 : c2 ≠ []) (hc2l : c2.length ≤ 5)
      (hs2 : s2 ≠ []) (hs2l : s2.length ≤ z.MIFARE_SAK_MAX)
      (hul : is_mifare_ul (after_select_CL2 z (after_anticoll_CL2
        (after_select_CL1 z (after_anticoll_CL1 f c1) s1) c2) s2).data)
      (hd0 : d0.length ≤ MIFARE_UL_DATA z) (hd1 : d1.length ≤ MIFARE_UL_DATA z)
      (hd2 : d2.length ≤ MIFARE_UL_DATA z) (hd3 : d3.length ≤ MIFARE_UL_DATA z) :
      TagRun z f (after_READ z (after_READ z (after_READ z (after_READ z
        (after_select_CL2 z (after_anticoll_CL2
          (after_select_CL1 z (after_anticoll_CL1 f c1) s1) c2) s2) 0 d0) 4 d1) 8 d2) 12 d3)
  | selected (c1 s1 c2 s2 : List Nat) (hc1 : c1.length ≤ 5)
      (hct : (store f.CL1_buf c1).getD 0 0 = 0x88)
      (hs1 : s1 ≠ []) (hs1l : s1.length ≤ z.MIFARE_SAK_MAX)
      (hc2 : c2 ≠ []) (hc2l : c2.length ≤ 5)
      (hs2 : s2 ≠ []) (hs2l : s2.length ≤ z.MIFARE_SAK_MAX)
      (hul : ¬ is_mifare_ul (after_select_CL2 z (after_anticoll_CL2
        (after_select_CL1 z (after_anticoll_CL1 f c1) s1) c2) s2).data) :
      TagRun z f (after_select_CL2 z (after_anticoll_CL2
        (after_select_CL1 z (after_anticoll_CL1 f c1) s1) c2) s2)
  | uid_timeout (c1 : List Nat) (hc1 : c1.length ≤ 5)
      (hct : (store f.CL1_buf c1).getD 0 0 ≠ 0x88) :
      TagRun z f (after_anticoll_UID z (after_anticoll_CL1 f c1) [])
  | uid4 (c1 u s h : List Nat) (hc1 : c1.length ≤ 5)
      (hct : (store f.CL1_buf c1).getD 0 0 ≠ 0x88)
      (hu : u ≠ []) (hul : u.length ≤ z.MIFARE_UID_MAX) (hsl : s.length ≤ z.MIFARE_SAK_MAX)
      (hh : h.length ≤ z.MIFARE_HALT_MAX) :
      TagRun z f (after_HALT z (after_select_UID z (after_anticoll_UID z
        (after_anticoll_CL1 f c1) u) s) h)

/-- What the first REQA of a scan receives. -/
def first_ATQA (z : Sizes) (m : Medium) : List Nat :=
  answer m setup_log (REQA z) z.MIFARE_ATQA_MAX

/-- What the second REQA of a scan receives, when the first one received nothing. -/
def second_ATQA (z : Sizes) (m : Medium) : List Nat :=
  answer m (setup_log ++ [⟨REQA z, []⟩]) (REQA z) z.MIFARE_ATQA_MAX

/-! ## Concrete inputs -/

/-- Capacities used in the examples. -/
def sizes0 : Sizes := ⟨20, 4, 4, 11, 4, 64⟩

/-- Some content of the uninitialised locals. -/
def stack0 : Stack := ⟨fun _ => 0xAA, fun _ => 0xBB, fun _ => 0xCC⟩

/-- Some prior content of the result record. -/
def record0 : t_hydranfc_v2_scan_iso14443A := ⟨1, [2], 3, [4], 5, [6], 7, [8], 9, [10], 11, [12]⟩

/-- A tag with a 7 bytes UID: ATQA `04 00`, level 1 `88 01 02 03 04`, SAK `04`,
level 2 `05 06 07 08 0C`; nothing else is answered. -/
def medium_uid7 : Medium := fun _ o =>
  match o with
  | .transceive_bits 0x26 7 _ _ _ => [0x04, 0x00]
  | .transceive_bytes [0x93, 0x20] _ _ _ => [0x88, 1, 2, 3, 4]
  | .transceive_bytes (0x93 :: 0x70 :: _) _ _ _ => [0x04]
  | .transceive_bytes [0x95, 0x20] _ _ _ => [5, 6, 7, 8, 0x0C]
  | _ => []

/-- A tag that answers the request and the level-1 anti-collision with the cascade
tag, and then nothing. -/
def medium_no_sak1 : Medium := fun _ o =>
  match o with
  | .transceive_bits 0x26 7 _ _ _ => [0x04, 0x00]
  | .transceive_bytes [0x93, 0x20] _ _ _ => [0x88, 1, 2, 3, 4]
  | _ => []

/-- A tag with a 4 bytes UID `01 02 03 04` and BCC `04`, SAK `08`. -/
def medium_uid4 : Medium := fun _ o =>
  match o with
  | .transceive_bits 0x26 7 _ _ _ => [0x04, 0x00]
  | .transceive_bytes [0x93, 0x20] _ _ _ => [1, 2, 3, 4, 4]
  | .transceive_bytes (0x93 :: 0x70 :: _) _ _ _ => [0x08]
  | _ => []

/-- A link that answers the second request only. -/
def medium_retry : Medium := fun l o =>
  match o with
  | .transceive_bits 0x26 7 _ _ _ => if l.length ≤ 5 then [] else [0x04, 0x00]
  | _ => []

/-- A link on which nothing answers. -/
def medium_silent : Medium := fun _ _ => []

/-- A Mifare Ultralight whose third block read times out: ATQA `44 00`, SAK1 `04`,
SAK2 `00`, blocks 0, 4 and 12 answered with 4 bytes, block 8 not answered. -/
def medium_ul_gap : Medium := fun _ o =>
  match o with
  | .transceive_bits 0x26 7 _ _ _ => [0x44, 0x00]
  | .transceive_bytes [0x93, 0x20] _ _ _ => [0x88, 1, 2, 3, 4]
  | .transceive_bytes (0x93 :: 0x70 :: _) _ _ _ => [0x04]
  | .transceive_bytes [0x95, 0x20] _ _ _ => [5, 6, 7, 8, 0x0C]
  | .transceive_bytes (0x95 :: 0x70 :: _) _ _ _ => [0x00]
  | .transceive_bytes [0x30, 0] _ _ _ => [0x10, 0x11, 0x12, 0x13]
  | .transceive_bytes [0x30, 4] _ _ _ => [0x14, 0x15, 0x16, 0x17]
  | .transceive_bytes [0x30, 12] _ _ _ => [0x1C, 0x1D, 0x1E, 0x1F]
  | _ => []

/-- A Mifare Ultralight answering every block read but the third: as `medium_ul_gap`
with the fourth read silent too. -/
def medium_ul_8 : Medium := fun _ o =>
  match o with
  | .transceive_bits 0x26 7 _ _ _ => [0x44, 0x00]
  | .transceive_bytes [0x93, 0x20] _ _ _ => [0x88, 1, 2, 3, 4]
  | .transceive_bytes (0x93 :: 0x70 :: _) _ _ _ => [0x04]
  | .transceive_bytes [0x95, 0x20] _ _ _ => [5, 6, 7, 8, 0x0C]
  | .transceive_bytes (0x95 :: 0x70 :: _) _ _ _ => [0x00]
  | .transceive_bytes [0x30, 0] _ _ _ => [0x10, 0x11, 0x12, 0x13]
  | .transceive_bytes [0x30, 4] _ _ _ => [0x14, 0x15, 0x16, 0x17]
  | _ => []

/-- A tag with a 7 bytes UID that is selected at level 2 (SAK2 `20`) and is not a
Mifare Ultralight (ATQA `04 00`). -/
def medium_selected : Medium := fun _ o =>
  match o with
  | .transceive_bits 0x26 7 _ _ _ => [0x04, 0x00]
  | .transceive_bytes [0x93, 0x20] _ _ _ => [0x88, 1, 2, 3, 4]
  | .transceive_bytes (0x93 :: 0x70 :: _) _ _ _ => [0x04]
  | .transceive_bytes [0x95, 0x20] _ _ _ => [5, 6, 7, 8, 0x0C]
  | .transceive_bytes (0x95 :: 0x70 :: _) _ _ _ => [0x20]
  | _ => []

/-! ## Observations on a run -/

/-- The operation is a 7-bit request `0x26` without CRC. -/
def is_REQA : Op → Bool
  | .transceive_bits 0x26 7 _ _ 0 => true
  | _ => false

/-- The operation transmits bytes starting with `cmd`. -/
def sends (cmd : Nat) : Op → Bool
  | .transceive_bytes (c :: _) _ _ _ => c == cmd
  | _ => false

/-- The record of a discovery that found nothing: every count and every byte zero. -/
def no_response (z : Sizes) : t_hydranfc_v2_scan_iso14443A :=
  { atqa_buf_nb_rx_data := 0, atqa_buf := List.replicate z.MIFARE_ATQA_MAX 0
    sak1_buf_nb_rx_data := 0, sak1_buf := List.replicate z.MIFARE_SAK_MAX 0
    sak2_buf_nb_rx_data := 0, sak2_buf := List.replicate z.MIFARE_SAK_MAX 0
    uid_buf_nb_rx_data := 0, uid_buf := List.replicate z.MIFARE_UID_MAX 0
    mf_ul_data_nb_rx_data := 0, mf_ul_data := List.replicate z.MIFARE_UL_DATA_MAX 0
    halt_buf_nb_rx_data := 0, halt_buf := List.replicate z.MIFARE_HALT_MAX 0 }

/-- Whether an operation writes the ISO control register. -/
def is_ISO_WRITE : Op → Bool
  | .WriteSingle (r :: _) => r == ISO_CONTROL
  | _ => false

/-- A tag with a 4 bytes UID whose select-acknowledge arrives as 3 bytes. -/
def medium_uid4_sak3 : Medium := fun _ o =>
  match o with
  | .transceive_bits 0x26 7 _ _ _ => [0x04, 0x00]
  | .transceive_bytes [0x93, 0x20] _ _ _ => [1, 2, 3, 4, 4]
  | .transceive_bytes (0x93 :: 0x70 :: _) _ _ _ => [0x08, 0xB6, 0xDD]
  | _ => []

/-- A Mifare Ultralight answering each of the four block reads with 16 bytes (four
pages), the bytes of block `i` counting up from `16 * i`. -/
def medium_ul_full : Medium := fun _ o =>
  match o with
  | .transceive_bits 0x26 7 _ _ _ => [0x44, 0x00]
  | .transceive_bytes [0x93, 0x20] _ _ _ => [0x88, 1, 2, 3, 4]
  | .transceive_bytes (0x93 :: 0x70 :: _) _ _ _ => [0x04]
  | .transceive_bytes [0x95, 0x20] _ _ _ => [5, 6, 7, 8, 0x0C]
  | .transceive_bytes (0x95 :: 0x70 :: _) _ _ _ => [0x00]
  | .transceive_bytes [0x30, 0] _ _ _ => (List.range 16).map (fun i => i)
  | .transceive_bytes [0x30, 4] _ _ _ => (List.range 16).map (fun i => 16 + i)
  | .transceive_bytes [0x30, 8] _ _ _ => (List.range 16).map (fun i => 32 + i)
  | .transceive_bytes [0x30, 12] _ _ _ => (List.range 16).map (fun i => 48 + i)
  | _ => []

/-! ## `hydranfc_v2_scan_mifare` and `hydranfc_v2_read_mifare_ul` -/

/-- An argument of a `cprintf` call. -/
inductive Arg where
  | num (n : Nat)
  | str (s : String)
  deriving DecidableEq, Repr

/-- A call `cprintf(con, fmt, args...)`: the reporting sink receives the format and the
values; the rendering of the text is left to it. -/
structure Print where
  fmt : String
  args : List Arg
  deriving DecidableEq, Repr

/-- The loops `for (i = lo; i < hi; i++) cprintf(con, " %02X", buf[i]);`. -/
def print_bytes (buf : List Nat) (lo hi : Nat) : List Print :=
  (List.range (hi - lo)).map (fun k => ⟨" %02X", [Arg.num (buf.getD (lo + k) 0)]⟩)

/-- The block printing the ATQA. -/
def report_atqa (d : t_hydranfc_v2_scan_iso14443A) : List Print :=
  if d.atqa_buf_nb_rx_data > 0 then
    [⟨"ATQA:", []⟩] ++ print_bytes d.atqa_buf 0 d.atqa_buf_nb_rx_data ++ [⟨"\r\n", []⟩]
  else []

/-- The block printing SAK1. -/
def report_sak1 (d : t_hydranfc_v2_scan_iso14443A) : List Print :=
  if d.sak1_buf_nb_rx_data > 0 then
    [⟨"SAK1:", []⟩] ++ print_bytes d.sak1_buf 0 d.sak1_buf_nb_rx_data ++ [⟨"\r\n", []⟩]
  else []

/-- The block printing SAK2. -/
def report_sak2 (d : t_hydranfc_v2_scan_iso14443A) : List Print :=
  if d.sak2_buf_nb_rx_data > 0 then
    [⟨"SAK2:", []⟩] ++ print_bytes d.sak2_buf 0 d.sak2_buf_nb_rx_data ++ [⟨"\r\n", []⟩]
  else []

/-- The value of `bcc` after the loop over the first `uid_buf_nb_rx_data - 1` bytes:
`bcc = 0; ... bcc ^= data->uid_buf[i];` on a `uint8_t`. -/
def uid_bcc (d : t_hydranfc_v2_scan_iso14443A) : Nat :=
  (List.range (d.uid_buf_nb_rx_data - 1)).foldl (fun bcc i => u8 (bcc ^^^ d.uid_buf.getD i 0)) 0

/-- The block printing the UID: as it is from 7 bytes on, and otherwise all bytes but
the last one, followed by the last one as BCC with the verdict of the check. -/
def report_uid (d : t_hydranfc_v2_scan_iso14443A) : List Print :=
  if d.uid_buf_nb_rx_data > 0 then
    if d.uid_buf_nb_rx_data ≥ 7 then
      [⟨"UID:", []⟩] ++ print_bytes d.uid_buf 0 d.uid_buf_nb_rx_data ++ [⟨"\r\n", []⟩]
    else
      [⟨"UID:", []⟩] ++ print_bytes d.uid_buf 0 (d.uid_buf_nb_rx_data - 1) ++
        [⟨" (BCC %02X %s)\r\n", [Arg.num (d.uid_buf.getD (d.uid_buf_nb_rx_data - 1) 0),
          Arg.str (if uid_bcc d = d.uid_buf.getD (d.uid_buf_nb_rx_data - 1) 0 then "ok"
            else "NOT OK")]⟩]
  else []

/-- The value `expected_uid_bcc0`, a `uint8_t`. -/
def expected_uid_bcc0 (d : t_hydranfc_v2_scan_iso14443A) : Nat :=
  u8 (ISO14443A_SEL_L1_CT ^^^ d.mf_ul_data.getD 0 0 ^^^ d.mf_ul_data.getD 1 0 ^^^
    d.mf_ul_data.getD 2 0)

/-- The value `obtained_uid_bcc0`. -/
def obtained_uid_bcc0 (d : t_hydranfc_v2_scan_iso14443A) : Nat := d.mf_ul_data.getD 3 0

/-- The value `expected_uid_bcc1`, a `uint8_t`. -/
def expected_uid_bcc1 (d : t_hydranfc_v2_scan_iso14443A) : Nat :=
  u8 (d.mf_ul_data.getD 4 0 ^^^ d.mf_ul_data.getD 5 0 ^^^ d.mf_ul_data.getD 6 0 ^^^
    d.mf_ul_data.getD 7 0)

/-- The value `obtained_uid_bcc1`. -/
def obtained_uid_bcc1 (d : t_hydranfc_v2_scan_iso14443A) : Nat := d.mf_ul_data.getD 8 0

/-- The lines printed for the bulk-read content before the BCC verdicts: the dump with
a line break before every 16th byte, then the UID bytes 0..2 and 4..7 of the content. -/
def report_data_dump (d : t_hydranfc_v2_scan_iso14443A) : List Print :=
  [⟨"DATA:", []⟩] ++
  ((List.range d.mf_ul_data_nb_rx_data).map (fun i =>
    (if i % 16 = 0 then [(⟨"\r\n", []⟩ : Print)] else []) ++
      [⟨" %02X", [Arg.num (d.mf_ul_data.getD i 0)]⟩])).flatten ++
  [⟨"\r\n", []⟩, ⟨"DATA UID:", []⟩] ++
  print_bytes d.mf_ul_data 0 3 ++ print_bytes d.mf_ul_data 4 8 ++ [⟨"\r\n", []⟩]

/-- The line with the expected BCC0 and the verdict of its comparison with byte 3. -/
def report_bcc0 (d : t_hydranfc_v2_scan_iso14443A) : Print :=
  ⟨" (DATA BCC0 %02X %s)\r\n", [Arg.num (expected_uid_bcc0 d),
    Arg.str (if expected_uid_bcc0 d = obtained_uid_bcc0 d then "ok" else "NOT OK")]⟩

/-- The line with the expected BCC1 and the verdict of its comparison with byte 8. -/
def report_bcc1 (d : t_hydranfc_v2_scan_iso14443A) : Print :=
  ⟨" (DATA BCC1 %02X %s)\r\n", [Arg.num (expected_uid_bcc1 d),
    Arg.str (if expected_uid_bcc1 d = obtained_uid_bcc1 d then "ok" else "NOT OK")]⟩

/-- The lines printed for the bulk-read content, up to the two BCC verdicts. -/
def report_data_lines (d : t_hydranfc_v2_scan_iso14443A) : List Print :=
  report_data_dump d ++ [report_bcc0 d, report_bcc1 d]

/-- What `hydranfc_v2_scan_mifare` prints for the record `d` left by the scan. -/
def scan_mifare_report (d : t_hydranfc_v2_scan_iso14443A) : List Print :=
  report_atqa d ++ report_sak1 d ++ report_sak2 d ++ report_uid d ++
    (if d.mf_ul_data_nb_rx_data > 0 then report_data_lines d else [])

/-- The function `hydranfc_v2_scan_mifare`: a scan into a local record, then the
report; the result is the sequence of `cprintf` calls. -/
def hydranfc_v2_scan_mifare (z : Sizes) (m : Medium) (stk : Stack)
    (data_buf : t_hydranfc_v2_scan_iso14443A) : List Print :=
  scan_mifare_report (hydranfc_v2_scan_iso14443A z m stk data_buf).data

/-- Outcomes of the file-system calls of `hydranfc_v2_read_mifare_ul`, which are not
part of the sources: `is_fs_ready()`, the error code of `mount()`, `file_open`,
`file_append` (non-zero on failure) and `file_close`. -/
structure FileSystem where
  is_fs_ready : Bool
  mount : Nat
  file_open : Bool
  file_append : Bool
  file_close : Bool
  deriving DecidableEq, Repr

/-- The end of `hydranfc_v2_read_mifare_ul` once both BCC are right: the content is
written to the file; the lines printed and the value returned. -/
def write_file (fs : FileSystem) (filename : String) : List Print × Bool :=
  if ¬ fs.is_fs_ready ∧ fs.mount ≠ 0 then
    ([⟨"Mount failed: error %d\r\n", [Arg.num fs.mount]⟩], false)
  else if ¬ fs.file_open then
    ([⟨"Failed to open file %s\r\n", [Arg.str filename]⟩], false)
  else if fs.file_append then
    ([⟨"Failed to write file %s\r\n", [Arg.str filename]⟩], false)
  else if ¬ fs.file_close then
    ([⟨"Failed to close file %s\r\n", [Arg.str filename]⟩], false)
  else ([⟨"write file %s with success\r\n", [Arg.str filename]⟩], true)

/-- What `hydranfc_v2_read_mifare_ul` prints and returns for the record `d` left by the
scan. -/
def read_mifare_ul_report (fs : FileSystem) (filename : String)
    (d : t_hydranfc_v2_scan_iso14443A) : List Print × Bool :=
  let head := report_atqa d ++ report_sak1 d ++ report_sak2 d ++ report_uid d
  if d.mf_ul_data_nb_rx_data > 0 then
    if expected_uid_bcc0 d = obtained_uid_bcc0 d ∧ expected_uid_bcc1 d = obtained_uid_bcc1 d then
      (head ++ report_data_lines d ++ (write_file fs filename).1, (write_file fs filename).2)
    else
      (head ++ report_data_lines d ++
        [⟨"Error invalid BCC0/BCC1, file %s not written\r\n", [Arg.str filename]⟩], false)
  else
    (head ++ [⟨"Error no data, file %s not written\r\n", [Arg.str filename]⟩], false)

/-- The function `hydranfc_v2_read_mifare_ul`: a scan into a local record, then the
report and the file; the result is the sequence of `cprintf` calls and the value
returned (TRUE on success). -/
def hydranfc_v2_read_mifare_ul (z : Sizes) (m : Medium) (stk : Stack) (fs : FileSystem)
    (filename : String) (data_buf : t_hydranfc_v2_scan_iso14443A) : List Print × Bool :=
  read_mifare_ul_report fs filename (hydranfc_v2_scan_iso14443A z m stk data_buf).data

/-- The byte `x` with bit `k` flipped. -/
def flip_bit (x k : Nat) : Nat := x ^^^ 2 ^ k

/-- The four bytes `l` with bit `k` of byte `j` flipped. -/
def flip_byte (l : List Nat) (j k : Nat) : List Nat := l.set j (flip_bit (l.getD j 0) k)

/-- The lines printed for a UID record of four bytes `l`, the last one being the BCC,
with the verdict `v`. -/
def uid4_lines (l : List Nat) (v : String) : List Print :=
  [⟨"UID:", []⟩, ⟨" %02X", [Arg.num (l.getD 0 0)]⟩, ⟨" %02X", [Arg.num (l.getD 1 0)]⟩,
   ⟨" %02X", [Arg.num (l.getD 2 0)]⟩, ⟨" (BCC %02X %s)\r\n", [Arg.num (l.getD 3 0), Arg.str v]⟩]

/-- A record holding the single-cascade UID `01 02 03` with its BCC `00`, and nine
bytes of bulk-read content whose two BCC are right. -/
def record_ul : t_hydranfc_v2_scan_iso14443A :=
  { atqa_buf_nb_rx_data := 2, atqa_buf := [0x44, 0x00, 0, 0]
    sak1_buf_nb_rx_data := 1, sak1_buf := [0x04, 0, 0, 0]
    sak2_buf_nb_rx_data := 1, sak2_buf := [0x00, 0, 0, 0]
    uid_buf_nb_rx_data := 4, uid_buf := [1, 2, 3, 0, 0, 0, 0, 0, 0, 0, 0]
    mf_ul_data_nb_rx_data := 9, mf_ul_data := [0x04, 0x01, 0x02, 0x8F, 5, 6, 7, 8, 0x0C]
    halt_buf_nb_rx_data := 0, halt_buf := [0, 0, 0, 0] }

/-- Some outcomes of the file-system calls. -/
def fs0 : FileSystem := ⟨true, 0, true, false, true⟩

/-! ## The mode: `exec`, `show`, `init` and the front-end set-up

The mode functions talk to the console (`cprintf`), to the pads and the SPI driver, to
the RFAL library and to the user button.  Every such call is recorded as an event; the
values that come back from outside (the state of the button at each poll, the result of
`rfalInitialize`, the register dump, the result of `cmd_sd`) are given by a `World`.
Interrupts are not modelled. -/

/-- The radio technologies of `nfc_technology_t`. -/
inductive nfc_technology_t where
  | NFC_ALL | NFC_A | NFC_B | NFC_ST25TB | NFC_V | NFC_F
  deriving DecidableEq, Repr

/-- The enumerators of the command tokens that the mode compares token cells with. -/
inductive Token where
  | T_SD | T_SHOW | T_REGISTERS | T_NFC_ALL | T_NFC_A | T_NFC_B | T_NFC_ST25TB | T_NFC_V
  | T_NFC_F | T_PERIOD | T_CONTINUOUS | T_FILE | T_SCAN | T_READ_MF_ULTRALIGHT
  | T_EMUL_MF_ULTRALIGHT | T_CLONE_MF_ULTRALIGHT | T_TRACE_UART1 | T_FRAME_TIME | T_BIN
  | T_PARITY | T_RAW | T_SNIFF | T_EMUL_MIFARE | T_EMUL_ISO14443A | T_DIRECT_MODE_0
  | T_DIRECT_MODE_1 | T_ARG_STRING
  deriving DecidableEq, Repr

/-- Every enumerator, in the order above. -/
def Token.all : List Token :=
  [.T_SD, .T_SHOW, .T_REGISTERS, .T_NFC_ALL, .T_NFC_A, .T_NFC_B, .T_NFC_ST25TB, .T_NFC_V,
   .T_NFC_F, .T_PERIOD, .T_CONTINUOUS, .T_FILE, .T_SCAN, .T_READ_MF_ULTRALIGHT,
   .T_EMUL_MF_ULTRALIGHT, .T_CLONE_MF_ULTRALIGHT, .T_TRACE_UART1, .T_FRAME_TIME, .T_BIN,
   .T_PARITY, .T_RAW, .T_SNIFF, .T_EMUL_MIFARE, .T_EMUL_ISO14443A, .T_DIRECT_MODE_0,
   .T_DIRECT_MODE_1, .T_ARG_STRING]

/-- What the headers outside the sources at hand fix: the `int` value of each token
enumerator, `ERR_NONE`, the size of a file name, the extent of the two register spaces
and the name of each technology (`nfc_technology_to_str`). -/
structure Consts where
  code : Token → Int
  ERR_NONE : Int
  FILENAME_SIZE : Nat
  ST25R3916_REG_IC_IDENTITY : Nat
  ST25R3916_SPACE_B_REG_LEN : Nat
  nfc_technology_to_str : nfc_technology_t → String

/-- The enumerators have distinct values and none is 0, the end mark of a token list. -/
def Consts.WF (K : Consts) : Prop :=
  (Token.all.map K.code).Nodup ∧ (0 : Int) ∉ Token.all.map K.code

instance (K : Consts) : Decidable K.WF := by
  unfold Consts.WF
  exact inferInstance

/-- The enumerator a cell value stands for, as the `case` labels of a `switch` read
it. -/
def Consts.token (K : Consts) (n : Int) : Option Token :=
  Token.all.find? (fun k => K.code k == n)

/-- A parsed command line, `t_tokenline_parsed`: the token cells, and what `buf` holds at
an offset, read as an `int` (`memcpy(&x, p->buf + off, sizeof(int))`) or as a string
(`p->buf + off`). -/
structure t_tokenline_parsed where
  tokens : List Int
  buf_int : Int → Int
  buf_str : Int → String

/-- The cell `p->tokens[i]`; the cells behind the list read 0, the end mark. -/
def t_tokenline_parsed.tok (p : t_tokenline_parsed) (i : Nat) : Int :=
  p.tokens.getD i 0

/-- An argument of a `cprintf` call of the mode. -/
inductive ModeArg where
  | int (i : Int)
  | nat (n : Nat)
  | str (s : String)
  deriving DecidableEq, Repr

/-- A call to the outside, in the order of execution. -/
inductive Event where
  | cprintf (fmt : String) (args : List ModeArg)
  | call (fn : String)
  | rfalInitialize (err : Int)
  | st25r3916GetRegsDump (err : Int)
  | cmd_sd (ret : Int)
  | ScanTags (nfc_tech : nfc_technology_t)
  | hydrabus_ubtn (pressed : Bool)
  | chThdSleepMilliseconds (ms : Int)
  deriving DecidableEq, Repr

/-- What comes back from outside during a run: the state of the user button at each
poll, the result of `rfalInitialize`, the error code and the two register spaces of each
`st25r3916GetRegsDump`, and the result of `cmd_sd`. -/
structure World where
  hydrabus_ubtn : Nat → Bool
  rfalInitialize : Int
  st25r3916GetRegsDump : Nat → Int × (Nat → Nat) × (Nat → Nat)
  cmd_sd : Int

/-- The state the mode functions work on: the technology selected on the console
(`proto->config.hydranfc.nfc_technology`), whether `st25r3916_irq_fn` is set to
`st25r3916Isr` (rather than `NULL`), `irq_count`, whether `key_sniff_thread` is set, the
number of polls of the button and of register dumps so far, and the events so far. -/
structure Mode where
  nfc_technology : nfc_technology_t
  st25r3916_irq_fn : Bool
  irq_count : Int
  key_sniff_thread : Bool
  polls : Nat
  dumps : Nat
  out : List Event

/-- Record events. -/
def Mode.emit (s : Mode) (es : List Event) : Mode :=
  { s with out := s.out ++ es }

/-- The locals of `exec`. -/
structure exec_locals where
  action : Int
  period : Int
  t : Nat
  continuous : Bool
  mifare_uid : Int
  sd_file : String
  sniff_trace_uart1 : Bool
  sniff_raw : Bool
  sniff_bin : Bool
  sniff_frame_time : Bool
  sniff_parity : Bool

/-- The locals of `exec` when the token loop starts. -/
def exec_locals.start (token_pos : Nat) : exec_locals :=
  { action := 0, period := 1000, t := token_pos, continuous := false, mifare_uid := 0
    sd_file := "", sniff_trace_uart1 := false, sniff_raw := false, sniff_bin := false
    sniff_frame_time := false, sniff_parity := false }

/-- The call `snprintf(sd_file.filename, FILENAME_SIZE, "0:%s", p->buf + str_offset)`. -/
def set_filename (K : Consts) (p : t_tokenline_parsed) (str_offset : Int) : String :=
  ("0:" ++ p.buf_str str_offset).take (K.FILENAME_SIZE - 1)

/-- The function `show_registers`. -/
def show_registers (K : Consts) (W : World) (s : Mode) : Mode :=
  let regDump := W.st25r3916GetRegsDump s.dumps
  let err := regDump.1
  let s := { s with dumps := s.dumps + 1, out := s.out ++ [Event.st25r3916GetRegsDump err] }
  let s := if err ≠ K.ERR_NONE then
    s.emit [.cprintf "st25r3916GetRegsDump() error=%d\r\n" [.int err]] else s
  let s := s.emit [.cprintf "ST25R3916 Registers space A:\r\n" []]
  let s := s.emit ((List.range (K.ST25R3916_REG_IC_IDENTITY + 1)).map (fun i =>
    Event.cprintf "0x%02x\t: 0x%02x\r\n" [.nat i, .nat (regDump.2.1 i)]))
  let s := s.emit [.cprintf "\r\n" []]
  let s := s.emit [.cprintf "ST25R3916 Registers space B:\r\n" []]
  s.emit ((List.range K.ST25R3916_SPACE_B_REG_LEN).map (fun i =>
    Event.cprintf "0x%02x\t: 0x%02x\r\n" [.nat i, .nat (regDump.2.2 i)]))

/-- The function `show`: the number of tokens used and the state after it. -/
def show_cmd (K : Consts) (W : World) (p : t_tokenline_parsed) (s : Mode) : Nat × Mode :=
  if p.tok 1 = K.code .T_REGISTERS then
    (1, show_registers K W s)
  else
    (0, s.emit [.cprintf "Selected technology: NFC-%s\r\n"
      [.str (K.nfc_technology_to_str s.nfc_technology)]])

/-- The function `scan`. -/
def scan (s : Mode) (nfc_tech : nfc_technology_t) : Mode :=
  s.emit [.ScanTags nfc_tech]

/-- The body of the token loop of `exec` for the cell `p->tokens[t]`: the `switch` on
it.  The result is `none` when the body leaves `exec` by `return FALSE`. -/
def exec_token (K : Consts) (W : World) (p : t_tokenline_parsed) (l : exec_locals)
    (s : Mode) : Option (exec_locals × Mode) :=
  match K.token (p.tok l.t) with
  | some .T_SHOW =>
    let r := show_cmd K W p s
    some ({ l with t := l.t + r.1 }, r.2)
  | some .T_NFC_ALL => some (l, { s with nfc_technology := .NFC_ALL })
  | some .T_NFC_A => some (l, { s with nfc_technology := .NFC_A })
  | some .T_NFC_B => some (l, { s with nfc_technology := .NFC_B })
  | some .T_NFC_ST25TB => some (l, { s with nfc_technology := .NFC_ST25TB })
  | some .T_NFC_V => some (l, { s with nfc_technology := .NFC_V })
  | some .T_NFC_F => some (l, { s with nfc_technology := .NFC_F })
  | some .T_PERIOD =>
    some ({ l with t := l.t + 2, period := p.buf_int (p.tok (l.t + 2)) }, s)
  | some .T_CONTINUOUS => some ({ l with continuous := true }, s)
  | some .T_FILE => some ({ l with sd_file := set_filename K p (p.tok (l.t + 3)) }, s)
  | some .T_SCAN => some ({ l with action := p.tok l.t }, s)
  | some .T_READ_MF_ULTRALIGHT =>
    if p.tok (l.t + 1) ≠ K.code .T_ARG_STRING ∨ p.tok (l.t + 3) ≠ 0 then none
    else some ({ l with action := p.tok l.t
                        sd_file := set_filename K p (p.tok (l.t + 2)) }, s)
  | some .T_EMUL_MF_ULTRALIGHT => some ({ l with action := p.tok l.t }, s)
  | some .T_CLONE_MF_ULTRALIGHT => some ({ l with action := p.tok l.t }, s)
  | some .T_TRACE_UART1 => some ({ l with sniff_trace_uart1 := true }, s)
  | some .T_FRAME_TIME => some ({ l with sniff_frame_time := true }, s)
  | some .T_BIN => some ({ l with sniff_bin := true }, s)
  | some .T_PARITY => some ({ l with sniff_parity := true }, s)
  | some .T_RAW => some ({ l with sniff_raw := true }, s)
  | some .T_SNIFF => some ({ l with action := p.tok l.t }, s)
  | some .T_EMUL_MIFARE =>
    some ({ l with action := p.tok l.t, t := l.t + 2
                   mifare_uid := p.buf_int (p.tok (l.t + 2)) }, s)
  | some .T_EMUL_ISO14443A => some ({ l with action := p.tok l.t }, s)
  | some .T_DIRECT_MODE_0 => some ({ l with action := p.tok l.t }, s)
  | some .T_DIRECT_MODE_1 => some ({ l with action := p.tok l.t }, s)
  | _ => some (l, s)

/-- How the token loop of `exec` ends. -/
inductive Parse where
  | done (l : exec_locals) (s : Mode)
  | returned (v : Int) (s : Mode)
  | out_of_fuel

/-- The token loop `for (t = token_pos; p->tokens[t]; t++) switch (p->tokens[t]) ...` of
`exec`, at most `fuel` tests of the loop condition. -/
def exec_tokens (K : Consts) (W : World) (p : t_tokenline_parsed) :
    Nat → exec_locals → Mode → Parse
  | 0, _, _ => .out_of_fuel
  | fuel + 1, l, s =>
    if p.tok l.t = 0 then .done l s
    else
      match exec_token K W p l s with
      | none => .returned 0 s
      | some (l1, s1) => exec_tokens K W p fuel { l1 with t := l1.t + 1 } s1

/-- The loop `while (!hydrabus_ubtn()) { scan(con, nfc_tech);
chThdSleepMilliseconds(period); }` of `exec`, at most `fuel` polls of the button; `none`
when the button was not found pressed within these. -/
def continuous_scan (W : World) (nfc_tech : nfc_technology_t) (period : Int) :
    Nat → Mode → Option Mode
  | 0, _ => none
  | fuel + 1, s =>
    let pressed := W.hydrabus_ubtn s.polls
    let s := { s with polls := s.polls + 1, out := s.out ++ [Event.hydrabus_ubtn pressed] }
    if pressed then some s
    else continuous_scan W nfc_tech period fuel
      ((scan s nfc_tech).emit [.chThdSleepMilliseconds period])

/-- The `switch (action)` of `exec`. -/
def exec_action (K : Consts) (W : World) (l : exec_locals) (s : Mode) (fuel : Nat) :
    Option Mode :=
  match K.token l.action with
  | some .T_SCAN =>
    let nfc_tech := s.nfc_technology
    let s := { s with st25r3916_irq_fn := true }
    let r :=
      if l.continuous then
        let s := s.emit [.cprintf "Scanning NFC-%s " [.str (K.nfc_technology_to_str nfc_tech)]]
        let s := s.emit [.cprintf "with %dms period. Press user button to stop.\r\n"
          [.int l.period]]
        continuous_scan W nfc_tech l.period fuel s
      else some (scan s nfc_tech)
    r.map (fun s => { s with irq_count := 0, st25r3916_irq_fn := false })
  | some .T_READ_MF_ULTRALIGHT =>
    some (s.emit [.cprintf "T_READ_MF_ULTRALIGHT not implemented.\r\n" []])
  | some .T_EMUL_MF_ULTRALIGHT =>
    some (s.emit [.cprintf "T_EMUL_MF_ULTRALIGHT not implemented.\r\n" []])
  | some .T_CLONE_MF_ULTRALIGHT =>
    some (s.emit [.cprintf "T_CLONE_MF_ULTRALIGHT not implemented.\r\n" []])
  | some .T_SNIFF => some (s.emit [.cprintf "T_SNIFF not implemented.\r\n" []])
  | some .T_EMUL_MIFARE => some (s.emit [.cprintf "T_EMUL_MIFARE not implemented.\r\n" []])
  | some .T_EMUL_ISO14443A =>
    some (s.emit [.cprintf "T_EMUL_ISO14443A not implemented.\r\n" []])
  | some .T_DIRECT_MODE_0 => some s
  | some .T_DIRECT_MODE_1 => some s
  | _ => some s

/-- The function `exec`: the value returned and the state after it; `none` when the
continuous scan did not end within `fuel` polls of the button.  The token loop is given
one test of its condition more than there are cells, which is as many as it can use. -/
def exec (K : Consts) (W : World) (p : t_tokenline_parsed) (token_pos : Nat) (s : Mode)
    (fuel : Nat) : Option (Int × Mode) :=
  if p.tok token_pos = K.code .T_SD then
    some (W.cmd_sd, s.emit [.cmd_sd W.cmd_sd])
  else
    let s := { s with st25r3916_irq_fn := false }
    match exec_tokens K W p (p.tokens.length + 1) (exec_locals.start token_pos) s with
    | .out_of_fuel => none
    | .returned v s => some (v, s)
    | .done l s => (exec_action K W l s fuel).map (fun s => ((l.t : Int) - token_pos, s))

/-- The function `hydranfc_v2_init_RFAL` (`DPO_ENABLE` is not defined). -/
def hydranfc_v2_init_RFAL (K : Consts) (W : World) (s : Mode) : Int × Mode :=
  let s := s.emit [.call "rfalAnalogConfigInitialize()"]
  let err := W.rfalInitialize
  let s := s.emit [.rfalInitialize err]
  if err ≠ K.ERR_NONE then
    (err, s.emit [.cprintf "hydranfc_v2_init_RFAL rfalInitialize() error=%d\r\n" [.int err]])
  else (err, s)

/-- The calls of `init_gpio_spi_nfc` before the RFAL is initialised.  The assignments to
`mode_con1.proto.config.spi` are the parameters of the first call. -/
def gpio_spi_nfc_calls : List Event :=
  [.call "bsp_spi_init(BSP_DEV_SPI2, &mode_con1.proto)",
   .call "palSetPadMode(GPIOA, 5, PAL_MODE_ALTERNATE(5) | PAL_STM32_OSPEED_MID1)",
   .call "palSetPadMode(GPIOA, 6, PAL_MODE_ALTERNATE(5) | PAL_STM32_OSPEED_MID1)",
   .call "palSetPadMode(GPIOA, 7, PAL_MODE_ALTERNATE(5) | PAL_STM32_OSPEED_MID1)",
   .call "palSetPadMode(GPIOB, 8, PAL_MODE_INPUT)",
   .call "palSetPadMode(GPIOB, 9, PAL_MODE_INPUT)",
   .call "D1_OFF", .call "D2_OFF", .call "D3_OFF", .call "D4_OFF",
   .call "palSetPadMode(GPIOB, 0, PAL_MODE_OUTPUT_PUSHPULL | PAL_STM32_OSPEED_MID1)",
   .call "palSetPadMode(GPIOB, 3, PAL_MODE_OUTPUT_PUSHPULL | PAL_STM32_OSPEED_MID1)",
   .call "palSetPadMode(GPIOB, 4, PAL_MODE_OUTPUT_PUSHPULL | PAL_STM32_OSPEED_MID1)",
   .call "palSetPadMode(GPIOB, 5, PAL_MODE_OUTPUT_PUSHPULL | PAL_STM32_OSPEED_MID1)",
   .call "palDisablePadEvent(GPIOA, 1)",
   .call "palClearPad(GPIOA, 1)",
   .call "palSetPadMode(GPIOA, 1, PAL_MODE_INPUT | PAL_STM32_OSPEED_MID1)",
   .call "palEnablePadEvent(GPIOA, 1, PAL_EVENT_MODE_RISING_EDGE)",
   .call "palSetPadCallback(GPIOA, 1, &extcb1, NULL)"]

/-- The function `init_gpio_spi_nfc`: `TRUE` or `FALSE`, and the state after it. -/
def init_gpio_spi_nfc (K : Consts) (W : World) (s : Mode) : Bool × Mode :=
  let s := s.emit gpio_spi_nfc_calls
  let s := { s with st25r3916_irq_fn := true }
  let s := s.emit [.call "hal_st25r3916_spiInit(ST25R391X_SPI_DEVICE)"]
  let r := hydranfc_v2_init_RFAL K W s
  if r.1 ≠ K.ERR_NONE then
    (false, r.2.emit [.cprintf "HydraNFC v2 not found.\r\n" []])
  else (true, r.2)

/-- The calls of `deinit_gpio_spi_nfc`. -/
def deinit_calls : List Event :=
  [.call "palClearPad(GPIOA, 1)",
   .call "palSetPadMode(GPIOA, 1, PAL_MODE_INPUT)",
   .call "palDisablePadEvent(GPIOA, 1)",
   .call "bsp_spi_deinit(BSP_DEV_SPI2)",
   .call "palSetPadMode(GPIOA, 5, PAL_MODE_INPUT)",
   .call "palSetPadMode(GPIOA, 6, PAL_MODE_INPUT)",
   .call "palSetPadMode(GPIOA, 7, PAL_MODE_INPUT)"]

/-- The function `deinit_gpio_spi_nfc`. -/
def deinit_gpio_spi_nfc (s : Mode) : Mode :=
  { s.emit deinit_calls with st25r3916_irq_fn := false }

/-- The function `init` of the mode: the number of tokens used and the state after it.
`con` tells whether the console pointer is not `NULL`, `p` is `none` for a `NULL` command
line. -/
def init (K : Consts) (W : World) (con : Bool) (p : Option t_tokenline_parsed) (s : Mode)
    (fuel : Nat) : Option (Int × Mode) :=
  let s := if con then { s with nfc_technology := .NFC_ALL } else s
  let r := init_gpio_spi_nfc K W s
  if r.1 = false then
    some (0, deinit_gpio_spi_nfc r.2)
  else
    match p with
    | some p =>
      if con then (exec K W p 1 r.2 fuel).map (fun e => (1 + e.1, e.2))
      else some (0, r.2)
    | none => some (0, r.2)

/-- The function `hydranfc_cleanup`. -/
def hydranfc_cleanup (s : Mode) : Mode :=
  let s := if s.key_sniff_thread then
    { s.emit [.call "chThdTerminate(key_sniff_thread)", .call "chThdWait(key_sniff_thread)"]
      with key_sniff_thread := false }
    else s
  deinit_gpio_spi_nfc s

/-- The function `hydranfc_v2_is_detected`. -/
def hydranfc_v2_is_detected (K : Consts) (W : World) (s : Mode) : Bool × Mode :=
  let r := init_gpio_spi_nfc K W s
  if r.1 = false then (false, deinit_gpio_spi_nfc r.2) else (true, r.2)

/-- The function `hydranfc_init`: it calls `init(con, NULL)` and returns `TRUE`. -/
def hydranfc_init (K : Consts) (W : World) (con : Bool) (s : Mode) (fuel : Nat) :
    Option (Bool × Mode) :=
  (init K W con none s fuel).map (fun r => (true, r.2))

/-! ### Concrete inputs for the mode -/

/-- Token values: the enumerators numbered from 1 in the order of `Token.all`. -/
def consts0 : Consts :=
  { code := fun k => (Token.all.indexOf k : Int) + 1
    ERR_NONE := 0
    FILENAME_SIZE := 255
    ST25R3916_REG_IC_IDENTITY := 0x3F
    ST25R3916_SPACE_B_REG_LEN := 16
    nfc_technology_to_str := fun
      | .NFC_ALL => "A/B/V/F"
      | .NFC_A => "A"
      | .NFC_B => "B"
      | .NFC_ST25TB => "B (ST25TB)"
      | .NFC_V => "V"
      | .NFC_F => "F" }

/-- A world with a working front-end and the user button pressed from the first poll. -/
def world_pressed : World :=
  { hydrabus_ubtn := fun _ => true
    rfalInitialize := 0
    st25r3916GetRegsDump := fun _ => (0, fun _ => 0, fun _ => 0)
    cmd_sd := 0 }

/-- A world in which `rfalInitialize` fails with error 5. -/
def world_no_chip : World :=
  { world_pressed with rfalInitialize := 5 }

/-- The state of the mode before anything ran. -/
def mode0 : Mode :=
  { nfc_technology := .NFC_ALL, st25r3916_irq_fn := false, irq_count := 0
    key_sniff_thread := false, polls := 0, dumps := 0, out := [] }

/-- A command line made of token cells only, with 50 stored in `buf` at offset 0. -/
def cmdline (tokens : List Int) : t_tokenline_parsed :=
  { tokens := tokens, buf_int := fun off => if off = 0 then 50 else 0, buf_str := fun _ => "" }

/-! ## Lemmas: the scan follows the paths -/

theorem u8_of_le {n : Nat} (h : n ≤ 255) : u8 n = n := by
  unfold u8; omega

theorem answer_length_le (m : Medium) (l : List Ev) (o : Op) (k : Nat) :
    (answer m l o k).length ≤ k := by
  simp [answer]

theorem cmd2 (buf : List Nat) (a b : Nat) (h : 2 ≤ buf.length) :
    ((buf.set 0 a).set 1 b).take 2 = [a, b] := by
  match buf, h with
  | x :: y :: t, _ => simp

theorem scan_setup_eq (z : Sizes) (hz : z.WF) (stk : Stack) (data) :
    scan_setup (scan_entry z stk data) = after_setup z stk data := by
  obtain ⟨h1, -⟩ := hz
  have h2 : 2 ≤ z.MIFARE_DATA_MAX := by omega
  simp [scan_setup, scan_entry, after_setup, Frame.emit, Frame.setb, setup_log, ISO_WRITE, cmd2, h2]

theorem send_REQA_eq (z : Sizes) (hz : z.WF) (m : Medium) (f : Frame) (hd : 2 ≤ f.data_buf.length) :
    send_REQA z m f = after_REQA z f (answer m f.log (REQA z) z.MIFARE_ATQA_MAX) := by
  have hl := answer_length_le m f.log (REQA z) z.MIFARE_ATQA_MAX
  have h3 : z.MIFARE_ATQA_MAX ≤ 255 := hz.2.2.2.1
  match hb : f.data_buf, hd with
  | x :: y :: t, _ =>
    simp [send_REQA, Trf797x_transceive_bits, Frame.setb, Frame.xchg, after_REQA, hb, REQA,
      u8_of_le (le_trans hl h3)]
    rw [u8_of_le]
    exact le_trans hl h3

theorem copy_loop_succ (buf src : List Nat) (n : Nat) :
    copy_loop buf src (n + 1) = (copy_loop buf src n).set (2 + n) (src.getD n 0) := by
  simp [copy_loop, List.range_succ]

theorem copy_loop_length (buf src : List Nat) (n : Nat) :
    (copy_loop buf src n).length = buf.length := by
  induction n with
  | zero => simp [copy_loop]
  | succ n ih => rw [copy_loop_succ]; simp [ih]

theorem copy_loop_take (buf src : List Nat) (n : Nat) (hb : 2 + n ≤ buf.length)
    (hs : n ≤ src.length) : (copy_loop buf src n).take (2 + n) = buf.take 2 ++ src.take n := by
  induction n with
  | zero => simp [copy_loop]
  | succ n ih =>
    have h1 : (copy_loop buf src n).take (2 + n) = buf.take 2 ++ src.take n :=
      ih (by omega) (by omega)
    have hl := copy_loop_length buf src n
    have hn : n < src.length := by omega
    rw [copy_loop_succ, ← Nat.add_assoc, List.take_succ, List.set_take,
      List.set_eq_of_length_le (by simp), h1]
    rw [List.getElem?_set_self (by omega), List.take_succ, List.getD_eq_getElem _ _ hn]
    simp [List.getElem?_eq_getElem hn]

theorem send_HALT_eq (z : Sizes) (hz : z.WF) (m : Medium) (f : Frame) (hd : 2 ≤ f.data_buf.length) :
    send_HALT z m f = after_HALT z f (answer m f.log (HALT z) z.MIFARE_HALT_MAX) := by
  have hl := answer_length_le m f.log (HALT z) z.MIFARE_HALT_MAX
  have h3 : z.MIFARE_HALT_MAX ≤ 255 := hz.2.2.2.2.2.2.2.1
  simp only [send_HALT, Trf797x_transceive_bytes, Frame.setb, Frame.xchg, after_HALT, HALT,
    cmd2 _ _ _ hd]
  rw [u8_of_le]
  exact le_trans hl h3

theorem send_HALT_add_eq (z : Sizes) (m : Medium) (f : Frame) (hd : 2 ≤ f.data_buf.length) :
    send_HALT_add z m f = after_HALT_add z f (answer m f.log (HALT z) z.MIFARE_HALT_MAX) := by
  simp only [send_HALT_add, Trf797x_transceive_bytes, Frame.setb, Frame.xchg, after_HALT_add, HALT,
    cmd2 _ _ _ hd]

theorem read_block_eq (z : Sizes) (m : Medium) (f : Frame) (i : Nat) (hi : i ≤ 255)
    (hd : 2 ≤ f.data_buf.length) :
    read_block z m f i = after_READ z f i (answer m f.log (READ z i) (MIFARE_UL_DATA z)) := by
  simp only [read_block, Trf797x_transceive_bytes, Frame.setb, Frame.xchg, after_READ, READ,
    cmd2 _ _ _ hd, u8_of_le hi]

theorem length_pos_iff_ne_nil (r : List Nat) : 0 < r.length ↔ r ≠ [] := by
  cases r <;> simp

theorem read_blocks_eq (z : Sizes) (m : Medium) (f : Frame) (hd : 2 ≤ f.data_buf.length) :
    ∃ d0 d1 d2 d3 : List Nat,
      d0.length ≤ MIFARE_UL_DATA z ∧ d1.length ≤ MIFARE_UL_DATA z ∧
      d2.length ≤ MIFARE_UL_DATA z ∧ d3.length ≤ MIFARE_UL_DATA z ∧
      read_blocks z m f =
        after_READ z (after_READ z (after_READ z (after_READ z f 0 d0) 4 d1) 8 d2) 12 d3 := by
  have e0 := read_block_eq z m f 0 (by omega) hd
  have e1 := read_block_eq z m (read_block z m f 0) 4 (by omega) (by rw [e0]; simpa [after_READ])
  have e2 := read_block_eq z m (read_block z m (read_block z m f 0) 4) 8 (by omega)
    (by rw [e1]; simp only [after_READ, List.length_set]; rw [e0]; simpa [after_READ])
  have e3 := read_block_eq z m (read_block z m (read_block z m (read_block z m f 0) 4) 8) 12
    (by omega)
    (by rw [e2]; simp only [after_READ, List.length_set]; rw [e1];
        simp only [after_READ, List.length_set]; rw [e0]; simpa [after_READ])
  simp only [read_blocks, List.foldl]
  rw [e3, e2, e1, e0]
  refine ⟨_, _, _, _, ?_, ?_, ?_, ?_, rfl⟩ <;> exact answer_length_le _ _ _ _

theorem scan_cl2_select_eq (z : Sizes) (hz : z.WF) (m : Medium) (f : Frame)
    (hd : 7 ≤ f.data_buf.length) (hs : f.CL2_buf_size ≤ f.CL2_buf.length)
    (h5 : f.CL2_buf_size ≤ 5) :
    ∃ s : List Nat, s.length ≤ z.MIFARE_SAK_MAX ∧
      scan_cl2_select z m f =
        if s = [] then send_HALT_add z m (after_select_CL2 z f s)
        else if is_mifare_ul (after_select_CL2 z f s).data then
          read_blocks z m (after_select_CL2 z f s)
        else after_select_CL2 z f s := by
  refine ⟨answer m (f.log ++ [⟨ISO_WRITE 0x08, []⟩])
    (SELECT_CL2 z (f.CL2_buf.take f.CL2_buf_size)) z.MIFARE_SAK_MAX, answer_length_le _ _ _ _, ?_⟩
  have h3 : z.MIFARE_SAK_MAX ≤ 255 := hz.2.2.2.2.2.1
  have hu : ∀ l o, u8 (answer m l o z.MIFARE_SAK_MAX).length
      = (answer m l o z.MIFARE_SAK_MAX).length :=
    fun l o => u8_of_le (le_trans (answer_length_le m l o _) h3)
  have htx : (copy_loop ((((f.data_buf.set 0 ISO_CONTROL).set 1 0x08).set 0 0x95).set 1 0x70)
      f.CL2_buf f.CL2_buf_size).take (2 + f.CL2_buf_size)
      = 0x95 :: 0x70 :: f.CL2_buf.take f.CL2_buf_size := by
    rw [copy_loop_take _ _ _ (by simp; omega) hs, cmd2 _ _ _ (by simp; omega)]
    rfl
  simp only [scan_cl2_select, Trf797x_transceive_bytes, Frame.setb, Frame.xchg, Frame.emit,
    copy_to_data_buf, push_uid_loop, cmd2 _ _ _ (show 2 ≤ f.data_buf.length by omega), htx,
    after_select_CL2, ISO_WRITE, SELECT_CL2, List.append_assoc, List.singleton_append, hu,
    gt_iff_lt, length_pos_iff_ne_nil]
  generalize answer m _ _ _ = r
  by_cases h : r = []
  · simp only [h, ne_eq, not_true_eq_false, if_false, if_true]
    rfl
  · simp only [h, ne_eq, not_false_eq_true, if_false, if_true]
    rfl

theorem scan_cl2_eq (z : Sizes) (m : Medium) (f : Frame) (hd : 2 ≤ f.data_buf.length) :
    ∃ c : List Nat, c.length ≤ MIFARE_CL2_MAX ∧
      scan_cl2 z m f =
        if c = [] then after_anticoll_CL2 f c
        else scan_cl2_select z m (after_anticoll_CL2 f c) := by
  refine ⟨answer m f.log ANTICOLL_CL2 MIFARE_CL2_MAX, answer_length_le _ _ _ _, ?_⟩
  have hu : ∀ l o, u8 (answer m l o MIFARE_CL2_MAX).length
      = (answer m l o MIFARE_CL2_MAX).length :=
    fun l o => u8_of_le (le_trans (answer_length_le m l o _) (by decide))
  simp only [scan_cl2, Trf797x_transceive_bytes, Frame.setb, Frame.xchg, cmd2 _ _ _ hd,
    after_anticoll_CL2, ANTICOLL_CL2, hu, gt_iff_lt, length_pos_iff_ne_nil]
  generalize answer m _ _ _ = r
  by_cases h : r = []
  · simp only [h, ne_eq, not_true_eq_false, if_false, if_true]
  · simp only [h, ne_eq, not_false_eq_true, if_false, if_true]

theorem scan_uid7_eq (z : Sizes) (hz : z.WF) (m : Medium) (f : Frame)
    (hd : 7 ≤ f.data_buf.length) (hs : f.CL1_buf_size ≤ f.CL1_buf.length)
    (h5 : f.CL1_buf_size ≤ 5) :
    ∃ s : List Nat, s.length ≤ z.MIFARE_SAK_MAX ∧
      scan_uid7 z m f =
        if s = [] then after_select_CL1 z f s
        else scan_cl2 z m (after_select_CL1 z f s) := by
  refine ⟨answer m f.log (SELECT_CL1 z (f.CL1_buf.take f.CL1_buf_size)) z.MIFARE_SAK_MAX,
    answer_length_le _ _ _ _, ?_⟩
  have h3 : z.MIFARE_SAK_MAX ≤ 255 := hz.2.2.2.2.2.1
  have hu : ∀ l o, u8 (answer m l o z.MIFARE_SAK_MAX).length
      = (answer m l o z.MIFARE_SAK_MAX).length :=
    fun l o => u8_of_le (le_trans (answer_length_le m l o _) h3)
  have hv : ∀ l o, u8 ((answer m l o z.MIFARE_SAK_MAX).length - 2)
      = (answer m l o z.MIFARE_SAK_MAX).length - 2 :=
    fun l o => u8_of_le (le_trans (Nat.sub_le _ _) (le_trans (answer_length_le m l o _) h3))
  have htx : (copy_loop ((f.data_buf.set 0 0x93).set 1 0x70)
      f.CL1_buf f.CL1_buf_size).take (2 + f.CL1_buf_size)
      = 0x93 :: 0x70 :: f.CL1_buf.take f.CL1_buf_size := by
    rw [copy_loop_take _ _ _ (by simp; omega) hs, cmd2 _ _ _ (by omega)]
    rfl
  simp only [scan_uid7, Trf797x_transceive_bytes, Frame.setb, Frame.xchg,
    copy_to_data_buf, push_uid_loop, htx, after_select_CL1, SELECT_CL1, hu, hv, ge_iff_le,
    gt_iff_lt]
  generalize answer m _ _ _ = r
  by_cases h : r = []
  · subst h
    rfl
  · have hp : 0 < r.length := (length_pos_iff_ne_nil r).2 h
    by_cases h3 : 3 ≤ r.length
    · have : 0 < r.length - 2 := by omega
      simp only [h3, if_true, this, h, if_false]
      rfl
    · simp only [h3, if_false, hp, if_true, h]
      rfl

theorem store_length (a r : List Nat) : (store a r).length = a.length := by
  simp only [store, List.length_append, List.length_take, List.length_drop]
  omega

theorem store_take (a r : List Nat) (h : r.length ≤ a.length) :
    (store a r).take r.length = r := by
  simp only [store, List.take_of_length_le h]
  exact List.take_left _ _

theorem scan_uid4_eq (z : Sizes) (hz : z.WF) (m : Medium) (f : Frame)
    (hd : 2 + z.MIFARE_UID_MAX ≤ f.data_buf.length) (hcmd : f.data_buf.take 2 = [0x93, 0x20])
    (hlen : f.data.uid_buf.length = z.MIFARE_UID_MAX) :
    ∃ u s h : List Nat, u.length ≤ z.MIFARE_UID_MAX ∧ s.length ≤ z.MIFARE_SAK_MAX ∧
      h.length ≤ z.MIFARE_HALT_MAX ∧
      scan_uid4 z m f =
        if u = [] then after_anticoll_UID z f u
        else after_HALT z (after_select_UID z (after_anticoll_UID z f u) s) h := by
  have hz0 := hz
  obtain ⟨h1, h2, -, -, -, h3, h4, -⟩ := hz
  have hu : ∀ l o, u8 (answer m l o z.MIFARE_UID_MAX).length
      = (answer m l o z.MIFARE_UID_MAX).length :=
    fun l o => u8_of_le (le_trans (answer_length_le m l o _) (by omega))
  have hv : ∀ l o, u8 (answer m l o z.MIFARE_SAK_MAX).length
      = (answer m l o z.MIFARE_SAK_MAX).length :=
    fun l o => u8_of_le (le_trans (answer_length_le m l o _) h3)
  refine ⟨answer m f.log (ANTICOLL_UID z) z.MIFARE_UID_MAX, ?_⟩
  have hl := answer_length_le m f.log (ANTICOLL_UID z) z.MIFARE_UID_MAX
  by_cases hr : answer m f.log (ANTICOLL_UID z) z.MIFARE_UID_MAX = []
  · refine ⟨[], [], hl, by simp, by simp, ?_⟩
    simp only [scan_uid4, Trf797x_transceive_bytes, Frame.xchg, hcmd, hu, gt_iff_lt,
      length_pos_iff_ne_nil, after_anticoll_UID, ANTICOLL_UID] at hr ⊢
    simp only [hr, ne_eq, not_true_eq_false, if_false, if_true]
  · generalize hg : after_anticoll_UID z f (answer m f.log (ANTICOLL_UID z) z.MIFARE_UID_MAX) = g
    have hgd : 2 + g.data.uid_buf_nb_rx_data ≤ g.data_buf.length := by
      subst hg; simp only [after_anticoll_UID]; omega
    have hgu : g.data.uid_buf_nb_rx_data ≤ g.data.uid_buf.length := by
      subst hg; simp only [after_anticoll_UID, store_length]; omega
    have htx : (copy_loop ((((g.data_buf.set 0 ISO_CONTROL).set 1 0x08).set 0 0x93).set 1 0x70)
        g.data.uid_buf g.data.uid_buf_nb_rx_data).take (2 + g.data.uid_buf_nb_rx_data)
        = 0x93 :: 0x70 :: g.data.uid_buf.take g.data.uid_buf_nb_rx_data := by
      rw [copy_loop_take _ _ _ (by simp; omega) hgu, cmd2 _ _ _ (by simp; omega)]
      rfl
    have hsel := send_HALT_eq z hz0 m
      (after_select_UID z g (answer m (g.log ++ [⟨ISO_WRITE 0x08, []⟩])
        (SELECT_CL1 z (g.data.uid_buf.take g.data.uid_buf_nb_rx_data)) z.MIFARE_SAK_MAX))
      (by simp only [after_select_UID, copy_loop_length, List.length_set]; omega)
    refine ⟨answer m (g.log ++ [⟨ISO_WRITE 0x08, []⟩])
        (SELECT_CL1 z (g.data.uid_buf.take g.data.uid_buf_nb_rx_data)) z.MIFARE_SAK_MAX,
      answer m (after_select_UID z g (answer m (g.log ++ [⟨ISO_WRITE 0x08, []⟩])
        (SELECT_CL1 z (g.data.uid_buf.take g.data.uid_buf_nb_rx_data)) z.MIFARE_SAK_MAX)).log
        (HALT z) z.MIFARE_HALT_MAX,
      hl, answer_length_le _ _ _ _, answer_length_le _ _ _ _, ?_⟩
    rw [if_neg hr, ← hsel]
    subst hg
    simp only [scan_uid4, Trf797x_transceive_bytes, Frame.xchg, hcmd, hu, gt_iff_lt,
      length_pos_iff_ne_nil, after_anticoll_UID, ANTICOLL_UID] at hr htx ⊢
    simp only [hr, ne_eq, not_false_eq_true, if_true, Frame.setb, Frame.emit, copy_to_data_buf,
      cmd2 _ _ _ (show 2 ≤ f.data_buf.length by omega), htx, hv, after_select_UID, ISO_WRITE,
      SELECT_CL1, List.append_assoc, List.singleton_append]
    rfl

theorem scan_tag_eq (z : Sizes) (m : Medium) (f : Frame) (hd : 2 ≤ f.data_buf.length) :
    ∃ c : List Nat, c.length ≤ MIFARE_CL1_MAX ∧
      scan_tag z m f =
        if (store f.CL1_buf c).getD 0 0 = 0x88 then scan_uid7 z m (after_anticoll_CL1 f c)
        else scan_uid4 z m (after_anticoll_CL1 f c) := by
  refine ⟨answer m f.log ANTICOLL_CL1 MIFARE_CL1_MAX, answer_length_le _ _ _ _, ?_⟩
  have hu : ∀ l o, u8 (answer m l o MIFARE_CL1_MAX).length
      = (answer m l o MIFARE_CL1_MAX).length :=
    fun l o => u8_of_le (le_trans (answer_length_le m l o _) (by decide))
  simp only [scan_tag, Trf797x_transceive_bytes, Frame.setb, Frame.xchg, cmd2 _ _ _ hd,
    after_anticoll_CL1, ANTICOLL_CL1, hu]

theorem scan_request_eq (z : Sizes) (hz : z.WF) (m : Medium) (f : Frame)
    (hd : 2 ≤ f.data_buf.length) :
    scan_request z m f =
      if answer m f.log (REQA z) z.MIFARE_ATQA_MAX = [] then
        after_REQA z (after_REQA z f [])
          (answer m (f.log ++ [⟨REQA z, []⟩]) (REQA z) z.MIFARE_ATQA_MAX)
      else after_REQA z f (answer m f.log (REQA z) z.MIFARE_ATQA_MAX) := by
  have e1 := send_REQA_eq z hz m f hd
  have e2 := send_REQA_eq z hz m (after_REQA z f []) (by simpa [after_REQA] using hd)
  simp only [scan_request, e1]
  by_cases h : answer m f.log (REQA z) z.MIFARE_ATQA_MAX = []
  · rw [h] at e1 ⊢
    rw [if_pos rfl, if_pos (by simp [after_REQA]), e2]
    rfl
  · rw [if_neg h, if_neg]
    simpa [after_REQA] using h

theorem scan_tag_run (z : Sizes) (hz : z.WF) (m : Medium) (f : Frame)
    (hd : 2 + z.MIFARE_UID_MAX ≤ f.data_buf.length) (h1 : f.CL1_buf.length = 5)
    (h2 : f.CL2_buf.length = 5) (hu : f.data.uid_buf.length = z.MIFARE_UID_MAX) :
    TagRun z f (scan_tag z m f) := by
  have h7 : 7 ≤ z.MIFARE_UID_MAX := hz.2.2.2.2.2.2.1
  obtain ⟨c1, hc1, e1⟩ := scan_tag_eq z m f (by omega)
  rw [e1]
  have hc1' : c1.length ≤ 5 := hc1
  by_cases hct : (store f.CL1_buf c1).getD 0 0 = 0x88
  · rw [if_pos hct]
    obtain ⟨s1, hs1l, e2⟩ := scan_uid7_eq z hz m (after_anticoll_CL1 f c1)
      (by simp only [after_anticoll_CL1, List.length_set]; omega)
      (by simp only [after_anticoll_CL1, store_length]; omega)
      (by simpa only [after_anticoll_CL1] using hc1')
    rw [e2]
    by_cases hs1 : s1 = []
    · subst hs1
      rw [if_pos rfl]
      exact TagRun.sak1_timeout c1 hc1' hct
    · rw [if_neg hs1]
      obtain ⟨c2, hc2l, e3⟩ := scan_cl2_eq z m (after_select_CL1 z (after_anticoll_CL1 f c1) s1)
        (by simp only [after_select_CL1, after_anticoll_CL1, copy_loop_length, List.length_set]
            omega)
      rw [e3]
      have hc2l' : c2.length ≤ 5 := hc2l
      by_cases hc2 : c2 = []
      · subst hc2
        rw [if_pos rfl]
        exact TagRun.cl2_timeout c1 s1 hc1' hct hs1 hs1l
      · rw [if_neg hc2]
        obtain ⟨s2, hs2l, e4⟩ := scan_cl2_select_eq z hz m
          (after_anticoll_CL2 (after_select_CL1 z (after_anticoll_CL1 f c1) s1) c2)
          (by simp only [after_anticoll_CL2, after_select_CL1, after_anticoll_CL1,
                copy_loop_length, List.length_set]
              omega)
          (by simp only [after_anticoll_CL2, after_select_CL1, after_anticoll_CL1, store_length]
              omega)
          (by simpa only [after_anticoll_CL2] using hc2l')
        rw [e4]
        have hlen : 2 ≤ (after_select_CL2 z (after_anticoll_CL2
            (after_select_CL1 z (after_anticoll_CL1 f c1) s1) c2) s2).data_buf.length := by
          simp only [after_select_CL2, after_anticoll_CL2, after_select_CL1, after_anticoll_CL1,
            copy_loop_length, List.length_set]
          omega
        by_cases hs2 : s2 = []
        · subst hs2
          rw [if_pos rfl, send_HALT_add_eq z m _ hlen]
          exact TagRun.sak2_timeout c1 s1 c2 _ hc1' hct hs1 hs1l hc2 hc2l'
            (answer_length_le _ _ _ _)
        · rw [if_neg hs2]
          by_cases hul : is_mifare_ul (after_select_CL2 z (after_anticoll_CL2
              (after_select_CL1 z (after_anticoll_CL1 f c1) s1) c2) s2).data
          · rw [if_pos hul]
            obtain ⟨d0, d1, d2, d3, hd0, hd1, hd2, hd3, e5⟩ := read_blocks_eq z m _ hlen
            rw [e5]
            exact TagRun.bulk_read c1 s1 c2 s2 d0 d1 d2 d3 hc1' hct hs1 hs1l hc2 hc2l' hs2 hs2l
              hul hd0 hd1 hd2 hd3
          · rw [if_neg hul]
            exact TagRun.selected c1 s1 c2 s2 hc1' hct hs1 hs1l hc2 hc2l' hs2 hs2l hul
  · rw [if_neg hct]
    obtain ⟨u, s, h, hul, hsl, hh, e2⟩ := scan_uid4_eq z hz m (after_anticoll_CL1 f c1)
      (by simp only [after_anticoll_CL1, List.length_set]; omega)
      (by simp only [after_anticoll_CL1]; exact cmd2 _ _ _ (by omega))
      (by simpa only [after_anticoll_CL1] using hu)
    rw [e2]
    by_cases hu0 : u = []
    · subst hu0
      rw [if_pos rfl]
      exact TagRun.uid_timeout c1 hc1' hct
    · rw [if_neg hu0]
      exact TagRun.uid4 c1 u s h hc1' hct hu0 hul hsl hh

/-- Every run of the scan follows one of these paths: the first request is answered and
the tag is handled, or only the second one is, or none is and nothing else is sent. -/
theorem scan_run (z : Sizes) (hz : z.WF) (m : Medium) (stk : Stack)
    (data : t_hydranfc_v2_scan_iso14443A) :
    (first_ATQA z m ≠ [] ∧ ∃ G,
        TagRun z (after_REQA z (after_setup z stk data) (first_ATQA z m)) G ∧
        hydranfc_v2_scan_iso14443A z m stk data = G.emit Op.TurnRfOff) ∨
    (first_ATQA z m = [] ∧ second_ATQA z m ≠ [] ∧ ∃ G,
        TagRun z (after_REQA z (after_REQA z (after_setup z stk data) []) (second_ATQA z m)) G ∧
        hydranfc_v2_scan_iso14443A z m stk data = G.emit Op.TurnRfOff) ∨
    (first_ATQA z m = [] ∧ second_ATQA z m = [] ∧
        hydranfc_v2_scan_iso14443A z m stk data =
          (after_REQA z (after_REQA z (after_setup z stk data) []) []).emit Op.TurnRfOff) := by
  have hz0 := hz
  obtain ⟨h1, -, -, -, -, -, h7, -⟩ := hz
  have hd : 2 + z.MIFARE_UID_MAX ≤ (after_setup z stk data).data_buf.length := by
    simp only [after_setup, List.length_set, List.length_map, List.length_range]
    exact h1
  have e := scan_request_eq z hz0 m (after_setup z stk data) (by omega)
  simp only [hydranfc_v2_scan_iso14443A, scan_setup_eq z hz0, e]
  change (first_ATQA z m ≠ [] ∧ _) ∨ _
  by_cases hr1 : first_ATQA z m = []
  · have hr1' : answer m (after_setup z stk data).log (REQA z) z.MIFARE_ATQA_MAX = [] := hr1
    rw [if_pos hr1']
    by_cases hr2 : second_ATQA z m = []
    · refine Or.inr (Or.inr ⟨hr1, hr2, ?_⟩)
      have hr2' : answer m ((after_setup z stk data).log ++ [⟨REQA z, []⟩]) (REQA z)
          z.MIFARE_ATQA_MAX = [] := hr2
      rw [hr2', if_neg (by simp [after_REQA])]
    · refine Or.inr (Or.inl ⟨hr1, hr2, _, scan_tag_run z hz0 m _ ?_ ?_ ?_ ?_, ?_⟩)
      · simpa only [after_REQA, List.length_set] using hd
      · simp [after_REQA, after_setup, MIFARE_CL1_MAX]
      · simp [after_REQA, after_setup, MIFARE_CL2_MAX]
      · simp [after_REQA, after_setup, memset_data]
      · have hp : 0 < (second_ATQA z m).length := (length_pos_iff_ne_nil _).2 hr2
        rw [if_pos (by simpa only [after_REQA] using hp)]
        rfl
  · have hr1' : ¬ answer m (after_setup z stk data).log (REQA z) z.MIFARE_ATQA_MAX = [] := hr1
    rw [if_neg hr1']
    refine Or.inl ⟨hr1, _, scan_tag_run z hz0 m _ ?_ ?_ ?_ ?_, ?_⟩
    · simpa only [after_REQA, List.length_set] using hd
    · simp [after_REQA, after_setup, MIFARE_CL1_MAX]
    · simp [after_REQA, after_setup, MIFARE_CL2_MAX]
    · simp [after_REQA, after_setup, memset_data]
    · have hp : 0 < (first_ATQA z m).length := (length_pos_iff_ne_nil _).2 hr1
      rw [if_pos (by simpa only [after_REQA] using hp)]
      rfl

/-! ## Lemmas: the fields of the frames along a run -/

/-- The fields after a recorded register access. -/
@[simp] theorem emit_fields (f : Frame) (o : Op) :
    (f.emit o).CL1_buf = f.CL1_buf ∧
    (f.emit o).CL2_buf = f.CL2_buf ∧
    (f.emit o).CL1_buf_size = f.CL1_buf_size ∧
    (f.emit o).CL2_buf_size = f.CL2_buf_size ∧
    (f.emit o).log = f.log ++ [⟨o, []⟩] ∧
    (f.emit o).data.atqa_buf_nb_rx_data = f.data.atqa_buf_nb_rx_data ∧
    (f.emit o).data.atqa_buf = f.data.atqa_buf ∧
    (f.emit o).data.sak1_buf_nb_rx_data = f.data.sak1_buf_nb_rx_data ∧
    (f.emit o).data.sak1_buf = f.data.sak1_buf ∧
    (f.emit o).data.sak2_buf_nb_rx_data = f.data.sak2_buf_nb_rx_data ∧
    (f.emit o).data.sak2_buf = f.data.sak2_buf ∧
    (f.emit o).data.uid_buf_nb_rx_data = f.data.uid_buf_nb_rx_data ∧
    (f.emit o).data.uid_buf = f.data.uid_buf ∧
    (f.emit o).data.mf_ul_data_nb_rx_data = f.data.mf_ul_data_nb_rx_data ∧
    (f.emit o).data.mf_ul_data = f.data.mf_ul_data ∧
    (f.emit o).data.halt_buf_nb_rx_data = f.data.halt_buf_nb_rx_data ∧
    (f.emit o).data.halt_buf = f.data.halt_buf ∧
    (f.emit o).data_buf.length = f.data_buf.length := by
  simp only [Frame.emit, push_uid_loop, push_uid, List.foldl, copy_loop_length, List.length_set,
    Nat.add_zero, Nat.zero_add, and_self]

/-- The fields after a REQA. -/
@[simp] theorem after_REQA_fields (z : Sizes) (f : Frame) (r : List Nat) :
    (after_REQA z f r).CL1_buf = f.CL1_buf ∧
    (after_REQA z f r).CL2_buf = f.CL2_buf ∧
    (after_REQA z f r).CL1_buf_size = f.CL1_buf_size ∧
    (after_REQA z f r).CL2_buf_size = f.CL2_buf_size ∧
    (after_REQA z f r).log = f.log ++ [⟨REQA z, r⟩] ∧
    (after_REQA z f r).data.atqa_buf_nb_rx_data = r.length ∧
    (after_REQA z f r).data.atqa_buf = store f.data.atqa_buf r ∧
    (after_REQA z f r).data.sak1_buf_nb_rx_data = f.data.sak1_buf_nb_rx_data ∧
    (after_REQA z f r).data.sak1_buf = f.data.sak1_buf ∧
    (after_REQA z f r).data.sak2_buf_nb_rx_data = f.data.sak2_buf_nb_rx_data ∧
    (after_REQA z f r).data.sak2_buf = f.data.sak2_buf ∧
    (after_REQA z f r).data.uid_buf_nb_rx_data = f.data.uid_buf_nb_rx_data ∧
    (after_REQA z f r).data.uid_buf = f.data.uid_buf ∧
    (after_REQA z f r).data.mf_ul_data_nb_rx_data = f.data.mf_ul_data_nb_rx_data ∧
    (after_REQA z f r).data.mf_ul_data = f.data.mf_ul_data ∧
    (after_REQA z f r).data.halt_buf_nb_rx_data = f.data.halt_buf_nb_rx_data ∧
    (after_REQA z f r).data.halt_buf = f.data.halt_buf ∧
    (after_REQA z f r).data_buf.length = f.data_buf.length := by
  simp only [after_REQA, push_uid_loop, push_uid, List.foldl, copy_loop_length, List.length_set,
    Nat.add_zero, Nat.zero_add, and_self]

/-- The fields after the level-1 anti-collision. -/
@[simp] theorem after_anticoll_CL1_fields (f : Frame) (r : List Nat) :
    (after_anticoll_CL1 f r).CL1_buf = store f.CL1_buf r ∧
    (after_anticoll_CL1 f r).CL2_buf = f.CL2_buf ∧
    (after_anticoll_CL1 f r).CL1_buf_size = r.length ∧
    (after_anticoll_CL1 f r).CL2_buf_size = f.CL2_buf_size ∧
    (after_anticoll_CL1 f r).log = f.log ++ [⟨ANTICOLL_CL1, r⟩] ∧
    (after_anticoll_CL1 f r).data.atqa_buf_nb_rx_data = f.data.atqa_buf_nb_rx_data ∧
    (after_anticoll_CL1 f r).data.atqa_buf = f.data.atqa_buf ∧
    (after_anticoll_CL1 f r).data.sak1_buf_nb_rx_data = f.data.sak1_buf_nb_rx_data ∧
    (after_anticoll_CL1 f r).data.sak1_buf = f.data.sak1_buf ∧
    (after_anticoll_CL1 f r).data.sak2_buf_nb_rx_data = f.data.sak2_buf_nb_rx_data ∧
    (after_anticoll_CL1 f r).data.sak2_buf = f.data.sak2_buf ∧
    (after_anticoll_CL1 f r).data.uid_buf_nb_rx_data = f.data.uid_buf_nb_rx_data ∧
    (after_anticoll_CL1 f r).data.uid_buf = f.data.uid_buf ∧
    (after_anticoll_CL1 f r).data.mf_ul_data_nb_rx_data = f.data.mf_ul_data_nb_rx_data ∧
    (after_anticoll_CL1 f r).data.mf_ul_data = f.data.mf_ul_data ∧
    (after_anticoll_CL1 f r).data.halt_buf_nb_rx_data = f.data.halt_buf_nb_rx_data ∧
    (after_anticoll_CL1 f r).data.halt_buf = f.data.halt_buf ∧
    (after_anticoll_CL1 f r).data_buf.length = f.data_buf.length := by
  simp only [after_anticoll_CL1, push_uid_loop, push_uid, List.foldl, copy_loop_length, List.length_set,
    Nat.add_zero, Nat.zero_add, and_self]

/-- The fields after the level-2 anti-collision. -/
@[simp] theorem after_anticoll_CL2_fields (f : Frame) (r : List Nat) :
    (after_anticoll_CL2 f r).CL1_buf = f.CL1_buf ∧
    (after_anticoll_CL2 f r).CL2_buf = store f.CL2_buf r ∧
    (after_anticoll_CL2 f r).CL1_buf_size = f.CL1_buf_size ∧
    (after_anticoll_CL2 f r).CL2_buf_size = r.length ∧
    (after_anticoll_CL2 f r).log = f.log ++ [⟨ANTICOLL_CL2, r⟩] ∧
    (after_anticoll_CL2 f r).data.atqa_buf_nb_rx_data = f.data.atqa_buf_nb_rx_data ∧
    (after_anticoll_CL2 f r).data.atqa_buf = f.data.atqa_buf ∧
    (after_anticoll_CL2 f r).data.sak1_buf_nb_rx_data = f.data.sak1_buf_nb_rx_data ∧
    (after_anticoll_CL2 f r).data.sak1_buf = f.data.sak1_buf ∧
    (after_anticoll_CL2 f r).data.sak2_buf_nb_rx_data = f.data.sak2_buf_nb_rx_data ∧
    (after_anticoll_CL2 f r).data.sak2_buf = f.data.sak2_buf ∧
    (after_anticoll_CL2 f r).data.uid_buf_nb_rx_data = f.data.uid_buf_nb_rx_data ∧
    (after_anticoll_CL2 f r).data.uid_buf = f.data.uid_buf ∧
    (after_anticoll_CL2 f r).data.mf_ul_data_nb_rx_data = f.data.mf_ul_data_nb_rx_data ∧
    (after_anticoll_CL2 f r).data.mf_ul_data = f.data.mf_ul_data ∧
    (after_anticoll_CL2 f r).data.halt_buf_nb_rx_data = f.data.halt_buf_nb_rx_data ∧
    (after_anticoll_CL2 f r).data.halt_buf = f.data.halt_buf ∧
    (after_anticoll_CL2 f r).data_buf.length = f.data_buf.length := by
  simp only [after_anticoll_CL2, push_uid_loop, push_uid, List.foldl, copy_loop_length, List.length_set,
    Nat.add_zero, Nat.zero_add, and_self]

/-- The fields after the level-1 select of the extended path. -/
@[simp] theorem after_select_CL1_fields (z : Sizes) (f : Frame) (r : List Nat) :
    (after_select_CL1 z f r).CL1_buf = f.CL1_buf ∧
    (after_select_CL1 z f r).CL2_buf = f.CL2_buf ∧
    (after_select_CL1 z f r).CL1_buf_size = f.CL1_buf_size ∧
    (after_select_CL1 z f r).CL2_buf_size = f.CL2_buf_size ∧
    (after_select_CL1 z f r).log = f.log ++ [⟨SELECT_CL1 z (f.CL1_buf.take f.CL1_buf_size), r⟩] ∧
    (after_select_CL1 z f r).data.atqa_buf_nb_rx_data = f.data.atqa_buf_nb_rx_data ∧
    (after_select_CL1 z f r).data.atqa_buf = f.data.atqa_buf ∧
    (after_select_CL1 z f r).data.sak1_buf_nb_rx_data = (if 3 ≤ r.length then r.length - 2 else r.length) ∧
    (after_select_CL1 z f r).data.sak1_buf = store f.data.sak1_buf r ∧
    (after_select_CL1 z f r).data.sak2_buf_nb_rx_data = f.data.sak2_buf_nb_rx_data ∧
    (after_select_CL1 z f r).data.sak2_buf = f.data.sak2_buf ∧
    (after_select_CL1 z f r).data.uid_buf_nb_rx_data = u8 (u8 (u8 (f.data.uid_buf_nb_rx_data + 1) + 1) + 1) ∧
    (after_select_CL1 z f r).data.uid_buf = ((f.data.uid_buf.set f.data.uid_buf_nb_rx_data (f.CL1_buf.getD 1 0)).set
        (u8 (f.data.uid_buf_nb_rx_data + 1)) (f.CL1_buf.getD 2 0)).set
        (u8 (u8 (f.data.uid_buf_nb_rx_data + 1) + 1)) (f.CL1_buf.getD 3 0) ∧
    (after_select_CL1 z f r).data.mf_ul_data_nb_rx_data = f.data.mf_ul_data_nb_rx_data ∧
    (after_select_CL1 z f r).data.mf_ul_data = f.data.mf_ul_data ∧
    (after_select_CL1 z f r).data.halt_buf_nb_rx_data = f.data.halt_buf_nb_rx_data ∧
    (after_select_CL1 z f r).data.halt_buf = f.data.halt_buf ∧
    (after_select_CL1 z f r).data_buf.length = f.data_buf.length := by
  simp only [after_select_CL1, push_uid_loop, push_uid, List.foldl, copy_loop_length, List.length_set,
    Nat.add_zero, Nat.zero_add, and_self]

/-- The fields after the level-2 select. -/
@[simp] theorem after_select_CL2_fields (z : Sizes) (f : Frame) (r : List Nat) :
    (after_select_CL2 z f r).CL1_buf = f.CL1_buf ∧
    (after_select_CL2 z f r).CL2_buf = f.CL2_buf ∧
    (after_select_CL2 z f r).CL1_buf_size = f.CL1_buf_size ∧
    (after_select_CL2 z f r).CL2_buf_size = f.CL2_buf_size ∧
    (after_select_CL2 z f r).log = f.log ++ [⟨ISO_WRITE 0x08, []⟩, ⟨SELECT_CL2 z (f.CL2_buf.take f.CL2_buf_size), r⟩] ∧
    (after_select_CL2 z f r).data.atqa_buf_nb_rx_data = f.data.atqa_buf_nb_rx_data ∧
    (after_select_CL2 z f r).data.atqa_buf = f.data.atqa_buf ∧
    (after_select_CL2 z f r).data.sak1_buf_nb_rx_data = f.data.sak1_buf_nb_rx_data ∧
    (after_select_CL2 z f r).data.sak1_buf = f.data.sak1_buf ∧
    (after_select_CL2 z f r).data.sak2_buf_nb_rx_data = r.length ∧
    (after_select_CL2 z f r).data.sak2_buf = store f.data.sak2_buf r ∧
    (after_select_CL2 z f r).data.uid_buf_nb_rx_data = u8 (u8 (u8 (u8 (f.data.uid_buf_nb_rx_data + 1) + 1) + 1) + 1) ∧
    (after_select_CL2 z f r).data.uid_buf = (((f.data.uid_buf.set f.data.uid_buf_nb_rx_data (f.CL2_buf.getD 0 0)).set
        (u8 (f.data.uid_buf_nb_rx_data + 1)) (f.CL2_buf.getD 1 0)).set
        (u8 (u8 (f.data.uid_buf_nb_rx_data + 1) + 1)) (f.CL2_buf.getD 2 0)).set
        (u8 (u8 (u8 (f.data.uid_buf_nb_rx_data + 1) + 1) + 1)) (f.CL2_buf.getD 3 0) ∧
    (after_select_CL2 z f r).data.mf_ul_data_nb_rx_data = f.data.mf_ul_data_nb_rx_data ∧
    (after_select_CL2 z f r).data.mf_ul_data = f.data.mf_ul_data ∧
    (after_select_CL2 z f r).data.halt_buf_nb_rx_data = f.data.halt_buf_nb_rx_data ∧
    (after_select_CL2 z f r).data.halt_buf = f.data.halt_buf ∧
    (after_select_CL2 z f r).data_buf.length = f.data_buf.length := by
  simp only [after_select_CL2, push_uid_loop, push_uid, List.foldl, copy_loop_length, List.length_set,
    Nat.add_zero, Nat.zero_add, and_self]

/-- The fields after a block read. -/
@[simp] theorem after_READ_fields (z : Sizes) (f : Frame) (i : Nat) (r : List Nat) :
    (after_READ z f i r).CL1_buf = f.CL1_buf ∧
    (after_READ z f i r).CL2_buf = f.CL2_buf ∧
    (after_READ z f i r).CL1_buf_size = f.CL1_buf_size ∧
    (after_READ z f i r).CL2_buf_size = f.CL2_buf_size ∧
    (after_READ z f i r).log = f.log ++ [⟨READ z i, r⟩] ∧
    (after_READ z f i r).data.atqa_buf_nb_rx_data = f.data.atqa_buf_nb_rx_data ∧
    (after_READ z f i r).data.atqa_buf = f.data.atqa_buf ∧
    (after_READ z f i r).data.sak1_buf_nb_rx_data = f.data.sak1_buf_nb_rx_data ∧
    (after_READ z f i r).data.sak1_buf = f.data.sak1_buf ∧
    (after_READ z f i r).data.sak2_buf_nb_rx_data = f.data.sak2_buf_nb_rx_data ∧
    (after_READ z f i r).data.sak2_buf = f.data.sak2_buf ∧
    (after_READ z f i r).data.uid_buf_nb_rx_data = f.data.uid_buf_nb_rx_data ∧
    (after_READ z f i r).data.uid_buf = f.data.uid_buf ∧
    (after_READ z f i r).data.mf_ul_data_nb_rx_data = u8 (f.data.mf_ul_data_nb_rx_data + r.length) ∧
    (after_READ z f i r).data.mf_ul_data = storeAt f.data.mf_ul_data f.data.mf_ul_data_nb_rx_data r ∧
    (after_READ z f i r).data.halt_buf_nb_rx_data = f.data.halt_buf_nb_rx_data ∧
    (after_READ z f i r).data.halt_buf = f.data.halt_buf ∧
    (after_READ z f i r).data_buf.length = f.data_buf.length := by
  simp only [after_READ, push_uid_loop, push_uid, List.foldl, copy_loop_length, List.length_set,
    Nat.add_zero, Nat.zero_add, and_self]

/-- The fields after the halt of the extended path. -/
@[simp] theorem after_HALT_add_fields (z : Sizes) (f : Frame) (r : List Nat) :
    (after_HALT_add z f r).CL1_buf = f.CL1_buf ∧
    (after_HALT_add z f r).CL2_buf = f.CL2_buf ∧
    (after_HALT_add z f r).CL1_buf_size = f.CL1_buf_size ∧
    (after_HALT_add z f r).CL2_buf_size = f.CL2_buf_size ∧
    (after_HALT_add z f r).log = f.log ++ [⟨HALT z, r⟩] ∧
    (after_HALT_add z f r).data.atqa_buf_nb_rx_data = f.data.atqa_buf_nb_rx_data ∧
    (after_HALT_add z f r).data.atqa_buf = f.data.atqa_buf ∧
    (after_HALT_add z f r).data.sak1_buf_nb_rx_data = f.data.sak1_buf_nb_rx_data ∧
    (after_HALT_add z f r).data.sak1_buf = f.data.sak1_buf ∧
    (after_HALT_add z f r).data.sak2_buf_nb_rx_data = f.data.sak2_buf_nb_rx_data ∧
    (after_HALT_add z f r).data.sak2_buf = f.data.sak2_buf ∧
    (after_HALT_add z f r).data.uid_buf_nb_rx_data = f.data.uid_buf_nb_rx_data ∧
    (after_HALT_add z f r).data.uid_buf = f.data.uid_buf ∧
    (after_HALT_add z f r).data.mf_ul_data_nb_rx_data = f.data.mf_ul_data_nb_rx_data ∧
    (after_HALT_add z f r).data.mf_ul_data = f.data.mf_ul_data ∧
    (after_HALT_add z f r).data.halt_buf_nb_rx_data = u8 (f.data.halt_buf_nb_rx_data + r.length) ∧
    (after_HALT_add z f r).data.halt_buf = store f.data.halt_buf r ∧
    (after_HALT_add z f r).data_buf.length = f.data_buf.length := by
  simp only [after_HALT_add, push_uid_loop, push_uid, List.foldl, copy_loop_length, List.length_set,
    Nat.add_zero, Nat.zero_add, and_self]

/-- The fields after the halt of the single-cascade path. -/
@[simp] theorem after_HALT_fields (z : Sizes) (f : Frame) (r : List Nat) :
    (after_HALT z f r).CL1_buf = f.CL1_buf ∧
    (after_HALT z f r).CL2_buf = f.CL2_buf ∧
    (after_HALT z f r).CL1_buf_size = f.CL1_buf_size ∧
    (after_HALT z f r).CL2_buf_size = f.CL2_buf_size ∧
    (after_HALT z f r).log = f.log ++ [⟨HALT z, r⟩] ∧
    (after_HALT z f r).data.atqa_buf_nb_rx_data = f.data.atqa_buf_nb_rx_data ∧
    (after_HALT z f r).data.atqa_buf = f.data.atqa_buf ∧
    (after_HALT z f r).data.sak1_buf_nb_rx_data = f.data.sak1_buf_nb_rx_data ∧
    (after_HALT z f r).data.sak1_buf = f.data.sak1_buf ∧
    (after_HALT z f r).data.sak2_buf_nb_rx_data = f.data.sak2_buf_nb_rx_data ∧
    (after_HALT z f r).data.sak2_buf = f.data.sak2_buf ∧
    (after_HALT z f r).data.uid_buf_nb_rx_data = f.data.uid_buf_nb_rx_data ∧
    (after_HALT z f r).data.uid_buf = f.data.uid_buf ∧
    (after_HALT z f r).data.mf_ul_data_nb_rx_data = f.data.mf_ul_data_nb_rx_data ∧
    (after_HALT z f r).data.mf_ul_data = f.data.mf_ul_data ∧
    (after_HALT z f r).data.halt_buf_nb_rx_data = r.length ∧
    (after_HALT z f r).data.halt_buf = store f.data.halt_buf r ∧
    (after_HALT z f r).data_buf.length = f.data_buf.length := by
  simp only [after_HALT, push_uid_loop, push_uid, List.foldl, copy_loop_length, List.length_set,
    Nat.add_zero, Nat.zero_add, and_self]

/-- The fields after the second level-1 anti-collision. -/
@[simp] theorem after_anticoll_UID_fields (z : Sizes) (f : Frame) (r : List Nat) :
    (after_anticoll_UID z f r).CL1_buf = f.CL1_buf ∧
    (after_anticoll_UID z f r).CL2_buf = f.CL2_buf ∧
    (after_anticoll_UID z f r).CL1_buf_size = f.CL1_buf_size ∧
    (after_anticoll_UID z f r).CL2_buf_size = f.CL2_buf_size ∧
    (after_anticoll_UID z f r).log = f.log ++ [⟨ANTICOLL_UID z, r⟩] ∧
    (after_anticoll_UID z f r).data.atqa_buf_nb_rx_data = f.data.atqa_buf_nb_rx_data ∧
    (after_anticoll_UID z f r).data.atqa_buf = f.data.atqa_buf ∧
    (after_anticoll_UID z f r).data.sak1_buf_nb_rx_data = f.data.sak1_buf_nb_rx_data ∧
    (after_anticoll_UID z f r).data.sak1_buf = f.data.sak1_buf ∧
    (after_anticoll_UID z f r).data.sak2_buf_nb_rx_data = f.data.sak2_buf_nb_rx_data ∧
    (after_anticoll_UID z f r).data.sak2_buf = f.data.sak2_buf ∧
    (after_anticoll_UID z f r).data.uid_buf_nb_rx_data = r.length ∧
    (after_anticoll_UID z f r).data.uid_buf = store f.data.uid_buf r ∧
    (after_anticoll_UID z f r).data.mf_ul_data_nb_rx_data = f.data.mf_ul_data_nb_rx_data ∧
    (after_anticoll_UID z f r).data.mf_ul_data = f.data.mf_ul_data ∧
    (after_anticoll_UID z f r).data.halt_buf_nb_rx_data = f.data.halt_buf_nb_rx_data ∧
    (after_anticoll_UID z f r).data.halt_buf = f.data.halt_buf ∧
    (after_anticoll_UID z f r).data_buf.length = f.data_buf.length := by
  simp only [after_anticoll_UID, push_uid_loop, push_uid, List.foldl, copy_loop_length, List.length_set,
    Nat.add_zero, Nat.zero_add, and_self]

/-- The fields after the select of the single-cascade path. -/
@[simp] theorem after_select_UID_fields (z : Sizes) (f : Frame) (r : List Nat) :
    (after_select_UID z f r).CL1_buf = f.CL1_buf ∧
    (after_select_UID z f r).CL2_buf = f.CL2_buf ∧
    (after_select_UID z f r).CL1_buf_size = f.CL1_buf_size ∧
    (after_select_UID z f r).CL2_buf_size = f.CL2_buf_size ∧
    (after_select_UID z f r).log = f.log ++ [⟨ISO_WRITE 0x08, []⟩,
      ⟨SELECT_CL1 z (f.data.uid_buf.take f.data.uid_buf_nb_rx_data), r⟩] ∧
    (after_select_UID z f r).data.atqa_buf_nb_rx_data = f.data.atqa_buf_nb_rx_data ∧
    (after_select_UID z f r).data.atqa_buf = f.data.atqa_buf ∧
    (after_select_UID z f r).data.sak1_buf_nb_rx_data = r.length ∧
    (after_select_UID z f r).data.sak1_buf = store f.data.sak1_buf r ∧
    (after_select_UID z f r).data.sak2_buf_nb_rx_data = f.data.sak2_buf_nb_rx_data ∧
    (after_select_UID z f r).data.sak2_buf = f.data.sak2_buf ∧
    (after_select_UID z f r).data.uid_buf_nb_rx_data = f.data.uid_buf_nb_rx_data ∧
    (after_select_UID z f r).data.uid_buf = f.data.uid_buf ∧
    (after_select_UID z f r).data.mf_ul_data_nb_rx_data = f.data.mf_ul_data_nb_rx_data ∧
    (after_select_UID z f r).data.mf_ul_data = f.data.mf_ul_data ∧
    (after_select_UID z f r).data.halt_buf_nb_rx_data = f.data.halt_buf_nb_rx_data ∧
    (after_select_UID z f r).data.halt_buf = f.data.halt_buf ∧
    (after_select_UID z f r).data_buf.length = f.data_buf.length := by
  simp only [after_select_UID, push_uid_loop, push_uid, List.foldl, copy_loop_length, List.length_set,
    Nat.add_zero, Nat.zero_add, and_self]

/-- The fields after the chip set-up. -/
@[simp] theorem after_setup_fields (z : Sizes) (stk : Stack) (data : t_hydranfc_v2_scan_iso14443A) :
    (after_setup z stk data).log = setup_log ∧
    (after_setup z stk data).CL1_buf = (List.range 5).map stk.CL1_buf ∧
    (after_setup z stk data).CL2_buf = (List.range 5).map stk.CL2_buf ∧
    (after_setup z stk data).CL1_buf_size = 0 ∧
    (after_setup z stk data).CL2_buf_size = 0 ∧
    (after_setup z stk data).data = memset_data z data ∧
    (after_setup z stk data).data_buf.length = z.MIFARE_DATA_MAX := by
  simp [after_setup, MIFARE_CL1_MAX, MIFARE_CL2_MAX]

/-! ## Claims on `hydranfc_v2_scan_iso14443A` -/

theorem replicate_ge7 (n : Nat) (h : 7 ≤ n) :
    ∃ t : List Nat, List.replicate n 0 = 0 :: 0 :: 0 :: 0 :: 0 :: 0 :: 0 :: t := by
  obtain ⟨k, rfl⟩ : ∃ k, n = k + 7 := ⟨n - 7, by omega⟩
  exact ⟨List.replicate k 0, by simp [List.replicate_succ]⟩

/-- C1: on the extended path the UID is assembled from both cascade levels.  In every
run in which the level-1 anti-collision receives the 5 bytes `88 a b c d` and the
level-2 anti-collision receives the 5 bytes `e0 e1 e2 e3 e4`, the record has UID length
exactly 7 and its UID bytes are `a b c e0 e1 e2 e3`.  (That the request and the level-1
select were answered follows from the presence of these two exchanges.) -/
theorem uid7_assembly (z : Sizes) (hz : z.WF) (m : Medium) (stk : Stack)
    (data : t_hydranfc_v2_scan_iso14443A) (a b c d e0 e1 e2 e3 e4 : Nat)
    (h_cl1 : ⟨ANTICOLL_CL1, [0x88, a, b, c, d]⟩ ∈ (hydranfc_v2_scan_iso14443A z m stk data).log)
    (h_cl2 : ⟨ANTICOLL_CL2, [e0, e1, e2, e3, e4]⟩ ∈
      (hydranfc_v2_scan_iso14443A z m stk data).log) :
    (hydranfc_v2_scan_iso14443A z m stk data).data.uid_buf_nb_rx_data = 7 ∧
    (hydranfc_v2_scan_iso14443A z m stk data).data.uid_buf.take 7 =
      [a, b, c, e0, e1, e2, e3] := by
  obtain ⟨t, ht⟩ := replicate_ge7 z.MIFARE_UID_MAX hz.2.2.2.2.2.2.1
  have key : ∀ G, TagRun z (after_REQA z (after_setup z stk data) (first_ATQA z m)) G ∨
      TagRun z (after_REQA z (after_REQA z (after_setup z stk data) []) (second_ATQA z m)) G →
      hydranfc_v2_scan_iso14443A z m stk data = G.emit Op.TurnRfOff →
      (G.emit Op.TurnRfOff).data.uid_buf_nb_rx_data = 7 ∧
      (G.emit Op.TurnRfOff).data.uid_buf.take 7 = [a, b, c, e0, e1, e2, e3] := by
    intro G hG hF
    rw [hF] at h_cl1 h_cl2
    rcases hG with hG | hG <;> cases hG <;>
    simp [setup_log, REQA, ANTICOLL_CL1, ANTICOLL_CL2, ANTICOLL_UID, SELECT_CL1,
      SELECT_CL2, READ, HALT, ISO_WRITE, MIFARE_CL1_MAX, MIFARE_CL2_MAX] at h_cl1 h_cl2 ⊢ <;>
    subst h_cl1 h_cl2 <;>
    simp [memset_data, u8, store, ht]
  rcases scan_run z hz m stk data with ⟨-, G, hG, hF⟩ | ⟨-, -, G, hG, hF⟩ | ⟨-, -, hF⟩
  · rw [hF]; exact key G (Or.inl hG) hF
  · rw [hF]; exact key G (Or.inr hG) hF
  · rw [hF] at h_cl1
    simp [setup_log, REQA, ANTICOLL_CL1] at h_cl1

/-- C1, witness: the end-to-end scenario of the specification. -/
theorem uid7_assembly_witness :
    (hydranfc_v2_scan_iso14443A sizes0 medium_uid7 stack0 record0).data.uid_buf_nb_rx_data = 7 ∧
    (hydranfc_v2_scan_iso14443A sizes0 medium_uid7 stack0 record0).data.uid_buf.take 7 =
      [1, 2, 3, 5, 6, 7, 8] :=
  uid7_assembly sizes0 (by decide) medium_uid7 stack0 record0 1 2 3 4 5 6 7 8 0x0C
    (by decide) (by decide)

/-- C2, as stated, fails: the request is answered `04 00`, the level-1 anti-collision
is answered `88 01 02 03 04`, the level-1 select is not answered; then no level-2
anti-collision is sent and the UID has 3 bytes. -/
theorem cascade_marker_counterexample :
    ⟨REQA sizes0, [0x04, 0x00]⟩ ∈
      (hydranfc_v2_scan_iso14443A sizes0 medium_no_sak1 stack0 record0).log ∧
    ⟨ANTICOLL_CL1, [0x88, 1, 2, 3, 4]⟩ ∈
      (hydranfc_v2_scan_iso14443A sizes0 medium_no_sak1 stack0 record0).log ∧
    (∀ e ∈ (hydranfc_v2_scan_iso14443A sizes0 medium_no_sak1 stack0 record0).log,
      sends 0x95 e.op = false) ∧
    (hydranfc_v2_scan_iso14443A sizes0 medium_no_sak1 stack0 record0).data.uid_buf_nb_rx_data
      = 3 := by
  decide

/-- C2, amended: in every run in which the level-1 anti-collision response starts with
the cascade tag `0x88` and the level-1 select is answered, the level-2 anti-collision
`0x95 0x20` is sent, directly after that select; the UID then has exactly 7 bytes when
that anti-collision is answered, and 3 bytes when it is not. -/
theorem cascade_marker (z : Sizes) (hz : z.WF) (m : Medium) (stk : Stack)
    (data : t_hydranfc_v2_scan_iso14443A) (rest sak1 : List Nat)
    (h_cl1 : ⟨ANTICOLL_CL1, 0x88 :: rest⟩ ∈ (hydranfc_v2_scan_iso14443A z m stk data).log)
    (h_sak1 : ⟨SELECT_CL1 z (0x88 :: rest), sak1⟩ ∈
      (hydranfc_v2_scan_iso14443A z m stk data).log)
    (h_ne : sak1 ≠ []) :
    ∃ cl2, ⟨ANTICOLL_CL2, cl2⟩ ∈ (hydranfc_v2_scan_iso14443A z m stk data).log ∧
      (cl2 ≠ [] → (hydranfc_v2_scan_iso14443A z m stk data).data.uid_buf_nb_rx_data = 7) ∧
      (cl2 = [] → (hydranfc_v2_scan_iso14443A z m stk data).data.uid_buf_nb_rx_data = 3) := by
  have h5 : ¬ 5 = z.MIFARE_UID_MAX := by have := hz.2.2.2.2.2.2.1; omega
  have key : ∀ G, TagRun z (after_REQA z (after_setup z stk data) (first_ATQA z m)) G ∨
      TagRun z (after_REQA z (after_REQA z (after_setup z stk data) []) (second_ATQA z m)) G →
      hydranfc_v2_scan_iso14443A z m stk data = G.emit Op.TurnRfOff →
      ∃ cl2, ⟨ANTICOLL_CL2, cl2⟩ ∈ (G.emit Op.TurnRfOff).log ∧
        (cl2 ≠ [] → (G.emit Op.TurnRfOff).data.uid_buf_nb_rx_data = 7) ∧
        (cl2 = [] → (G.emit Op.TurnRfOff).data.uid_buf_nb_rx_data = 3) := by
    intro G hG hF
    rw [hF] at h_cl1 h_sak1
    clear hF
    rcases hG with hG | hG <;> cases hG <;>
    simp [setup_log, REQA, ANTICOLL_CL1, ANTICOLL_CL2, ANTICOLL_UID, SELECT_CL1,
      SELECT_CL2, READ, HALT, ISO_WRITE, MIFARE_CL1_MAX, MIFARE_CL2_MAX, memset_data, u8,
      h5] at h_cl1 h_sak1 ⊢ <;>
    (try obtain ⟨-, h_s⟩ := h_sak1) <;>
    subst_vars <;>
    simp_all [store]
  rcases scan_run z hz m stk data with ⟨-, G, hG, hF⟩ | ⟨-, -, G, hG, hF⟩ | ⟨-, -, hF⟩
  · rw [hF]; exact key G (Or.inl hG) hF
  · rw [hF]; exact key G (Or.inr hG) hF
  · rw [hF] at h_cl1
    simp [setup_log, REQA, ANTICOLL_CL1] at h_cl1

/-- C2 amended, witness: the 7 bytes UID tag of the specification. -/
theorem cascade_marker_witness :
    ∃ cl2, ⟨ANTICOLL_CL2, cl2⟩ ∈ (hydranfc_v2_scan_iso14443A sizes0 medium_uid7 stack0 record0).log ∧
      (cl2 ≠ [] →
        (hydranfc_v2_scan_iso14443A sizes0 medium_uid7 stack0 record0).data.uid_buf_nb_rx_data
          = 7) ∧
      (cl2 = [] →
        (hydranfc_v2_scan_iso14443A sizes0 medium_uid7 stack0 record0).data.uid_buf_nb_rx_data
          = 3) :=
  cascade_marker sizes0 (by decide) medium_uid7 stack0 record0 [1, 2, 3, 4] [0x04]
    (by decide) (by decide) (by decide)


/-- C3, as stated, fails: a tag answering both level-1 anti-collisions with
`01 02 03 04 04` (UID `01 02 03 04`, BCC `04`) is recorded with a UID of 5 bytes, the
BCC included, not 4. -/
theorem single_cascade_counterexample :
    ⟨ANTICOLL_CL1, [1, 2, 3, 4, 4]⟩ ∈
      (hydranfc_v2_scan_iso14443A sizes0 medium_uid4 stack0 record0).log ∧
    (hydranfc_v2_scan_iso14443A sizes0 medium_uid4 stack0 record0).data.uid_buf_nb_rx_data = 5 ∧
    (hydranfc_v2_scan_iso14443A sizes0 medium_uid4 stack0 record0).data.uid_buf.take 5 =
      [1, 2, 3, 4, 4] := by
  decide

/-- C3, amended: in every run in which the level-1 anti-collision response is non-empty
and its first byte is not `0x88`, no command starting with `0x95` (level 2) is ever
sent, the level-1 anti-collision is sent a second time, and the UID of the record is
the whole response `u` to that second exchange, checksum byte included: its length is
the byte count of `u`. -/
theorem single_cascade (z : Sizes) (hz : z.WF) (m : Medium) (stk : Stack)
    (data : t_hydranfc_v2_scan_iso14443A) (x : Nat) (rest : List Nat) (hx : x ≠ 0x88)
    (h_cl1 : ⟨ANTICOLL_CL1, x :: rest⟩ ∈ (hydranfc_v2_scan_iso14443A z m stk data).log) :
    (∀ e ∈ (hydranfc_v2_scan_iso14443A z m stk data).log, sends 0x95 e.op = false) ∧
    ∃ u, ⟨ANTICOLL_UID z, u⟩ ∈ (hydranfc_v2_scan_iso14443A z m stk data).log ∧
      (hydranfc_v2_scan_iso14443A z m stk data).data.uid_buf_nb_rx_data = u.length ∧
      (hydranfc_v2_scan_iso14443A z m stk data).data.uid_buf.take u.length = u := by
  have h5 : ¬ 5 = z.MIFARE_UID_MAX := by have := hz.2.2.2.2.2.2.1; omega
  have key : ∀ G, TagRun z (after_REQA z (after_setup z stk data) (first_ATQA z m)) G ∨
      TagRun z (after_REQA z (after_REQA z (after_setup z stk data) []) (second_ATQA z m)) G →
      hydranfc_v2_scan_iso14443A z m stk data = G.emit Op.TurnRfOff →
      (∀ e ∈ (G.emit Op.TurnRfOff).log, sends 0x95 e.op = false) ∧
      ∃ u, ⟨ANTICOLL_UID z, u⟩ ∈ (G.emit Op.TurnRfOff).log ∧
        (G.emit Op.TurnRfOff).data.uid_buf_nb_rx_data = u.length ∧
        (G.emit Op.TurnRfOff).data.uid_buf.take u.length = u := by
    intro G hG hF
    rw [hF] at h_cl1
    clear hF
    rcases hG with hG | hG <;> cases hG with
    | sak1_timeout c1 hc1 hct =>
      simp [setup_log, REQA, ANTICOLL_CL1, SELECT_CL1] at h_cl1
      subst h_cl1
      simp [store] at hct
      exact absurd hct hx
    | cl2_timeout c1 s1 hc1 hct hs1 hs1l =>
      simp [setup_log, REQA, ANTICOLL_CL1, ANTICOLL_CL2, SELECT_CL1, MIFARE_CL1_MAX,
        MIFARE_CL2_MAX] at h_cl1
      subst h_cl1
      simp [store] at hct
      exact absurd hct hx
    | sak2_timeout c1 s1 c2 h hc1 hct hs1 hs1l hc2 hc2l hh =>
      simp [setup_log, REQA, ANTICOLL_CL1, ANTICOLL_CL2, SELECT_CL1, SELECT_CL2, HALT,
        ISO_WRITE, MIFARE_CL1_MAX, MIFARE_CL2_MAX] at h_cl1
      subst h_cl1
      simp [store] at hct
      exact absurd hct hx
    | bulk_read c1 s1 c2 s2 d0 d1 d2 d3 hc1 hct hs1 hs1l hc2 hc2l hs2 hs2l hul hd0 hd1 hd2 hd3 =>
      simp [setup_log, REQA, ANTICOLL_CL1, ANTICOLL_CL2, SELECT_CL1, SELECT_CL2, READ,
        ISO_WRITE, MIFARE_CL1_MAX, MIFARE_CL2_MAX] at h_cl1
      subst h_cl1
      simp [store] at hct
      exact absurd hct hx
    | selected c1 s1 c2 s2 hc1 hct hs1 hs1l hc2 hc2l hs2 hs2l hul =>
      simp [setup_log, REQA, ANTICOLL_CL1, ANTICOLL_CL2, SELECT_CL1, SELECT_CL2,
        ISO_WRITE, MIFARE_CL1_MAX, MIFARE_CL2_MAX] at h_cl1
      subst h_cl1
      simp [store] at hct
      exact absurd hct hx
    | uid_timeout c1 hc1 hct =>
      refine ⟨?_, [], ?_, ?_, ?_⟩
      · simp [setup_log, REQA, ANTICOLL_CL1, ANTICOLL_UID, ISO_WRITE, sends]
      · simp
      · simp
      · simp
    | uid4 c1 u s h hc1 hct hu hul hsl hh =>
      refine ⟨?_, u, ?_, ?_, ?_⟩
      · simp [setup_log, REQA, ANTICOLL_CL1, ANTICOLL_UID, SELECT_CL1, HALT, ISO_WRITE, sends]
      · simp
      · simp
      · simp only [emit_fields, after_HALT_fields, after_select_UID_fields,
          after_anticoll_UID_fields]
        exact store_take _ _ (by simpa [memset_data] using hul)
  rcases scan_run z hz m stk data with ⟨-, G, hG, hF⟩ | ⟨-, -, G, hG, hF⟩ | ⟨-, -, hF⟩
  · rw [hF]; exact key G (Or.inl hG) hF
  · rw [hF]; exact key G (Or.inr hG) hF
  · rw [hF] at h_cl1
    simp [setup_log, REQA, ANTICOLL_CL1] at h_cl1

/-- C3 amended, witness: the 4 bytes UID tag. -/
theorem single_cascade_witness :
    (∀ e ∈ (hydranfc_v2_scan_iso14443A sizes0 medium_uid4 stack0 record0).log,
      sends 0x95 e.op = false) ∧
    ∃ u, ⟨ANTICOLL_UID sizes0, u⟩ ∈
        (hydranfc_v2_scan_iso14443A sizes0 medium_uid4 stack0 record0).log ∧
      (hydranfc_v2_scan_iso14443A sizes0 medium_uid4 stack0 record0).data.uid_buf_nb_rx_data
        = u.length ∧
      (hydranfc_v2_scan_iso14443A sizes0 medium_uid4 stack0 record0).data.uid_buf.take u.length
        = u :=
  single_cascade sizes0 (by decide) medium_uid4 stack0 record0 1 [2, 3, 4, 4] (by decide)
    (by decide)

/-- C4: the request and its single retry.  The first exchange of every run is the 7-bit
request `0x26` without CRC, receiving `first_ATQA`.  The request is sent exactly once
when that response is non-empty and exactly twice when it is empty; when the second
response is empty too, the run consists of the set-up, the two requests and the field
switch-off, no other exchange is performed, and the record is the no-response one. -/
theorem request_retry (z : Sizes) (hz : z.WF) (m : Medium) (stk : Stack)
    (data : t_hydranfc_v2_scan_iso14443A) :
    (hydranfc_v2_scan_iso14443A z m stk data).log.take 6 =
      setup_log ++ [⟨Op.transceive_bits 0x26 7 z.MIFARE_ATQA_MAX 10 0, first_ATQA z m⟩] ∧
    (first_ATQA z m ≠ [] →
      (hydranfc_v2_scan_iso14443A z m stk data).log.countP (fun e => is_REQA e.op) = 1) ∧
    (first_ATQA z m = [] →
      (hydranfc_v2_scan_iso14443A z m stk data).log.countP (fun e => is_REQA e.op) = 2 ∧
      (hydranfc_v2_scan_iso14443A z m stk data).log.take 7 = setup_log ++
        [⟨Op.transceive_bits 0x26 7 z.MIFARE_ATQA_MAX 10 0, []⟩,
         ⟨Op.transceive_bits 0x26 7 z.MIFARE_ATQA_MAX 10 0, second_ATQA z m⟩]) ∧
    (first_ATQA z m = [] → second_ATQA z m = [] →
      (hydranfc_v2_scan_iso14443A z m stk data).log =
        setup_log ++ [⟨REQA z, []⟩, ⟨REQA z, []⟩, ⟨Op.TurnRfOff, []⟩] ∧
      (hydranfc_v2_scan_iso14443A z m stk data).data = no_response z) := by
  rcases scan_run z hz m stk data with ⟨h1, G, hG, hF⟩ | ⟨h1, h2, G, hG, hF⟩ | ⟨h1, h2, hF⟩
  · rw [hF]
    cases hG <;>
    simp [setup_log, REQA, ANTICOLL_CL1, ANTICOLL_CL2, ANTICOLL_UID, SELECT_CL1,
      SELECT_CL2, READ, HALT, ISO_WRITE, is_REQA, List.countP_cons, h1]
  · rw [hF]
    cases hG <;>
    simp [setup_log, REQA, ANTICOLL_CL1, ANTICOLL_CL2, ANTICOLL_UID, SELECT_CL1,
      SELECT_CL2, READ, HALT, ISO_WRITE, is_REQA, List.countP_cons, h1, h2]
  · rw [hF]
    simp [setup_log, REQA, ISO_WRITE, is_REQA, List.countP_cons, h1, h2, after_REQA, after_setup,
      Frame.emit, memset_data, no_response, store]

/-- C4, witness: a link answering the second request only; the request is sent twice. -/
theorem request_retry_witness :
    first_ATQA sizes0 medium_retry = [] ∧
    (hydranfc_v2_scan_iso14443A sizes0 medium_retry stack0 record0).log.countP
      (fun e => is_REQA e.op) = 2 :=
  ⟨by decide, ((request_retry sizes0 (by decide) medium_retry stack0 record0).2.2.1 (by decide)).1⟩

/-- C5: discovery is stateless across invocations.  Whatever the record held before
and whatever the locals hold, a run on a link where no exchange is answered leaves the
no-response record, every count and every byte zero; so does a second run started on
the record left by the first. -/
theorem absent_tag_stateless (z : Sizes) (m m' : Medium) (stk stk' : Stack)
    (data : t_hydranfc_v2_scan_iso14443A)
    (hm : ∀ l o, m l o = []) (hm' : ∀ l o, m' l o = []) :
    (hydranfc_v2_scan_iso14443A z m stk data).data = no_response z ∧
    (hydranfc_v2_scan_iso14443A z m' stk'
      (hydranfc_v2_scan_iso14443A z m stk data).data).data = no_response z := by
  have key : ∀ (m : Medium) (stk : Stack) (data : t_hydranfc_v2_scan_iso14443A),
      (∀ l o, m l o = []) → (hydranfc_v2_scan_iso14443A z m stk data).data = no_response z := by
    intro m stk data hm
    simp [hydranfc_v2_scan_iso14443A, scan_request, send_REQA, Trf797x_transceive_bits, answer,
      hm, Frame.emit, Frame.setb, Frame.xchg, scan_setup, scan_entry, store, u8, memset_data,
      no_response]
  exact ⟨key m stk data hm, key m' stk' _ hm'⟩

/-- C5, witness: two successive runs with nothing in the field. -/
theorem absent_tag_stateless_witness :
    (hydranfc_v2_scan_iso14443A sizes0 medium_silent stack0 record0).data = no_response sizes0 ∧
    (hydranfc_v2_scan_iso14443A sizes0 medium_silent stack0
      (hydranfc_v2_scan_iso14443A sizes0 medium_silent stack0 record0).data).data
      = no_response sizes0 :=
  absent_tag_stateless sizes0 medium_silent medium_silent stack0 stack0 record0
    (fun _ _ => rfl) (fun _ _ => rfl)

theorem storeAt_length (buf r : List Nat) (off : Nat) :
    (storeAt buf off r).length = buf.length := by
  simp only [storeAt, List.length_append, List.length_take, store_length, List.length_drop]
  omega

theorem storeAt_take_left (buf r : List Nat) (off : Nat) (h : off ≤ buf.length) :
    (storeAt buf off r).take off = buf.take off := by
  simp only [storeAt]
  exact List.take_left' (by simp; omega)

theorem storeAt_take (buf r : List Nat) (off : Nat) (h : off + r.length ≤ buf.length) :
    (storeAt buf off r).take (off + r.length) = buf.take off ++ r := by
  have h1 : (buf.take off).length = off := by simp; omega
  have h2 : r.length ≤ (buf.drop off).length := by simp; omega
  simp only [storeAt]
  rw [List.take_append_eq_append_take, h1, List.take_of_length_le (by omega),
    Nat.add_sub_cancel_left, store_take _ _ h2]

/-- C6, as stated, fails: with blocks 0 and 4 answered by 4 bytes each and block 8 not
answered, the fourth read is still sent, and when it is answered by 4 bytes the
bulk-read result has 12 bytes, not 8. -/
theorem bulk_read_gap_counterexample :
    ⟨READ sizes0 0, [0x10, 0x11, 0x12, 0x13]⟩ ∈
      (hydranfc_v2_scan_iso14443A sizes0 medium_ul_gap stack0 record0).log ∧
    ⟨READ sizes0 4, [0x14, 0x15, 0x16, 0x17]⟩ ∈
      (hydranfc_v2_scan_iso14443A sizes0 medium_ul_gap stack0 record0).log ∧
    ⟨READ sizes0 8, []⟩ ∈ (hydranfc_v2_scan_iso14443A sizes0 medium_ul_gap stack0 record0).log ∧
    (hydranfc_v2_scan_iso14443A sizes0 medium_ul_gap stack0 record0).data.mf_ul_data_nb_rx_data
      = 12 ∧
    (hydranfc_v2_scan_iso14443A sizes0 medium_ul_gap stack0 record0).data.mf_ul_data.take 12 =
      [0x10, 0x11, 0x12, 0x13, 0x14, 0x15, 0x16, 0x17, 0x1C, 0x1D, 0x1E, 0x1F] := by
  decide

/-- Storing right after the bytes already held, in a buffer whose rest is zero. -/
theorem storeAt_append (a r : List Nat) (n : Nat) (h : r.length ≤ n) :
    storeAt (a ++ List.replicate n 0) a.length r = (a ++ r) ++ List.replicate (n - r.length) 0 := by
  simp only [storeAt, store, List.take_left', List.drop_left', List.length_replicate,
    List.take_of_length_le h, List.drop_replicate, List.append_assoc]

/-- The bulk read with a silent third block, along the paths of `scan_tag` from a frame
whose bulk-read area is empty and whose log holds no block read. -/
theorem gap_read_run (z : Sizes) (hmax : z.MIFARE_UL_DATA_MAX ≤ 255) (f G : Frame)
    (hG : TagRun z f G)
    (hb : f.data.mf_ul_data = List.replicate z.MIFARE_UL_DATA_MAX 0)
    (hc : f.data.mf_ul_data_nb_rx_data = 0)
    (hn : ∀ i r, (⟨READ z i, r⟩ : Ev) ∉ f.log)
    (b0 b1 : List Nat)
    (h0 : ⟨READ z 0, b0⟩ ∈ (G.emit Op.TurnRfOff).log)
    (h1 : ⟨READ z 4, b1⟩ ∈ (G.emit Op.TurnRfOff).log)
    (h2 : ⟨READ z 8, []⟩ ∈ (G.emit Op.TurnRfOff).log)
    (hl0 : b0.length = 4) (hl1 : b1.length = 4) :
    (∃ b3 before after,
      (G.emit Op.TurnRfOff).log =
        before ++ [⟨READ z 8, []⟩, ⟨READ z 12, b3⟩] ++ after ∧
      (G.emit Op.TurnRfOff).data.mf_ul_data_nb_rx_data = 8 + b3.length ∧
      (G.emit Op.TurnRfOff).data.mf_ul_data.take (8 + b3.length) = b0 ++ b1 ++ b3) ∧
    (G.emit Op.TurnRfOff).data.mf_ul_data.take 8 = b0 ++ b1 ∧
    (∀ b3, ⟨READ z 12, b3⟩ ∈ (G.emit Op.TurnRfOff).log →
      (G.emit Op.TurnRfOff).data.mf_ul_data_nb_rx_data = 8 + b3.length ∧
      (G.emit Op.TurnRfOff).data.mf_ul_data.take (8 + b3.length) = b0 ++ b1 ++ b3) := by
  have hn' := hn
  simp only [READ] at hn'
  cases hG with
  | bulk_read c1 s1 c2 s2 d0 d1 d2 d3 hc1 hct hs1 hs1l hc2 hc2l hs2 hs2l hul hd0 hd1 hd2 hd3 =>
    simp [hn', ANTICOLL_CL1, ANTICOLL_CL2, SELECT_CL1, SELECT_CL2, READ, ISO_WRITE] at h0 h1 h2
    subst h0 h1 h2
    simp only [MIFARE_UL_DATA] at hd0 hd1 hd3
    have hq : 4 * (z.MIFARE_UL_DATA_MAX / 4) ≤ z.MIFARE_UL_DATA_MAX := Nat.mul_div_le _ _
    have hnb : ((after_READ z (after_READ z (after_READ z (after_READ z
        (after_select_CL2 z (after_anticoll_CL2
          (after_select_CL1 z (after_anticoll_CL1 f c1) s1) c2) s2) 0 b0) 4 b1) 8 []) 12
            d3).emit Op.TurnRfOff).data.mf_ul_data_nb_rx_data = 8 + d3.length := by
      simp only [emit_fields, after_READ_fields, after_select_CL2_fields,
        after_anticoll_CL2_fields, after_select_CL1_fields, after_anticoll_CL1_fields, hc,
        Nat.zero_add, hl0, hl1, List.length_nil, Nat.add_zero]
      have e4 : u8 4 = 4 := rfl
      have e8 : u8 (4 + 4) = 8 := rfl
      have e8' : u8 8 = 8 := rfl
      rw [e4, e8, e8', u8_of_le (by omega)]
    have hbuf : ((after_READ z (after_READ z (after_READ z (after_READ z
        (after_select_CL2 z (after_anticoll_CL2
          (after_select_CL1 z (after_anticoll_CL1 f c1) s1) c2) s2) 0 b0) 4 b1) 8 []) 12
            d3).emit Op.TurnRfOff).data.mf_ul_data =
        (b0 ++ b1 ++ d3) ++ List.replicate (z.MIFARE_UL_DATA_MAX - (8 + d3.length)) 0 := by
      simp only [emit_fields, after_READ_fields, after_select_CL2_fields,
        after_anticoll_CL2_fields, after_select_CL1_fields, after_anticoll_CL1_fields, hb, hc,
        Nat.zero_add, hl0, hl1, List.length_nil, Nat.add_zero]
      have e4 : u8 4 = 4 := rfl
      have e8 : u8 (4 + 4) = 8 := rfl
      have e8' : u8 8 = 8 := rfl
      rw [e4, e8, e8']
      have s0 := storeAt_append [] b0 z.MIFARE_UL_DATA_MAX (by omega)
      simp only [List.nil_append, List.length_nil, hl0] at s0
      rw [s0]
      have s1 := storeAt_append b0 b1 (z.MIFARE_UL_DATA_MAX - 4) (by omega)
      simp only [hl0, hl1] at s1
      rw [s1]
      have s2 := storeAt_append (b0 ++ b1) [] (z.MIFARE_UL_DATA_MAX - 4 - 4) (by simp)
      simp only [List.length_append, hl0, hl1, List.append_nil, List.length_nil,
        Nat.sub_zero] at s2
      rw [s2]
      have s3 := storeAt_append (b0 ++ b1) d3 (z.MIFARE_UL_DATA_MAX - 4 - 4) (by omega)
      simp only [List.length_append, hl0, hl1] at s3
      rw [s3]
      congr 2
      omega
    have hlen : (b0 ++ b1 ++ d3).length = 8 + d3.length := by
      simp only [List.length_append, hl0, hl1]
    have htake : ((after_READ z (after_READ z (after_READ z (after_READ z
        (after_select_CL2 z (after_anticoll_CL2
          (after_select_CL1 z (after_anticoll_CL1 f c1) s1) c2) s2) 0 b0) 4 b1) 8 []) 12
            d3).emit Op.TurnRfOff).data.mf_ul_data.take (8 + d3.length) = b0 ++ b1 ++ d3 := by
      rw [hbuf]
      exact List.take_left' hlen
    refine ⟨⟨d3, f.log ++ [⟨ANTICOLL_CL1, c1⟩,
        ⟨SELECT_CL1 z ((store f.CL1_buf c1).take c1.length), s1⟩, ⟨ANTICOLL_CL2, c2⟩,
        ⟨ISO_WRITE 0x08, []⟩, ⟨SELECT_CL2 z ((store f.CL2_buf c2).take c2.length), s2⟩,
        ⟨READ z 0, b0⟩, ⟨READ z 4, b1⟩], [⟨Op.TurnRfOff, []⟩], by simp, hnb, htake⟩, ?_, ?_⟩
    · have h8 : (b0 ++ b1).length = 8 := by simp only [List.length_append, hl0, hl1]
      rw [hbuf, List.append_assoc (b0 ++ b1)]
      exact List.take_left' h8
    · intro b3 h3
      simp [hn', ANTICOLL_CL1, ANTICOLL_CL2, SELECT_CL1, SELECT_CL2, READ, ISO_WRITE] at h3
      subst h3
      exact ⟨hnb, htake⟩
  | sak1_timeout c1 hc1 hct =>
    simp [hn', ANTICOLL_CL1, SELECT_CL1, READ, ISO_WRITE] at h0
  | cl2_timeout c1 s1 hc1 hct hs1 hs1l =>
    simp [hn', ANTICOLL_CL1, ANTICOLL_CL2, SELECT_CL1, READ, ISO_WRITE] at h0
  | sak2_timeout c1 s1 c2 h hc1 hct hs1 hs1l hc2 hc2l hh =>
    simp [hn', ANTICOLL_CL1, ANTICOLL_CL2, SELECT_CL1, SELECT_CL2, HALT, READ, ISO_WRITE] at h0
  | selected c1 s1 c2 s2 hc1 hct hs1 hs1l hc2 hc2l hs2 hs2l hul =>
    simp [hn', ANTICOLL_CL1, ANTICOLL_CL2, SELECT_CL1, SELECT_CL2, READ, ISO_WRITE] at h0
  | uid_timeout c1 hc1 hct =>
    simp [hn', ANTICOLL_CL1, ANTICOLL_UID, READ, ISO_WRITE] at h0
  | uid4 c1 u s h hc1 hct hu hul hsl hh =>
    simp [hn', ANTICOLL_CL1, ANTICOLL_UID, SELECT_CL1, HALT, READ, ISO_WRITE] at h0

/-- C6, amended: in every run in which the first and second block reads receive 4 bytes
each and the third receives nothing, the fourth block read is still performed, right
after the third; with `b3` the bytes it receives, the length of the bulk-read result is
8 plus the length of `b3` and the result is the first block, the second block and `b3`
one after the other (so `b3` sits at offset 8).  The first 8 bytes are the first block
followed by the second block, unchanged.  The same holds for whatever bytes the log
records for the fourth read. -/
theorem bulk_read_gap (z : Sizes) (hz : z.WF) (m : Medium) (stk : Stack)
    (data : t_hydranfc_v2_scan_iso14443A) (b0 b1 : List Nat)
    (h0 : ⟨READ z 0, b0⟩ ∈ (hydranfc_v2_scan_iso14443A z m stk data).log)
    (h1 : ⟨READ z 4, b1⟩ ∈ (hydranfc_v2_scan_iso14443A z m stk data).log)
    (h2 : ⟨READ z 8, []⟩ ∈ (hydranfc_v2_scan_iso14443A z m stk data).log)
    (hl0 : b0.length = 4) (hl1 : b1.length = 4) :
    (∃ b3 before after,
      (hydranfc_v2_scan_iso14443A z m stk data).log =
        before ++ [⟨READ z 8, []⟩, ⟨READ z 12, b3⟩] ++ after ∧
      (hydranfc_v2_scan_iso14443A z m stk data).data.mf_ul_data_nb_rx_data = 8 + b3.length ∧
      (hydranfc_v2_scan_iso14443A z m stk data).data.mf_ul_data.take (8 + b3.length)
        = b0 ++ b1 ++ b3) ∧
    (hydranfc_v2_scan_iso14443A z m stk data).data.mf_ul_data.take 8 = b0 ++ b1 ∧
    (∀ b3, ⟨READ z 12, b3⟩ ∈ (hydranfc_v2_scan_iso14443A z m stk data).log →
      (hydranfc_v2_scan_iso14443A z m stk data).data.mf_ul_data_nb_rx_data = 8 + b3.length ∧
      (hydranfc_v2_scan_iso14443A z m stk data).data.mf_ul_data.take (8 + b3.length)
        = b0 ++ b1 ++ b3) := by
  have hmax : z.MIFARE_UL_DATA_MAX ≤ 255 := hz.2.2.2.2.2.2.2.2
  rcases scan_run z hz m stk data with ⟨-, G, hG, hF⟩ | ⟨-, -, G, hG, hF⟩ | ⟨-, -, hF⟩
  · rw [hF] at h0 h1 h2 ⊢
    exact gap_read_run z hmax _ G hG (by simp [memset_data]) (by simp [memset_data])
      (by simp [setup_log, REQA, ISO_WRITE, READ]) b0 b1 h0 h1 h2 hl0 hl1
  · rw [hF] at h0 h1 h2 ⊢
    exact gap_read_run z hmax _ G hG (by simp [memset_data]) (by simp [memset_data])
      (by simp [setup_log, REQA, ISO_WRITE, READ]) b0 b1 h0 h1 h2 hl0 hl1
  · rw [hF] at h0
    simp [setup_log, REQA, ISO_WRITE, READ] at h0

/-- C6 amended, witness: a Mifare Ultralight whose third block read times out and whose
fourth block read receives `1C 1D 1E 1F`; the result has 12 bytes, the fourth block at
offset 8. -/
theorem bulk_read_gap_witness :
    sizes0.WF ∧
    ⟨READ sizes0 8, []⟩ ∈ (hydranfc_v2_scan_iso14443A sizes0 medium_ul_gap stack0 record0).log ∧
    ⟨READ sizes0 12, [0x1C, 0x1D, 0x1E, 0x1F]⟩ ∈
      (hydranfc_v2_scan_iso14443A sizes0 medium_ul_gap stack0 record0).log ∧
    (hydranfc_v2_scan_iso14443A sizes0 medium_ul_gap stack0 record0).data.mf_ul_data_nb_rx_data
      = 8 + [0x1C, 0x1D, 0x1E, 0x1F].length ∧
    (hydranfc_v2_scan_iso14443A sizes0 medium_ul_gap stack0 record0).data.mf_ul_data.take
        (8 + [0x1C, 0x1D, 0x1E, 0x1F].length) =
      [0x10, 0x11, 0x12, 0x13] ++ [0x14, 0x15, 0x16, 0x17] ++ [0x1C, 0x1D, 0x1E, 0x1F] :=
  ⟨by decide, by decide, by decide,
    (bulk_read_gap sizes0 (by decide) medium_ul_gap stack0 record0 [0x10, 0x11, 0x12, 0x13]
      [0x14, 0x15, 0x16, 0x17] (by decide) (by decide) (by decide) rfl rfl).2.2
      [0x1C, 0x1D, 0x1E, 0x1F] (by decide)⟩


theorem is_mifare_ul_congr (d d' : t_hydranfc_v2_scan_iso14443A)
    (h1 : d.atqa_buf = d'.atqa_buf) (h2 : d.sak1_buf = d'.sak1_buf)
    (h3 : d.sak2_buf = d'.sak2_buf) : is_mifare_ul d ↔ is_mifare_ul d' := by
  simp only [is_mifare_ul, h1, h2, h3]

theorem trigger_of_none (z : Sizes) (F : Frame)
    (hno : ∀ e ∈ F.log, sends 0x30 e.op = false)
    (hc : ¬ (0 < F.data.sak2_buf_nb_rx_data ∧ is_mifare_ul F.data)) :
    ((∃ e ∈ F.log, sends 0x30 e.op = true) ↔
      (0 < F.data.sak2_buf_nb_rx_data ∧ is_mifare_ul F.data)) ∧
    ((∃ e ∈ F.log, sends 0x30 e.op = true) →
      (F.log.filter (fun e => sends 0x30 e.op)).map (fun e => e.op) =
        [Op.transceive_bytes [0x30, 0] (MIFARE_UL_DATA z) 20 1,
         Op.transceive_bytes [0x30, 4] (MIFARE_UL_DATA z) 20 1,
         Op.transceive_bytes [0x30, 8] (MIFARE_UL_DATA z) 20 1,
         Op.transceive_bytes [0x30, 12] (MIFARE_UL_DATA z) 20 1]) := by
  have hn : ¬ ∃ e ∈ F.log, sends 0x30 e.op = true := by
    rintro ⟨e, he, h⟩
    rw [hno e he] at h
    exact Bool.false_ne_true h
  exact ⟨⟨fun h => absurd h hn, fun h => absurd h hc⟩, fun h => absurd h hn⟩

/-- C7: the trigger of the bulk read.  Block-read commands (first byte `0x30`) are sent
in a run if and only if the level-2 select-acknowledge is non-empty and the record
matches the Mifare Ultralight signature (ATQA bytes `44 00`, first SAK1 byte `04`,
second SAK2 byte `00`); when they are sent there are exactly four of them, for the
blocks 0, 4, 8 and 12 in this order, each with the CRC flag set. -/
theorem bulk_read_trigger (z : Sizes) (hz : z.WF) (m : Medium) (stk : Stack)
    (data : t_hydranfc_v2_scan_iso14443A) :
    ((∃ e ∈ (hydranfc_v2_scan_iso14443A z m stk data).log, sends 0x30 e.op = true) ↔
      (0 < (hydranfc_v2_scan_iso14443A z m stk data).data.sak2_buf_nb_rx_data ∧
        is_mifare_ul (hydranfc_v2_scan_iso14443A z m stk data).data)) ∧
    ((∃ e ∈ (hydranfc_v2_scan_iso14443A z m stk data).log, sends 0x30 e.op = true) →
      ((hydranfc_v2_scan_iso14443A z m stk data).log.filter (fun e => sends 0x30 e.op)).map
          (fun e => e.op) =
        [Op.transceive_bytes [0x30, 0] (MIFARE_UL_DATA z) 20 1,
         Op.transceive_bytes [0x30, 4] (MIFARE_UL_DATA z) 20 1,
         Op.transceive_bytes [0x30, 8] (MIFARE_UL_DATA z) 20 1,
         Op.transceive_bytes [0x30, 12] (MIFARE_UL_DATA z) 20 1]) := by
  have key : ∀ G, TagRun z (after_REQA z (after_setup z stk data) (first_ATQA z m)) G ∨
      TagRun z (after_REQA z (after_REQA z (after_setup z stk data) []) (second_ATQA z m)) G →
      ((∃ e ∈ (G.emit Op.TurnRfOff).log, sends 0x30 e.op = true) ↔
        (0 < (G.emit Op.TurnRfOff).data.sak2_buf_nb_rx_data ∧
          is_mifare_ul (G.emit Op.TurnRfOff).data)) ∧
      ((∃ e ∈ (G.emit Op.TurnRfOff).log, sends 0x30 e.op = true) →
        ((G.emit Op.TurnRfOff).log.filter (fun e => sends 0x30 e.op)).map (fun e => e.op) =
          [Op.transceive_bytes [0x30, 0] (MIFARE_UL_DATA z) 20 1,
           Op.transceive_bytes [0x30, 4] (MIFARE_UL_DATA z) 20 1,
           Op.transceive_bytes [0x30, 8] (MIFARE_UL_DATA z) 20 1,
           Op.transceive_bytes [0x30, 12] (MIFARE_UL_DATA z) 20 1]) := by
    intro G hG
    rcases hG with hG | hG <;> cases hG with
    | bulk_read c1 s1 c2 s2 d0 d1 d2 d3 hc1 hct hs1 hs1l hc2 hc2l hs2 hs2l hul hd0 hd1 hd2 hd3 =>
      have hpos : 0 < s2.length := List.length_pos.2 hs2
      refine ⟨⟨fun _ => ⟨by simpa using hpos, ?_⟩, fun _ => ⟨⟨READ z 0, d0⟩, ?_, rfl⟩⟩,
        fun _ => ?_⟩
      · exact (is_mifare_ul_congr _ _ (by simp) (by simp) (by simp)).2 hul
      · simp
      · simp [setup_log, REQA, ANTICOLL_CL1, ANTICOLL_CL2, SELECT_CL1, SELECT_CL2, READ,
          ISO_WRITE, sends, List.filter_cons]
    | selected c1 s1 c2 s2 hc1 hct hs1 hs1l hc2 hc2l hs2 hs2l hul =>
      apply trigger_of_none
      · simp [setup_log, REQA, ANTICOLL_CL1, ANTICOLL_CL2, SELECT_CL1, SELECT_CL2,
          ISO_WRITE, sends]
      · intro h
        exact hul ((is_mifare_ul_congr _ _ (by simp) (by simp) (by simp)).1 h.2)
    | sak1_timeout c1 hc1 hct =>
      apply trigger_of_none
      · simp [setup_log, REQA, ANTICOLL_CL1, SELECT_CL1, ISO_WRITE, sends]
      · simp [memset_data]
    | cl2_timeout c1 s1 hc1 hct hs1 hs1l =>
      apply trigger_of_none
      · simp [setup_log, REQA, ANTICOLL_CL1, ANTICOLL_CL2, SELECT_CL1, ISO_WRITE, sends]
      · simp [memset_data]
    | sak2_timeout c1 s1 c2 h hc1 hct hs1 hs1l hc2 hc2l hh =>
      apply trigger_of_none
      · simp [setup_log, REQA, ANTICOLL_CL1, ANTICOLL_CL2, SELECT_CL1, SELECT_CL2, HALT,
          ISO_WRITE, sends]
      · simp
    | uid_timeout c1 hc1 hct =>
      apply trigger_of_none
      · simp [setup_log, REQA, ANTICOLL_CL1, ANTICOLL_UID, ISO_WRITE, sends]
      · simp [memset_data]
    | uid4 c1 u s h hc1 hct hu hul hsl hh =>
      apply trigger_of_none
      · simp [setup_log, REQA, ANTICOLL_CL1, ANTICOLL_UID, SELECT_CL1, HALT, ISO_WRITE, sends]
      · simp [memset_data]
  rcases scan_run z hz m stk data with ⟨-, G, hG, hF⟩ | ⟨-, -, G, hG, hF⟩ | ⟨-, -, hF⟩
  · rw [hF]; exact key G (Or.inl hG)
  · rw [hF]; exact key G (Or.inr hG)
  · rw [hF]
    apply trigger_of_none
    · simp [setup_log, REQA, ISO_WRITE, sends]
    · simp [memset_data]

/-- C7, witness: on the Mifare Ultralight whose third read times out, the four block
reads are sent. -/
theorem bulk_read_trigger_witness :
    ((hydranfc_v2_scan_iso14443A sizes0 medium_ul_gap stack0 record0).log.filter
        (fun e => sends 0x30 e.op)).map (fun e => e.op) =
      [Op.transceive_bytes [0x30, 0] (MIFARE_UL_DATA sizes0) 20 1,
       Op.transceive_bytes [0x30, 4] (MIFARE_UL_DATA sizes0) 20 1,
       Op.transceive_bytes [0x30, 8] (MIFARE_UL_DATA sizes0) 20 1,
       Op.transceive_bytes [0x30, 12] (MIFARE_UL_DATA sizes0) 20 1] :=
  (bulk_read_trigger sizes0 (by decide) medium_ul_gap stack0 record0).2 (by decide)

/-- C8, the failing run: a tag with a 7 bytes UID answers the level-2 select with the
acknowledge `20` and is not a Mifare Ultralight.  It is selected, no block read is
sent, and no halt (`0x50`) is sent either. -/
theorem halt_missing_after_select :
    ⟨SELECT_CL2 sizes0 [5, 6, 7, 8, 0x0C], [0x20]⟩ ∈
      (hydranfc_v2_scan_iso14443A sizes0 medium_selected stack0 record0).log ∧
    (hydranfc_v2_scan_iso14443A sizes0 medium_selected stack0 record0).data.sak2_buf_nb_rx_data
      = 1 ∧
    (∀ e ∈ (hydranfc_v2_scan_iso14443A sizes0 medium_selected stack0 record0).log,
      sends 0x30 e.op = false ∧ sends 0x50 e.op = false) ∧
    ⟨HALT sizes0, []⟩ ∈ (hydranfc_v2_scan_iso14443A sizes0 medium_uid4 stack0 record0).log := by
  decide
/-! ## Claims on the scan: framing, lengths and bounds -/

/-- The framing switch along the paths of `scan_tag`, from a frame whose log starts with
the chip set-up, holds one ISO control write and no level-2 select. -/
theorem framing_switch_run (z : Sizes) (f G : Frame) (hG : TagRun z f G)
    (h5 : f.log.take 5 = setup_log)
    (hw : (f.log.filter (fun e => is_ISO_WRITE e.op)).map Ev.op = [ISO_WRITE 0x88])
    (hn : ∀ payload sak2, (⟨SELECT_CL2 z payload, sak2⟩ : Ev) ∉ f.log) :
    (G.emit Op.TurnRfOff).log.take 5 = setup_log ∧
    ∀ payload sak2, ⟨SELECT_CL2 z payload, sak2⟩ ∈ (G.emit Op.TurnRfOff).log →
      ((G.emit Op.TurnRfOff).log.filter (fun e => is_ISO_WRITE e.op)).map Ev.op
        = [ISO_WRITE 0x88, ISO_WRITE 0x08] ∧
      ∃ before after, (G.emit Op.TurnRfOff).log =
        before ++ [⟨ISO_WRITE 0x08, []⟩, ⟨SELECT_CL2 z payload, sak2⟩] ++ after := by
  have hlen : 5 ≤ f.log.length := by
    have := congrArg List.length h5
    simp [setup_log] at this
    omega
  have htake : ∀ l : List Ev, (f.log ++ l).take 5 = setup_log := by
    intro l
    rw [List.take_append_of_le_length hlen, h5]
  have hn' := hn
  simp only [SELECT_CL2] at hn'
  cases hG with
  | sak2_timeout c1 s1 c2 h hc1 hct hs1 hs1l hc2 hc2l hh =>
    refine ⟨by simp only [emit_fields, after_HALT_add_fields, after_select_CL2_fields,
      after_anticoll_CL2_fields, after_select_CL1_fields, after_anticoll_CL1_fields,
      List.append_assoc, htake], ?_⟩
    intro payload sak2 hm
    simp [hn', ANTICOLL_CL1, ANTICOLL_CL2, SELECT_CL1, SELECT_CL2, HALT, ISO_WRITE] at hm
    obtain ⟨hp, hs⟩ := hm
    subst hp hs
    refine ⟨by simp only [emit_fields, after_HALT_add_fields, after_READ_fields, after_select_CL2_fields, after_anticoll_CL2_fields, after_select_CL1_fields, after_anticoll_CL1_fields, List.filter_append, List.map_append, hw]; simp [ANTICOLL_CL1, ANTICOLL_CL2, SELECT_CL1, SELECT_CL2,
      HALT, ISO_WRITE, is_ISO_WRITE, List.filter_cons, ISO_CONTROL], ?_⟩
    exact ⟨f.log ++ [⟨ANTICOLL_CL1, c1⟩, ⟨SELECT_CL1 z ((store f.CL1_buf c1).take c1.length), s1⟩,
      ⟨ANTICOLL_CL2, c2⟩], [⟨HALT z, h⟩, ⟨Op.TurnRfOff, []⟩], by simp [SELECT_CL2]⟩
  | bulk_read c1 s1 c2 s2 d0 d1 d2 d3 hc1 hct hs1 hs1l hc2 hc2l hs2 hs2l hul hd0 hd1 hd2 hd3 =>
    refine ⟨by simp only [emit_fields, after_READ_fields, after_select_CL2_fields,
      after_anticoll_CL2_fields, after_select_CL1_fields, after_anticoll_CL1_fields,
      List.append_assoc, htake], ?_⟩
    intro payload sak2 hm
    simp [hn', ANTICOLL_CL1, ANTICOLL_CL2, SELECT_CL1, SELECT_CL2, READ, ISO_WRITE] at hm
    obtain ⟨hp, hs⟩ := hm
    subst hp hs
    refine ⟨by simp only [emit_fields, after_HALT_add_fields, after_READ_fields, after_select_CL2_fields, after_anticoll_CL2_fields, after_select_CL1_fields, after_anticoll_CL1_fields, List.filter_append, List.map_append, hw]; simp [ANTICOLL_CL1, ANTICOLL_CL2, SELECT_CL1, SELECT_CL2,
      READ, ISO_WRITE, is_ISO_WRITE, List.filter_cons, ISO_CONTROL], ?_⟩
    exact ⟨f.log ++ [⟨ANTICOLL_CL1, c1⟩, ⟨SELECT_CL1 z ((store f.CL1_buf c1).take c1.length), s1⟩,
      ⟨ANTICOLL_CL2, c2⟩], [⟨READ z 0, d0⟩, ⟨READ z 4, d1⟩, ⟨READ z 8, d2⟩, ⟨READ z 12, d3⟩,
      ⟨Op.TurnRfOff, []⟩], by simp [SELECT_CL2]⟩
  | selected c1 s1 c2 s2 hc1 hct hs1 hs1l hc2 hc2l hs2 hs2l hul =>
    refine ⟨by simp only [emit_fields, after_select_CL2_fields,
      after_anticoll_CL2_fields, after_select_CL1_fields, after_anticoll_CL1_fields,
      List.append_assoc, htake], ?_⟩
    intro payload sak2 hm
    simp [hn', ANTICOLL_CL1, ANTICOLL_CL2, SELECT_CL1, SELECT_CL2, ISO_WRITE] at hm
    obtain ⟨hp, hs⟩ := hm
    subst hp hs
    refine ⟨by simp only [emit_fields, after_HALT_add_fields, after_READ_fields, after_select_CL2_fields, after_anticoll_CL2_fields, after_select_CL1_fields, after_anticoll_CL1_fields, List.filter_append, List.map_append, hw]; simp [ANTICOLL_CL1, ANTICOLL_CL2, SELECT_CL1, SELECT_CL2,
      ISO_WRITE, is_ISO_WRITE, List.filter_cons, ISO_CONTROL], ?_⟩
    exact ⟨f.log ++ [⟨ANTICOLL_CL1, c1⟩, ⟨SELECT_CL1 z ((store f.CL1_buf c1).take c1.length), s1⟩,
      ⟨ANTICOLL_CL2, c2⟩], [⟨Op.TurnRfOff, []⟩], by simp [SELECT_CL2]⟩
  | sak1_timeout c1 hc1 hct =>
    refine ⟨by simp only [emit_fields, after_select_CL1_fields, after_anticoll_CL1_fields,
      List.append_assoc, htake], ?_⟩
    intro payload sak2 hm
    simp [hn', ANTICOLL_CL1, SELECT_CL1, SELECT_CL2, ISO_WRITE] at hm
  | cl2_timeout c1 s1 hc1 hct hs1 hs1l =>
    refine ⟨by simp only [emit_fields, after_select_CL1_fields, after_anticoll_CL1_fields,
      after_anticoll_CL2_fields, List.append_assoc, htake], ?_⟩
    intro payload sak2 hm
    simp [hn', ANTICOLL_CL1, ANTICOLL_CL2, SELECT_CL1, SELECT_CL2, ISO_WRITE] at hm
  | uid_timeout c1 hc1 hct =>
    refine ⟨by simp only [emit_fields, after_anticoll_UID_fields, after_anticoll_CL1_fields,
      List.append_assoc, htake], ?_⟩
    intro payload sak2 hm
    simp [hn', ANTICOLL_CL1, ANTICOLL_UID, SELECT_CL2, ISO_WRITE] at hm
  | uid4 c1 u s h hc1 hct hu hul hsl hh =>
    refine ⟨by simp only [emit_fields, after_HALT_fields, after_select_UID_fields,
      after_anticoll_UID_fields, after_anticoll_CL1_fields, List.append_assoc, htake], ?_⟩
    intro payload sak2 hm
    simp [hn', ANTICOLL_CL1, ANTICOLL_UID, SELECT_CL1, SELECT_CL2, HALT, ISO_WRITE] at hm

/-- C15: the order of the framing switch.  Every run starts with the chip set-up, in
which ISO control is written `0x88` (no RX CRC) before any exchange.  In every run that
sends the level-2 select, the ISO control writes of the run are, in order, `0x88` and
`0x08`: RX CRC is switched on exactly once, and that write is the operation immediately
before the level-2 select exchange. -/
theorem framing_switch_order (z : Sizes) (hz : z.WF) (m : Medium) (stk : Stack)
    (data : t_hydranfc_v2_scan_iso14443A) :
    (hydranfc_v2_scan_iso14443A z m stk data).log.take 5 = setup_log ∧
    ∀ payload sak2,
      ⟨SELECT_CL2 z payload, sak2⟩ ∈ (hydranfc_v2_scan_iso14443A z m stk data).log →
      ((hydranfc_v2_scan_iso14443A z m stk data).log.filter
          (fun e => is_ISO_WRITE e.op)).map Ev.op = [ISO_WRITE 0x88, ISO_WRITE 0x08] ∧
      ∃ before after,
        (hydranfc_v2_scan_iso14443A z m stk data).log =
          before ++ [⟨ISO_WRITE 0x08, []⟩, ⟨SELECT_CL2 z payload, sak2⟩] ++ after := by
  rcases scan_run z hz m stk data with ⟨-, G, hG, hF⟩ | ⟨-, -, G, hG, hF⟩ | ⟨-, -, hF⟩
  · rw [hF]
    exact framing_switch_run z _ G hG (by simp [setup_log])
      (by simp [setup_log, REQA, ISO_WRITE, is_ISO_WRITE, List.filter_cons, ISO_CONTROL,
        MODULATOR_CONTROL])
      (by simp [setup_log, REQA, ISO_WRITE, SELECT_CL2])
  · rw [hF]
    exact framing_switch_run z _ G hG (by simp [setup_log])
      (by simp [setup_log, REQA, ISO_WRITE, is_ISO_WRITE, List.filter_cons, ISO_CONTROL,
        MODULATOR_CONTROL])
      (by simp [setup_log, REQA, ISO_WRITE, SELECT_CL2])
  · rw [hF]
    refine ⟨by simp [setup_log], ?_⟩
    intro payload sak2 hm
    simp [setup_log, REQA, ISO_WRITE, SELECT_CL2] at hm

/-- C15, witness: on the tag with a 7 bytes UID that answers the level-2 select with
`20`, the ISO control writes of the run are `0x88` then `0x08`. -/
theorem framing_switch_order_witness :
    sizes0.WF ∧
    ⟨SELECT_CL2 sizes0 [5, 6, 7, 8, 0x0C], [0x20]⟩ ∈
      (hydranfc_v2_scan_iso14443A sizes0 medium_selected stack0 record0).log ∧
    ((hydranfc_v2_scan_iso14443A sizes0 medium_selected stack0 record0).log.filter
        (fun e => is_ISO_WRITE e.op)).map Ev.op = [ISO_WRITE 0x88, ISO_WRITE 0x08] :=
  ⟨by decide, by decide,
    ((framing_switch_order sizes0 (by decide) medium_selected stack0 record0).2
      [5, 6, 7, 8, 0x0C] [0x20] (by decide)).1⟩


/-- C16, as stated, fails: on the single-cascade path the select `93 70 01 02 03 04 04`
is sent with CRC and receives 3 bytes; the recorded level-1 select-acknowledge length is
3, not 3 - 2 = 1. -/
theorem sak1_length_counterexample :
    ⟨SELECT_CL1 sizes0 [1, 2, 3, 4, 4], [0x08, 0xB6, 0xDD]⟩ ∈
      (hydranfc_v2_scan_iso14443A sizes0 medium_uid4_sak3 stack0 record0).log ∧
    (hydranfc_v2_scan_iso14443A sizes0 medium_uid4_sak3 stack0 record0).data.sak1_buf_nb_rx_data
      = 3 ∧
    ¬ ((hydranfc_v2_scan_iso14443A sizes0 medium_uid4_sak3 stack0
        record0).data.sak1_buf_nb_rx_data = 3 - 2) := by
  decide

/-- The recorded level-1 select-acknowledge length along the paths of `scan_tag`, from a
frame whose log holds no level-1 select. -/
theorem select_ack_run (z : Sizes) (f G : Frame) (hG : TagRun z f G)
    (hn : ∀ payload r, (⟨SELECT_CL1 z payload, r⟩ : Ev) ∉ f.log)
    (payload r : List Nat) (h : ⟨SELECT_CL1 z payload, r⟩ ∈ (G.emit Op.TurnRfOff).log) :
    ((G.emit Op.TurnRfOff).CL1_buf.getD 0 0 = 0x88 →
      (G.emit Op.TurnRfOff).data.sak1_buf_nb_rx_data
        = if 3 ≤ r.length then r.length - 2 else r.length) ∧
    ((G.emit Op.TurnRfOff).CL1_buf.getD 0 0 ≠ 0x88 →
      (G.emit Op.TurnRfOff).data.sak1_buf_nb_rx_data = r.length) := by
  have hn' := hn
  simp only [SELECT_CL1] at hn'
  cases hG with
  | sak1_timeout c1 hc1 hct =>
    simp [hn', ANTICOLL_CL1, SELECT_CL1, ISO_WRITE] at h
    obtain ⟨-, hr⟩ := h
    subst hr
    simp only [List.getD_eq_getElem?_getD] at hct
    simp [hct]
  | cl2_timeout c1 s1 hc1 hct hs1 hs1l =>
    simp [hn', ANTICOLL_CL1, ANTICOLL_CL2, SELECT_CL1, ISO_WRITE] at h
    obtain ⟨-, hr⟩ := h
    subst hr
    simp only [List.getD_eq_getElem?_getD] at hct
    simp [hct]
  | sak2_timeout c1 s1 c2 h' hc1 hct hs1 hs1l hc2 hc2l hh =>
    simp [hn', ANTICOLL_CL1, ANTICOLL_CL2, SELECT_CL1, SELECT_CL2, HALT, ISO_WRITE] at h
    obtain ⟨-, hr⟩ := h
    subst hr
    simp only [List.getD_eq_getElem?_getD] at hct
    simp [hct]
  | bulk_read c1 s1 c2 s2 d0 d1 d2 d3 hc1 hct hs1 hs1l hc2 hc2l hs2 hs2l hul hd0 hd1 hd2 hd3 =>
    simp [hn', ANTICOLL_CL1, ANTICOLL_CL2, SELECT_CL1, SELECT_CL2, READ, ISO_WRITE] at h
    obtain ⟨-, hr⟩ := h
    subst hr
    simp only [List.getD_eq_getElem?_getD] at hct
    simp [hct]
  | selected c1 s1 c2 s2 hc1 hct hs1 hs1l hc2 hc2l hs2 hs2l hul =>
    simp [hn', ANTICOLL_CL1, ANTICOLL_CL2, SELECT_CL1, SELECT_CL2, ISO_WRITE] at h
    obtain ⟨-, hr⟩ := h
    subst hr
    simp only [List.getD_eq_getElem?_getD] at hct
    simp [hct]
  | uid_timeout c1 hc1 hct =>
    simp [hn', ANTICOLL_CL1, ANTICOLL_UID, SELECT_CL1, ISO_WRITE] at h
  | uid4 c1 u s h' hc1 hct hu hul hsl hh =>
    simp [hn', ANTICOLL_CL1, ANTICOLL_UID, SELECT_CL1, HALT, ISO_WRITE] at h
    obtain ⟨-, hr⟩ := h
    subst hr
    simp only [List.getD_eq_getElem?_getD] at hct
    simp [hct]

/-- C16, amended: in every run that sends the level-1 select with received bytes `r`,
when the first byte of the level-1 anti-collision buffer is `0x88` (extended path, RX
CRC off) the recorded level-1 select-acknowledge length is the byte count minus 2 from
3 bytes on and the byte count below; when that byte is not `0x88` (single-cascade path,
RX CRC switched on before the select) the recorded length is the byte count as it
is. -/
theorem sak1_length (z : Sizes) (hz : z.WF) (m : Medium) (stk : Stack)
    (data : t_hydranfc_v2_scan_iso14443A) (payload r : List Nat)
    (h : ⟨SELECT_CL1 z payload, r⟩ ∈ (hydranfc_v2_scan_iso14443A z m stk data).log) :
    ((hydranfc_v2_scan_iso14443A z m stk data).CL1_buf.getD 0 0 = 0x88 →
      (hydranfc_v2_scan_iso14443A z m stk data).data.sak1_buf_nb_rx_data
        = if 3 ≤ r.length then r.length - 2 else r.length) ∧
    ((hydranfc_v2_scan_iso14443A z m stk data).CL1_buf.getD 0 0 ≠ 0x88 →
      (hydranfc_v2_scan_iso14443A z m stk data).data.sak1_buf_nb_rx_data = r.length) := by
  rcases scan_run z hz m stk data with ⟨-, G, hG, hF⟩ | ⟨-, -, G, hG, hF⟩ | ⟨-, -, hF⟩
  · rw [hF] at h ⊢
    exact select_ack_run z _ G hG (by simp [setup_log, REQA, ISO_WRITE, SELECT_CL1]) payload r h
  · rw [hF] at h ⊢
    exact select_ack_run z _ G hG (by simp [setup_log, REQA, ISO_WRITE, SELECT_CL1]) payload r h
  · rw [hF] at h
    simp [setup_log, REQA, ISO_WRITE, SELECT_CL1] at h

/-- C16 amended, witness: the tag with a 4 bytes UID whose select receives 3 bytes; the
recorded length is 3. -/
theorem sak1_length_witness :
    sizes0.WF ∧
    (hydranfc_v2_scan_iso14443A sizes0 medium_uid4_sak3 stack0 record0).CL1_buf.getD 0 0
      ≠ 0x88 ∧
    (hydranfc_v2_scan_iso14443A sizes0 medium_uid4_sak3 stack0 record0).data.sak1_buf_nb_rx_data
      = [0x08, 0xB6, 0xDD].length :=
  ⟨by decide, by decide,
    (sak1_length sizes0 (by decide) medium_uid4_sak3 stack0 record0 [1, 2, 3, 4, 4]
      [0x08, 0xB6, 0xDD] (by decide)).2 (by decide)⟩

/-- The bulk read along the paths of `scan_tag`, from a frame whose bulk-read area is
empty and whose log holds no block read. -/
theorem bulk_read_run (z : Sizes) (hmax : z.MIFARE_UL_DATA_MAX ≤ 255) (f G : Frame)
    (hG : TagRun z f G)
    (hb : f.data.mf_ul_data = List.replicate z.MIFARE_UL_DATA_MAX 0)
    (hc : f.data.mf_ul_data_nb_rx_data = 0)
    (hn : ∀ i r, (⟨READ z i, r⟩ : Ev) ∉ f.log)
    (d0 d1 d2 d3 : List Nat)
    (h0 : ⟨READ z 0, d0⟩ ∈ (G.emit Op.TurnRfOff).log)
    (h1 : ⟨READ z 4, d1⟩ ∈ (G.emit Op.TurnRfOff).log)
    (h2 : ⟨READ z 8, d2⟩ ∈ (G.emit Op.TurnRfOff).log)
    (h3 : ⟨READ z 12, d3⟩ ∈ (G.emit Op.TurnRfOff).log) :
    (d0.length ≤ MIFARE_UL_DATA z ∧ d1.length ≤ MIFARE_UL_DATA z ∧
      d2.length ≤ MIFARE_UL_DATA z ∧ d3.length ≤ MIFARE_UL_DATA z) ∧
    (G.emit Op.TurnRfOff).data.mf_ul_data_nb_rx_data =
      d0.length + d1.length + d2.length + d3.length ∧
    (G.emit Op.TurnRfOff).data.mf_ul_data = d0 ++ d1 ++ d2 ++ d3 ++
      List.replicate (z.MIFARE_UL_DATA_MAX - (d0.length + d1.length + d2.length + d3.length)) 0 := by
  have hn' := hn
  simp only [READ] at hn'
  cases hG with
  | bulk_read c1 s1 c2 s2 e0 e1 e2 e3 hc1 hct hs1 hs1l hc2 hc2l hs2 hs2l hul hd0 hd1 hd2 hd3 =>
    simp [hn', ANTICOLL_CL1, ANTICOLL_CL2, SELECT_CL1, SELECT_CL2, READ, ISO_WRITE] at h0 h1 h2 h3
    subst h0 h1 h2 h3
    refine ⟨⟨hd0, hd1, hd2, hd3⟩, ?_⟩
    simp only [MIFARE_UL_DATA] at hd0 hd1 hd2 hd3
    have hq : 4 * (z.MIFARE_UL_DATA_MAX / 4) ≤ z.MIFARE_UL_DATA_MAX := Nat.mul_div_le _ _
    simp only [emit_fields, after_READ_fields, after_select_CL2_fields,
      after_anticoll_CL2_fields, after_select_CL1_fields, after_anticoll_CL1_fields, hb, hc,
      Nat.zero_add]
    have e0 : u8 d0.length = d0.length := u8_of_le (by omega)
    have e1 : u8 (d0.length + d1.length) = d0.length + d1.length := u8_of_le (by omega)
    have e2 : u8 (d0.length + d1.length + d2.length) = d0.length + d1.length + d2.length :=
      u8_of_le (by omega)
    have e3 : u8 (d0.length + d1.length + d2.length + d3.length)
        = d0.length + d1.length + d2.length + d3.length := u8_of_le (by omega)
    rw [e0, e1, e2, e3]
    refine ⟨rfl, ?_⟩
    have s0 := storeAt_append [] d0 z.MIFARE_UL_DATA_MAX (by omega)
    simp only [List.nil_append, List.length_nil] at s0
    rw [s0]
    have s1 := storeAt_append d0 d1 (z.MIFARE_UL_DATA_MAX - d0.length) (by omega)
    rw [s1]
    have s2 := storeAt_append (d0 ++ d1) d2 (z.MIFARE_UL_DATA_MAX - d0.length - d1.length)
      (by omega)
    rw [List.length_append] at s2
    rw [s2]
    have s3 := storeAt_append (d0 ++ d1 ++ d2) d3
      (z.MIFARE_UL_DATA_MAX - d0.length - d1.length - d2.length) (by omega)
    rw [List.length_append, List.length_append] at s3
    rw [s3]
    congr 2
    omega
  | sak1_timeout c1 hc1 hct =>
    simp [hn', ANTICOLL_CL1, SELECT_CL1, READ, ISO_WRITE] at h0
  | cl2_timeout c1 s1 hc1 hct hs1 hs1l =>
    simp [hn', ANTICOLL_CL1, ANTICOLL_CL2, SELECT_CL1, READ, ISO_WRITE] at h0
  | sak2_timeout c1 s1 c2 h hc1 hct hs1 hs1l hc2 hc2l hh =>
    simp [hn', ANTICOLL_CL1, ANTICOLL_CL2, SELECT_CL1, SELECT_CL2, HALT, READ, ISO_WRITE] at h0
  | selected c1 s1 c2 s2 hc1 hct hs1 hs1l hc2 hc2l hs2 hs2l hul =>
    simp [hn', ANTICOLL_CL1, ANTICOLL_CL2, SELECT_CL1, SELECT_CL2, READ, ISO_WRITE] at h0
  | uid_timeout c1 hc1 hct =>
    simp [hn', ANTICOLL_CL1, ANTICOLL_UID, READ, ISO_WRITE] at h0
  | uid4 c1 u s h hc1 hct hu hul hsl hh =>
    simp [hn', ANTICOLL_CL1, ANTICOLL_UID, SELECT_CL1, HALT, READ, ISO_WRITE] at h0

/-- C17: the bulk read stays in bounds.  In every run in which the four block reads
(blocks 0, 4, 8, 12) are sent, with received bytes `d0 .. d3`: each response has at most
`MIFARE_UL_DATA` bytes; the final bulk-read length is the sum of the four lengths; the
bulk-read area holds the four responses one after the other, each one at the offset that
is the sum of the lengths before it, and zero behind them; and each of the four write
offsets plus the capacity `MIFARE_UL_DATA` of a write is at most
`MIFARE_UL_DATA_MAX`. -/
theorem bulk_read_in_bounds (z : Sizes) (hz : z.WF) (m : Medium) (stk : Stack)
    (data : t_hydranfc_v2_scan_iso14443A) (d0 d1 d2 d3 : List Nat)
    (h0 : ⟨READ z 0, d0⟩ ∈ (hydranfc_v2_scan_iso14443A z m stk data).log)
    (h1 : ⟨READ z 4, d1⟩ ∈ (hydranfc_v2_scan_iso14443A z m stk data).log)
    (h2 : ⟨READ z 8, d2⟩ ∈ (hydranfc_v2_scan_iso14443A z m stk data).log)
    (h3 : ⟨READ z 12, d3⟩ ∈ (hydranfc_v2_scan_iso14443A z m stk data).log) :
    (d0.length ≤ MIFARE_UL_DATA z ∧ d1.length ≤ MIFARE_UL_DATA z ∧
      d2.length ≤ MIFARE_UL_DATA z ∧ d3.length ≤ MIFARE_UL_DATA z) ∧
    (hydranfc_v2_scan_iso14443A z m stk data).data.mf_ul_data_nb_rx_data =
      d0.length + d1.length + d2.length + d3.length ∧
    (hydranfc_v2_scan_iso14443A z m stk data).data.mf_ul_data = d0 ++ d1 ++ d2 ++ d3 ++
      List.replicate (z.MIFARE_UL_DATA_MAX - (d0.length + d1.length + d2.length + d3.length)) 0 ∧
    (0 + MIFARE_UL_DATA z ≤ z.MIFARE_UL_DATA_MAX ∧
      d0.length + MIFARE_UL_DATA z ≤ z.MIFARE_UL_DATA_MAX ∧
      d0.length + d1.length + MIFARE_UL_DATA z ≤ z.MIFARE_UL_DATA_MAX ∧
      d0.length + d1.length + d2.length + MIFARE_UL_DATA z ≤ z.MIFARE_UL_DATA_MAX) := by
  have hmax : z.MIFARE_UL_DATA_MAX ≤ 255 := hz.2.2.2.2.2.2.2.2
  have hq : 4 * (z.MIFARE_UL_DATA_MAX / 4) ≤ z.MIFARE_UL_DATA_MAX := Nat.mul_div_le _ _
  have fin : ∀ F : Frame,
      ((d0.length ≤ MIFARE_UL_DATA z ∧ d1.length ≤ MIFARE_UL_DATA z ∧
        d2.length ≤ MIFARE_UL_DATA z ∧ d3.length ≤ MIFARE_UL_DATA z) ∧
      F.data.mf_ul_data_nb_rx_data = d0.length + d1.length + d2.length + d3.length ∧
      F.data.mf_ul_data = d0 ++ d1 ++ d2 ++ d3 ++
        List.replicate (z.MIFARE_UL_DATA_MAX - (d0.length + d1.length + d2.length + d3.length)) 0) →
      (d0.length ≤ MIFARE_UL_DATA z ∧ d1.length ≤ MIFARE_UL_DATA z ∧
        d2.length ≤ MIFARE_UL_DATA z ∧ d3.length ≤ MIFARE_UL_DATA z) ∧
      F.data.mf_ul_data_nb_rx_data = d0.length + d1.length + d2.length + d3.length ∧
      F.data.mf_ul_data = d0 ++ d1 ++ d2 ++ d3 ++
        List.replicate (z.MIFARE_UL_DATA_MAX - (d0.length + d1.length + d2.length + d3.length)) 0 ∧
      (0 + MIFARE_UL_DATA z ≤ z.MIFARE_UL_DATA_MAX ∧
        d0.length + MIFARE_UL_DATA z ≤ z.MIFARE_UL_DATA_MAX ∧
        d0.length + d1.length + MIFARE_UL_DATA z ≤ z.MIFARE_UL_DATA_MAX ∧
        d0.length + d1.length + d2.length + MIFARE_UL_DATA z ≤ z.MIFARE_UL_DATA_MAX) := by
    rintro F ⟨⟨a0, a1, a2, a3⟩, hnb, hbuf⟩
    refine ⟨⟨a0, a1, a2, a3⟩, hnb, hbuf, ?_⟩
    simp only [MIFARE_UL_DATA] at a0 a1 a2 a3 ⊢
    omega
  rcases scan_run z hz m stk data with ⟨-, G, hG, hF⟩ | ⟨-, -, G, hG, hF⟩ | ⟨-, -, hF⟩
  · rw [hF] at h0 h1 h2 h3 ⊢
    exact fin _ (bulk_read_run z hmax _ G hG (by simp [memset_data]) (by simp [memset_data])
      (by simp [setup_log, REQA, ISO_WRITE, READ]) d0 d1 d2 d3 h0 h1 h2 h3)
  · rw [hF] at h0 h1 h2 h3 ⊢
    exact fin _ (bulk_read_run z hmax _ G hG (by simp [memset_data]) (by simp [memset_data])
      (by simp [setup_log, REQA, ISO_WRITE, READ]) d0 d1 d2 d3 h0 h1 h2 h3)
  · rw [hF] at h0
    simp [setup_log, REQA, ISO_WRITE, READ] at h0

/-- C17, witness: a Mifare Ultralight answering 16 bytes to each block read; the 64
bytes fill the bulk-read area in order. -/
theorem bulk_read_in_bounds_witness :
    sizes0.WF ∧
    (hydranfc_v2_scan_iso14443A sizes0 medium_ul_full stack0 record0).data.mf_ul_data_nb_rx_data
      = 64 ∧
    (hydranfc_v2_scan_iso14443A sizes0 medium_ul_full stack0 record0).data.mf_ul_data
      = List.range 64 :=
  have h := bulk_read_in_bounds sizes0 (by decide) medium_ul_full stack0 record0
    ((List.range 16).map (fun i => i)) ((List.range 16).map (fun i => 16 + i))
    ((List.range 16).map (fun i => 32 + i)) ((List.range 16).map (fun i => 48 + i))
    (by decide) (by decide) (by decide) (by decide)
  ⟨by decide, h.2.1, h.2.2.1.trans (by decide)⟩

/-- The UID length along the paths of `scan_tag`, from a frame with an empty record. -/
theorem uid_length_run (z : Sizes) (f G : Frame) (hG : TagRun z f G)
    (hu : f.data.uid_buf_nb_rx_data = 0) (hc : f.CL2_buf_size = 0) :
    ((G.emit Op.TurnRfOff).CL1_buf.getD 0 0 = 0x88 →
      (0 < (G.emit Op.TurnRfOff).data.sak1_buf_nb_rx_data ∧
          0 < (G.emit Op.TurnRfOff).CL2_buf_size →
        (G.emit Op.TurnRfOff).data.uid_buf_nb_rx_data = 7) ∧
      (¬ (0 < (G.emit Op.TurnRfOff).data.sak1_buf_nb_rx_data ∧
          0 < (G.emit Op.TurnRfOff).CL2_buf_size) →
        (G.emit Op.TurnRfOff).data.uid_buf_nb_rx_data = 3)) ∧
    ((G.emit Op.TurnRfOff).CL1_buf.getD 0 0 ≠ 0x88 →
      ∃ u, ⟨ANTICOLL_UID z, u⟩ ∈ (G.emit Op.TurnRfOff).log ∧
        (G.emit Op.TurnRfOff).data.uid_buf_nb_rx_data = u.length) := by
  have e1 : u8 (0 + 1) = 1 := rfl
  have e2 : u8 (1 + 1) = 2 := rfl
  have e3 : u8 (2 + 1) = 3 := rfl
  have e4 : u8 (3 + 1) = 4 := rfl
  have e5 : u8 (4 + 1) = 5 := rfl
  have e6 : u8 (5 + 1) = 6 := rfl
  have e7 : u8 (6 + 1) = 7 := rfl
  have pos : ∀ l : List Nat, l ≠ [] → 0 < l.length := fun l h => List.length_pos.mpr h
  have pos2 : ∀ l : List Nat, l ≠ [] → 0 < (if 3 ≤ l.length then l.length - 2 else l.length) := by
    intro l h
    have := pos l h
    split <;> omega
  cases hG with
  | sak1_timeout c1 hc1 hct =>
    simp only [List.getD_eq_getElem?_getD] at hct
    simp [hct, hu, hc, e1, e2, e3]
  | cl2_timeout c1 s1 hc1 hct hs1 hs1l =>
    simp only [List.getD_eq_getElem?_getD] at hct
    simp [hct, hu, hc, e1, e2, e3]
  | sak2_timeout c1 s1 c2 h hc1 hct hs1 hs1l hc2 hc2l hh =>
    simp only [List.getD_eq_getElem?_getD] at hct
    have p1 := pos2 s1 hs1
    simp [hct, hu, hc, e1, e2, e3, e4, e5, e6, e7]
    exact ⟨p1, hc2⟩
  | bulk_read c1 s1 c2 s2 d0 d1 d2 d3 hc1 hct hs1 hs1l hc2 hc2l hs2 hs2l hul hd0 hd1 hd2 hd3 =>
    simp only [List.getD_eq_getElem?_getD] at hct
    have p1 := pos2 s1 hs1
    simp [hct, hu, hc, e1, e2, e3, e4, e5, e6, e7]
    exact ⟨p1, hc2⟩
  | selected c1 s1 c2 s2 hc1 hct hs1 hs1l hc2 hc2l hs2 hs2l hul =>
    simp only [List.getD_eq_getElem?_getD] at hct
    have p1 := pos2 s1 hs1
    simp [hct, hu, hc, e1, e2, e3, e4, e5, e6, e7]
    exact ⟨p1, hc2⟩
  | uid_timeout c1 hc1 hct =>
    simp only [List.getD_eq_getElem?_getD] at hct
    simp only [ne_eq, emit_fields, after_anticoll_UID_fields, after_anticoll_CL1_fields,
      List.getD_eq_getElem?_getD, hct, false_implies, not_false_eq_true, true_implies, true_and]
    exact ⟨[], by simp, rfl⟩
  | uid4 c1 u s h hc1 hct hu' hul hsl hh =>
    simp only [List.getD_eq_getElem?_getD] at hct
    simp only [ne_eq, emit_fields, after_HALT_fields, after_select_UID_fields,
      after_anticoll_UID_fields, after_anticoll_CL1_fields, List.getD_eq_getElem?_getD, hct,
      false_implies, not_false_eq_true, true_implies, true_and]
    exact ⟨u, by simp, rfl⟩

/-- C18: the UID length after a run.  It is 0 when both requests receive nothing.  When
a request is answered and the first byte of the level-1 anti-collision buffer is `0x88`,
it is 7 if the recorded level-1 select-acknowledge is non-empty and the level-2
anti-collision received at least one byte, and 3 otherwise.  When a request is answered
and that first byte is not `0x88`, it is the byte count received by the second level-1
anti-collision exchange, which is in the log (0 when it timed out). -/
theorem uid_length_cases (z : Sizes) (hz : z.WF) (m : Medium) (stk : Stack)
    (data : t_hydranfc_v2_scan_iso14443A) :
    (first_ATQA z m = [] ∧ second_ATQA z m = [] →
      (hydranfc_v2_scan_iso14443A z m stk data).data.uid_buf_nb_rx_data = 0) ∧
    (¬ (first_ATQA z m = [] ∧ second_ATQA z m = []) →
      ((hydranfc_v2_scan_iso14443A z m stk data).CL1_buf.getD 0 0 = 0x88 →
        (0 < (hydranfc_v2_scan_iso14443A z m stk data).data.sak1_buf_nb_rx_data ∧
            0 < (hydranfc_v2_scan_iso14443A z m stk data).CL2_buf_size →
          (hydranfc_v2_scan_iso14443A z m stk data).data.uid_buf_nb_rx_data = 7) ∧
        (¬ (0 < (hydranfc_v2_scan_iso14443A z m stk data).data.sak1_buf_nb_rx_data ∧
            0 < (hydranfc_v2_scan_iso14443A z m stk data).CL2_buf_size) →
          (hydranfc_v2_scan_iso14443A z m stk data).data.uid_buf_nb_rx_data = 3)) ∧
      ((hydranfc_v2_scan_iso14443A z m stk data).CL1_buf.getD 0 0 ≠ 0x88 →
        ∃ u, ⟨ANTICOLL_UID z, u⟩ ∈ (hydranfc_v2_scan_iso14443A z m stk data).log ∧
          (hydranfc_v2_scan_iso14443A z m stk data).data.uid_buf_nb_rx_data = u.length)) := by
  rcases scan_run z hz m stk data with ⟨h1, G, hG, hF⟩ | ⟨h1, h2, G, hG, hF⟩ | ⟨h1, h2, hF⟩
  · rw [hF]
    refine ⟨fun h => absurd h.1 h1, fun _ => ?_⟩
    exact uid_length_run z _ G hG (by simp [memset_data]) (by simp)
  · rw [hF]
    refine ⟨fun h => absurd h.2 h2, fun _ => ?_⟩
    exact uid_length_run z _ G hG (by simp [memset_data]) (by simp)
  · rw [hF]
    refine ⟨fun _ => by simp [memset_data], fun h => absurd ⟨h1, h2⟩ h⟩

/-- C18, witness: the tag with a 7 bytes UID; both the level-1 select-acknowledge and
the level-2 anti-collision response are non-empty and the UID length is 7. -/
theorem uid_length_cases_witness :
    sizes0.WF ∧
    ¬ (first_ATQA sizes0 medium_uid7 = [] ∧ second_ATQA sizes0 medium_uid7 = []) ∧
    (hydranfc_v2_scan_iso14443A sizes0 medium_uid7 stack0 record0).CL1_buf.getD 0 0 = 0x88 ∧
    (hydranfc_v2_scan_iso14443A sizes0 medium_uid7 stack0 record0).data.uid_buf_nb_rx_data = 7 :=
  ⟨by decide, by decide, by decide,
    (((uid_length_cases sizes0 (by decide) medium_uid7 stack0 record0).2 (by decide)).1
      (by decide)).1 (by decide)⟩
/-! ## Claims on the reporting -/

theorem filter_nil_of_fmts (l : List Print) (fs : List String) (f : String)
    (h : ∀ p ∈ l, p.fmt ∈ fs) (hf : f ∉ fs) : l.filter (fun p => p.fmt = f) = [] := by
  rw [List.filter_eq_nil_iff]
  intro p hp
  have := h p hp
  simp only [decide_eq_true_eq]
  intro e
  exact hf (e ▸ this)

theorem print_bytes_fmt (buf : List Nat) (lo hi : Nat) :
    ∀ p ∈ print_bytes buf lo hi, p.fmt = " %02X" := by
  intro p hp
  simp only [print_bytes, List.mem_map] at hp
  obtain ⟨k, -, rfl⟩ := hp
  rfl

theorem report_atqa_fmt (d : t_hydranfc_v2_scan_iso14443A) :
    ∀ p ∈ report_atqa d, p.fmt ∈ ["ATQA:", " %02X", "\r\n"] := by
  intro p hp
  unfold report_atqa at hp
  split at hp
  · simp only [List.mem_append, List.mem_singleton] at hp
    rcases hp with (rfl | hp) | rfl
    · simp
    · simp [print_bytes_fmt _ _ _ p hp]
    · simp
  · simp at hp

theorem report_sak1_fmt (d : t_hydranfc_v2_scan_iso14443A) :
    ∀ p ∈ report_sak1 d, p.fmt ∈ ["SAK1:", " %02X", "\r\n"] := by
  intro p hp
  unfold report_sak1 at hp
  split at hp
  · simp only [List.mem_append, List.mem_singleton] at hp
    rcases hp with (rfl | hp) | rfl
    · simp
    · simp [print_bytes_fmt _ _ _ p hp]
    · simp
  · simp at hp

theorem report_sak2_fmt (d : t_hydranfc_v2_scan_iso14443A) :
    ∀ p ∈ report_sak2 d, p.fmt ∈ ["SAK2:", " %02X", "\r\n"] := by
  intro p hp
  unfold report_sak2 at hp
  split at hp
  · simp only [List.mem_append, List.mem_singleton] at hp
    rcases hp with (rfl | hp) | rfl
    · simp
    · simp [print_bytes_fmt _ _ _ p hp]
    · simp
  · simp at hp

theorem report_uid_fmt (d : t_hydranfc_v2_scan_iso14443A) :
    ∀ p ∈ report_uid d, p.fmt ∈ ["UID:", " %02X", "\r\n", " (BCC %02X %s)\r\n"] := by
  intro p hp
  unfold report_uid at hp
  split at hp
  · split at hp
    · simp only [List.mem_append, List.mem_singleton] at hp
      rcases hp with (rfl | hp) | rfl
      · simp
      · simp [print_bytes_fmt _ _ _ p hp]
      · simp
    · simp only [List.mem_append, List.mem_singleton] at hp
      rcases hp with (rfl | hp) | rfl
      · simp
      · simp [print_bytes_fmt _ _ _ p hp]
      · simp
  · simp at hp

theorem report_data_dump_fmt (d : t_hydranfc_v2_scan_iso14443A) :
    ∀ p ∈ report_data_dump d, p.fmt ∈ ["DATA:", " %02X", "\r\n", "DATA UID:"] := by
  intro p hp
  simp only [report_data_dump, List.mem_append, List.mem_flatten,
    List.mem_map, List.mem_cons, List.mem_range, List.not_mem_nil, or_false] at hp
  rcases hp with ((((rfl | ⟨l, ⟨i, -, rfl⟩, hp⟩) | (rfl | rfl)) | hp) | hp) | rfl
  · simp
  · simp only [List.mem_append, List.mem_cons, List.not_mem_nil, or_false] at hp
    rcases hp with hp | rfl
    · split at hp
      · simp only [List.mem_cons, List.not_mem_nil, or_false] at hp
        subst hp
        simp
      · simp at hp
    · simp
  · simp
  · simp
  · simp [print_bytes_fmt _ _ _ p hp]
  · simp [print_bytes_fmt _ _ _ p hp]
  · simp

theorem write_file_fmt (fs : FileSystem) (filename : String) :
    ∀ p ∈ (write_file fs filename).1, p.fmt ∈ ["Mount failed: error %d\r\n",
      "Failed to open file %s\r\n", "Failed to write file %s\r\n",
      "Failed to close file %s\r\n", "write file %s with success\r\n"] := by
  intro p hp
  unfold write_file at hp
  split_ifs at hp <;> simp only [List.mem_singleton] at hp <;> subst hp <;> simp

theorem xor_byte_lt {a b : Nat} (ha : a < 256) (hb : b < 256) : a ^^^ b < 256 :=
  Nat.xor_lt_two_pow (n := 8) ha hb

theorem u8_of_lt {n : Nat} (h : n < 256) : u8 n = n := Nat.mod_eq_of_lt h

theorem expected_uid_bcc0_eq (d : t_hydranfc_v2_scan_iso14443A)
    (hb : ∀ i < 9, d.mf_ul_data.getD i 0 < 256) :
    expected_uid_bcc0 d =
      0x88 ^^^ d.mf_ul_data.getD 0 0 ^^^ d.mf_ul_data.getD 1 0 ^^^ d.mf_ul_data.getD 2 0 :=
  u8_of_lt (xor_byte_lt (xor_byte_lt (xor_byte_lt (by decide) (hb 0 (by decide)))
    (hb 1 (by decide))) (hb 2 (by decide)))

theorem expected_uid_bcc1_eq (d : t_hydranfc_v2_scan_iso14443A)
    (hb : ∀ i < 9, d.mf_ul_data.getD i 0 < 256) :
    expected_uid_bcc1 d =
      d.mf_ul_data.getD 4 0 ^^^ d.mf_ul_data.getD 5 0 ^^^ d.mf_ul_data.getD 6 0 ^^^
        d.mf_ul_data.getD 7 0 :=
  u8_of_lt (xor_byte_lt (xor_byte_lt (xor_byte_lt (hb 4 (by decide)) (hb 5 (by decide)))
    (hb 6 (by decide))) (hb 7 (by decide)))

theorem filter_head (d : t_hydranfc_v2_scan_iso14443A) (f : String)
    (hf : f ∉ ["ATQA:", "SAK1:", "SAK2:", "UID:", " %02X", "\r\n", " (BCC %02X %s)\r\n"]) :
    (report_atqa d ++ report_sak1 d ++ report_sak2 d ++ report_uid d).filter
      (fun p => p.fmt = f) = [] := by
  apply filter_nil_of_fmts _ _ _ _ hf
  intro p hp
  simp only [List.mem_append] at hp
  rcases hp with ((hp | hp) | hp) | hp
  · have := report_atqa_fmt d p hp
    simp only [List.mem_cons, List.not_mem_nil, or_false] at this ⊢
    tauto
  · have := report_sak1_fmt d p hp
    simp only [List.mem_cons, List.not_mem_nil, or_false] at this ⊢
    tauto
  · have := report_sak2_fmt d p hp
    simp only [List.mem_cons, List.not_mem_nil, or_false] at this ⊢
    tauto
  · have := report_uid_fmt d p hp
    simp only [List.mem_cons, List.not_mem_nil, or_false] at this ⊢
    tauto

theorem filter_data_lines_bcc0 (d : t_hydranfc_v2_scan_iso14443A) :
    (report_data_lines d).filter (fun p => p.fmt = " (DATA BCC0 %02X %s)\r\n") =
      [report_bcc0 d] := by
  rw [report_data_lines, List.filter_append,
    filter_nil_of_fmts _ _ " (DATA BCC0 %02X %s)\r\n" (report_data_dump_fmt d) (by decide),
    List.nil_append]
  simp [report_bcc0, report_bcc1, List.filter_cons]

theorem filter_data_lines_bcc1 (d : t_hydranfc_v2_scan_iso14443A) :
    (report_data_lines d).filter (fun p => p.fmt = " (DATA BCC1 %02X %s)\r\n") =
      [report_bcc1 d] := by
  rw [report_data_lines, List.filter_append,
    filter_nil_of_fmts _ _ " (DATA BCC1 %02X %s)\r\n" (report_data_dump_fmt d) (by decide),
    List.nil_append]
  simp [report_bcc0, report_bcc1, List.filter_cons]

theorem filter_read_tail (fs : FileSystem) (filename : String) (f : String)
    (hf : f ∉ ["Mount failed: error %d\r\n", "Failed to open file %s\r\n",
      "Failed to write file %s\r\n", "Failed to close file %s\r\n",
      "write file %s with success\r\n"]) :
    (write_file fs filename).1.filter (fun p => p.fmt = f) = [] :=
  filter_nil_of_fmts _ _ _ (write_file_fmt fs filename) hf

/-- C10: the identity-block checksums of the bulk-read content.  For a record with at
least 9 bytes of content (bytes below 256), `hydranfc_v2_scan_mifare` and
`hydranfc_v2_read_mifare_ul` each print exactly one BCC0 line and exactly one BCC1 line;
the BCC0 line carries `0x88 ^ d[0] ^ d[1] ^ d[2]` with verdict "ok" exactly when `d[3]`
equals it, the BCC1 line carries `d[4] ^ d[5] ^ d[6] ^ d[7]` with verdict "ok" exactly
when `d[8]` equals it, and "NOT OK" otherwise.  Nothing but the bytes 0..8 enters the
two lines. -/
theorem data_bcc_verdicts (d : t_hydranfc_v2_scan_iso14443A) (fs : FileSystem)
    (filename : String) (h9 : 9 ≤ d.mf_ul_data_nb_rx_data)
    (hb : ∀ i < 9, d.mf_ul_data.getD i 0 < 256) :
    (scan_mifare_report d).filter (fun p => p.fmt = " (DATA BCC0 %02X %s)\r\n") =
      [⟨" (DATA BCC0 %02X %s)\r\n",
        [Arg.num (0x88 ^^^ d.mf_ul_data.getD 0 0 ^^^ d.mf_ul_data.getD 1 0 ^^^
          d.mf_ul_data.getD 2 0),
         Arg.str (if d.mf_ul_data.getD 3 0 = 0x88 ^^^ d.mf_ul_data.getD 0 0 ^^^
          d.mf_ul_data.getD 1 0 ^^^ d.mf_ul_data.getD 2 0 then "ok" else "NOT OK")]⟩] ∧
    (scan_mifare_report d).filter (fun p => p.fmt = " (DATA BCC1 %02X %s)\r\n") =
      [⟨" (DATA BCC1 %02X %s)\r\n",
        [Arg.num (d.mf_ul_data.getD 4 0 ^^^ d.mf_ul_data.getD 5 0 ^^^ d.mf_ul_data.getD 6 0 ^^^
          d.mf_ul_data.getD 7 0),
         Arg.str (if d.mf_ul_data.getD 8 0 = d.mf_ul_data.getD 4 0 ^^^ d.mf_ul_data.getD 5 0 ^^^
          d.mf_ul_data.getD 6 0 ^^^ d.mf_ul_data.getD 7 0 then "ok" else "NOT OK")]⟩] ∧
    (read_mifare_ul_report fs filename d).1.filter
        (fun p => p.fmt = " (DATA BCC0 %02X %s)\r\n") =
      (scan_mifare_report d).filter (fun p => p.fmt = " (DATA BCC0 %02X %s)\r\n") ∧
    (read_mifare_ul_report fs filename d).1.filter
        (fun p => p.fmt = " (DATA BCC1 %02X %s)\r\n") =
      (scan_mifare_report d).filter (fun p => p.fmt = " (DATA BCC1 %02X %s)\r\n") := by
  have hpos : d.mf_ul_data_nb_rx_data > 0 := by omega
  have e0 := expected_uid_bcc0_eq d hb
  have e1 := expected_uid_bcc1_eq d hb
  have s0 : (scan_mifare_report d).filter (fun p => p.fmt = " (DATA BCC0 %02X %s)\r\n") =
      [report_bcc0 d] := by
    simp only [scan_mifare_report, if_pos hpos]
    rw [List.filter_append, filter_head d " (DATA BCC0 %02X %s)\r\n" (by decide),
      filter_data_lines_bcc0]
    rfl
  have s1 : (scan_mifare_report d).filter (fun p => p.fmt = " (DATA BCC1 %02X %s)\r\n") =
      [report_bcc1 d] := by
    simp only [scan_mifare_report, if_pos hpos]
    rw [List.filter_append, filter_head d " (DATA BCC1 %02X %s)\r\n" (by decide),
      filter_data_lines_bcc1]
    rfl
  refine ⟨?_, ?_, ?_, ?_⟩
  · rw [s0]
    simp only [report_bcc0, obtained_uid_bcc0, e0, eq_comm]
  · rw [s1]
    simp only [report_bcc1, obtained_uid_bcc1, e1, eq_comm]
  · rw [s0]
    simp only [read_mifare_ul_report, if_pos hpos]
    split
    · rw [List.filter_append, List.filter_append,
        filter_head d " (DATA BCC0 %02X %s)\r\n" (by decide), filter_data_lines_bcc0,
        filter_read_tail fs filename " (DATA BCC0 %02X %s)\r\n" (by decide)]
      rfl
    · rw [List.filter_append, List.filter_append,
        filter_head d " (DATA BCC0 %02X %s)\r\n" (by decide), filter_data_lines_bcc0]
      simp [List.filter_cons]
  · rw [s1]
    simp only [read_mifare_ul_report, if_pos hpos]
    split
    · rw [List.filter_append, List.filter_append,
        filter_head d " (DATA BCC1 %02X %s)\r\n" (by decide), filter_data_lines_bcc1,
        filter_read_tail fs filename " (DATA BCC1 %02X %s)\r\n" (by decide)]
      rfl
    · rw [List.filter_append, List.filter_append,
        filter_head d " (DATA BCC1 %02X %s)\r\n" (by decide), filter_data_lines_bcc1]
      simp [List.filter_cons]

theorem xor_flip_ne (x p : Nat) (hp : p ≠ 0) : x ^^^ p ≠ x := by
  intro h
  have h' : x ^^^ p = x ^^^ 0 := by rw [h, Nat.xor_zero]
  exact hp (Nat.xor_right_inj.1 h')

theorem flip_bit_lt (x k : Nat) (hx : x < 256) (hk : k < 8) : flip_bit x k < 256 := by
  have : 2 ^ k < 2 ^ 8 := Nat.pow_lt_pow_right (by decide) hk
  exact Nat.xor_lt_two_pow (n := 8) hx this

theorem uid4_report (d : t_hydranfc_v2_scan_iso14443A) (c0 c1 c2 c3 : Nat)
    (h0 : c0 < 256) (h1 : c1 < 256) (h2 : c2 < 256)
    (hn : d.uid_buf_nb_rx_data = 4) (hu : d.uid_buf.take 4 = [c0, c1, c2, c3]) :
    report_uid d = [⟨"UID:", []⟩, ⟨" %02X", [Arg.num c0]⟩, ⟨" %02X", [Arg.num c1]⟩,
      ⟨" %02X", [Arg.num c2]⟩,
      ⟨" (BCC %02X %s)\r\n", [Arg.num c3,
        Arg.str (if c0 ^^^ c1 ^^^ c2 = c3 then "ok" else "NOT OK")]⟩] := by
  have hl : d.uid_buf = c0 :: c1 :: c2 :: c3 :: d.uid_buf.drop 4 := by
    conv_lhs => rw [← List.take_append_drop 4 d.uid_buf, hu]
    rfl
  have r3 : List.range 3 = [0, 1, 2] := rfl
  have e1 : u8 (0 ^^^ c0) = c0 := by rw [Nat.zero_xor]; exact u8_of_lt h0
  have e2 : u8 (c0 ^^^ c1) = c0 ^^^ c1 := u8_of_lt (xor_byte_lt h0 h1)
  have e3 : u8 (c0 ^^^ c1 ^^^ c2) = c0 ^^^ c1 ^^^ c2 :=
    u8_of_lt (xor_byte_lt (xor_byte_lt h0 h1) h2)
  have hb : uid_bcc d = c0 ^^^ c1 ^^^ c2 := by
    simp only [uid_bcc, hn, Nat.add_one_sub_one, r3, List.foldl]
    rw [hl]
    simp only [List.getD_cons_zero, List.getD_cons_succ, e1, e2, e3]
  simp only [report_uid, hn, hb, print_bytes, r3]
  rw [hl]
  simp

theorem xor_move0 (a b c p : Nat) : (a ^^^ p) ^^^ b ^^^ c = (a ^^^ b ^^^ c) ^^^ p := by
  rw [Nat.xor_assoc a p b, Nat.xor_comm p b, ← Nat.xor_assoc a b p, Nat.xor_assoc (a ^^^ b) p c,
    Nat.xor_comm p c, ← Nat.xor_assoc (a ^^^ b) c p]

theorem xor_move1 (a b c p : Nat) : a ^^^ (b ^^^ p) ^^^ c = (a ^^^ b ^^^ c) ^^^ p := by
  rw [← Nat.xor_assoc a b p, Nat.xor_assoc (a ^^^ b) p c, Nat.xor_comm p c,
    ← Nat.xor_assoc (a ^^^ b) c p]

theorem xor_move2 (a b c p : Nat) : a ^^^ b ^^^ (c ^^^ p) = (a ^^^ b ^^^ c) ^^^ p := by
  rw [← Nat.xor_assoc (a ^^^ b) c p]

theorem report_data_lines_fmt (d : t_hydranfc_v2_scan_iso14443A) :
    ∀ p ∈ report_data_lines d, p.fmt ∈ ["DATA:", " %02X", "\r\n", "DATA UID:",
      " (DATA BCC0 %02X %s)\r\n", " (DATA BCC1 %02X %s)\r\n"] := by
  intro p hp
  simp only [report_data_lines, List.mem_append, List.mem_cons, List.not_mem_nil,
    or_false] at hp
  rcases hp with hp | rfl | rfl
  · have := report_data_dump_fmt d p hp
    simp only [List.mem_cons, List.not_mem_nil, or_false] at this ⊢
    tauto
  · simp [report_bcc0]
  · simp [report_bcc1]

theorem uid4_scan_mifare (d : t_hydranfc_v2_scan_iso14443A) (c0 c1 c2 c3 : Nat)
    (h0 : c0 < 256) (h1 : c1 < 256) (h2 : c2 < 256)
    (hn : d.uid_buf_nb_rx_data = 4) (hu : d.uid_buf.take 4 = [c0, c1, c2, c3]) :
    uid4_lines [c0, c1, c2, c3] (if c0 ^^^ c1 ^^^ c2 = c3 then "ok" else "NOT OK") <:+:
      scan_mifare_report d ∧
    (scan_mifare_report d).filter (fun p => p.fmt = " (BCC %02X %s)\r\n") =
      [⟨" (BCC %02X %s)\r\n", [Arg.num c3,
        Arg.str (if c0 ^^^ c1 ^^^ c2 = c3 then "ok" else "NOT OK")]⟩] := by
  have hr := uid4_report d c0 c1 c2 c3 h0 h1 h2 hn hu
  have hlines : report_uid d =
      uid4_lines [c0, c1, c2, c3] (if c0 ^^^ c1 ^^^ c2 = c3 then "ok" else "NOT OK") := by
    rw [hr]; rfl
  constructor
  · rw [← hlines]
    exact ⟨report_atqa d ++ report_sak1 d ++ report_sak2 d,
      if d.mf_ul_data_nb_rx_data > 0 then report_data_lines d else [], rfl⟩
  · have hd : (if d.mf_ul_data_nb_rx_data > 0 then report_data_lines d else []).filter
        (fun p => p.fmt = " (BCC %02X %s)\r\n") = [] := by
      split
      · exact filter_nil_of_fmts _ _ " (BCC %02X %s)\r\n" (report_data_lines_fmt d) (by decide)
      · rfl
    simp only [scan_mifare_report, List.filter_append, hd, List.append_nil,
      filter_nil_of_fmts _ _ " (BCC %02X %s)\r\n" (report_atqa_fmt d) (by decide),
      filter_nil_of_fmts _ _ " (BCC %02X %s)\r\n" (report_sak1_fmt d) (by decide),
      filter_nil_of_fmts _ _ " (BCC %02X %s)\r\n" (report_sak2_fmt d) (by decide),
      List.nil_append, hr]
    simp [List.filter_cons]

/-- C9: the UID checksum round trip in the report of `hydranfc_v2_scan_mifare`.  For
all bytes `b0 b1 b2`, a record whose UID is the four bytes `b0 b1 b2 (b0 ^ b1 ^ b2)` is
printed with its three bytes and the verdict "ok"; a record whose UID is obtained from
these four bytes by flipping bit `k` of byte `j` is printed as well, with its own
three bytes and BCC and the verdict "NOT OK".  In both cases this is the only BCC line
of the report. -/
theorem uid_bcc_round_trip (b0 b1 b2 : Nat) (h0 : b0 < 256) (h1 : b1 < 256) (h2 : b2 < 256) :
    (∀ d : t_hydranfc_v2_scan_iso14443A, d.uid_buf_nb_rx_data = 4 →
      d.uid_buf.take 4 = [b0, b1, b2, b0 ^^^ b1 ^^^ b2] →
      uid4_lines [b0, b1, b2, b0 ^^^ b1 ^^^ b2] "ok" <:+: scan_mifare_report d ∧
      (scan_mifare_report d).filter (fun p => p.fmt = " (BCC %02X %s)\r\n") =
        [⟨" (BCC %02X %s)\r\n", [Arg.num (b0 ^^^ b1 ^^^ b2), Arg.str "ok"]⟩]) ∧
    (∀ (d : t_hydranfc_v2_scan_iso14443A) (j k : Nat), j < 4 → k < 8 →
      d.uid_buf_nb_rx_data = 4 →
      d.uid_buf.take 4 = flip_byte [b0, b1, b2, b0 ^^^ b1 ^^^ b2] j k →
      uid4_lines (flip_byte [b0, b1, b2, b0 ^^^ b1 ^^^ b2] j k) "NOT OK" <:+:
        scan_mifare_report d ∧
      (scan_mifare_report d).filter (fun p => p.fmt = " (BCC %02X %s)\r\n") =
        [⟨" (BCC %02X %s)\r\n",
          [Arg.num ((flip_byte [b0, b1, b2, b0 ^^^ b1 ^^^ b2] j k).getD 3 0),
           Arg.str "NOT OK"]⟩]) := by
  constructor
  · intro d hn hu
    have := uid4_scan_mifare d b0 b1 b2 (b0 ^^^ b1 ^^^ b2) h0 h1 h2 hn hu
    rwa [if_pos rfl] at this
  · intro d j k hj hk hn hu
    have hp : 2 ^ k ≠ 0 := by positivity
    have f0 := flip_bit_lt b0 k h0 hk
    have f1 := flip_bit_lt b1 k h1 hk
    have f2 := flip_bit_lt b2 k h2 hk
    interval_cases j
    · have e : flip_byte [b0, b1, b2, b0 ^^^ b1 ^^^ b2] 0 k =
          [flip_bit b0 k, b1, b2, b0 ^^^ b1 ^^^ b2] := rfl
      rw [e] at hu ⊢
      have := uid4_scan_mifare d _ _ _ _ f0 h1 h2 hn hu
      rwa [if_neg (by rw [flip_bit, xor_move0]; exact xor_flip_ne _ _ hp)] at this
    · have e : flip_byte [b0, b1, b2, b0 ^^^ b1 ^^^ b2] 1 k =
          [b0, flip_bit b1 k, b2, b0 ^^^ b1 ^^^ b2] := rfl
      rw [e] at hu ⊢
      have := uid4_scan_mifare d _ _ _ _ h0 f1 h2 hn hu
      rwa [if_neg (by rw [flip_bit, xor_move1]; exact xor_flip_ne _ _ hp)] at this
    · have e : flip_byte [b0, b1, b2, b0 ^^^ b1 ^^^ b2] 2 k =
          [b0, b1, flip_bit b2 k, b0 ^^^ b1 ^^^ b2] := rfl
      rw [e] at hu ⊢
      have := uid4_scan_mifare d _ _ _ _ h0 h1 f2 hn hu
      rwa [if_neg (by rw [flip_bit, xor_move2]; exact xor_flip_ne _ _ hp)] at this
    · have e : flip_byte [b0, b1, b2, b0 ^^^ b1 ^^^ b2] 3 k =
          [b0, b1, b2, flip_bit (b0 ^^^ b1 ^^^ b2) k] := rfl
      rw [e] at hu ⊢
      have := uid4_scan_mifare d _ _ _ _ h0 h1 h2 hn hu
      rwa [if_neg (by rw [flip_bit]; exact (xor_flip_ne _ _ hp).symm)] at this

/-- C9, witness: the UID `01 02 03` with BCC `00` is reported "ok". -/
theorem uid_bcc_round_trip_witness :
    uid4_lines [1, 2, 3, 1 ^^^ 2 ^^^ 3] "ok" <:+: scan_mifare_report record_ul ∧
    (scan_mifare_report record_ul).filter (fun p => p.fmt = " (BCC %02X %s)\r\n") =
      [⟨" (BCC %02X %s)\r\n", [Arg.num (1 ^^^ 2 ^^^ 3), Arg.str "ok"]⟩] :=
  (uid_bcc_round_trip 1 2 3 (by decide) (by decide) (by decide)).1 record_ul rfl rfl

/-- C10, witness: content `04 01 02 8F 05 06 07 08 0C`; both checksums are right. -/
theorem data_bcc_verdicts_witness :
    (scan_mifare_report record_ul).filter (fun p => p.fmt = " (DATA BCC0 %02X %s)\r\n") =
      [⟨" (DATA BCC0 %02X %s)\r\n", [Arg.num 0x8F, Arg.str "ok"]⟩] ∧
    (scan_mifare_report record_ul).filter (fun p => p.fmt = " (DATA BCC1 %02X %s)\r\n") =
      [⟨" (DATA BCC1 %02X %s)\r\n", [Arg.num 0x0C, Arg.str "ok"]⟩] :=
  ⟨(data_bcc_verdicts record_ul fs0 "0:dump" (by decide) (by decide)).1,
   (data_bcc_verdicts record_ul fs0 "0:dump" (by decide) (by decide)).2.1⟩

/-! ## Claims on the mode -/

/-- A cell holding the value of an enumerator is read as that enumerator. -/
theorem token_code (K : Consts) (hK : K.WF) (k : Token) : K.token (K.code k) = some k := by
  have gen : ∀ l : List Token, (l.map K.code).Nodup → k ∈ l →
      l.find? (fun x => K.code x == K.code k) = some k := by
    intro l
    induction l with
    | nil => intro _ h; cases h
    | cons a l ih =>
      intro hn hm
      rw [List.map_cons, List.nodup_cons] at hn
      by_cases hak : a = k
      · subst hak; simp
      · have hm' : k ∈ l := by
          rcases List.mem_cons.mp hm with h | h
          · exact absurd h.symm hak
          · exact h
        have hne : K.code a ≠ K.code k := by
          intro h
          exact hn.1 (h ▸ List.mem_map_of_mem K.code hm')
        rw [List.find?_cons_of_neg _ (by simpa using hne)]
        exact ih hn.2 hm'
  exact gen Token.all hK.1 (by cases k <;> decide)

/-- The end mark is no enumerator. -/
theorem token_zero (K : Consts) (hK : K.WF) : K.token 0 = none := by
  simp only [Consts.token, List.find?_eq_none]
  intro x hx h
  exact hK.2 (List.mem_map.mpr ⟨x, hx, by simpa using h⟩)

/-- A cell read as an enumerator holds its value. -/
theorem token_sound (K : Consts) (n : Int) (k : Token) (h : K.token n = some k) :
    K.code k = n := by
  have := List.find?_some h
  simpa using this

/-- The continuous scan when the button is first found pressed at the poll number `n`
from now: `n` rounds of poll, discovery and sleep, then the poll that ends the loop. -/
theorem continuous_scan_eq (W : World) (nfc_tech : nfc_technology_t) (period : Int) (n : Nat) :
    ∀ (fuel : Nat) (s : Mode), n < fuel →
      (∀ i, i < n → W.hydrabus_ubtn (s.polls + i) = false) →
      W.hydrabus_ubtn (s.polls + n) = true →
      continuous_scan W nfc_tech period fuel s = some
        { s with
          polls := s.polls + n + 1
          out := s.out ++ (List.replicate n [Event.hydrabus_ubtn false, Event.ScanTags nfc_tech,
            Event.chThdSleepMilliseconds period]).flatten ++ [Event.hydrabus_ubtn true] } := by
  induction n with
  | zero =>
    intro fuel s hf _ ht
    obtain ⟨fuel, rfl⟩ : ∃ k, fuel = k + 1 := ⟨fuel - 1, by omega⟩
    simp only [Nat.add_zero] at ht
    simp [continuous_scan, ht]
  | succ n ih =>
    intro fuel s hf hfalse ht
    obtain ⟨fuel, rfl⟩ : ∃ k, fuel = k + 1 := ⟨fuel - 1, by omega⟩
    have h0 : W.hydrabus_ubtn s.polls = false := by simpa using hfalse 0 (by omega)
    simp only [continuous_scan, h0, Bool.false_eq_true, if_false]
    rw [ih fuel _ (by omega)]
    · simp [scan, Mode.emit, List.replicate_succ, Nat.add_assoc, Nat.add_comm 1 n]
    · intro i hi
      have := hfalse (i + 1) (by omega)
      simpa [scan, Mode.emit, Nat.add_assoc, Nat.add_comm 1 i] using this
    · simpa [scan, Mode.emit, Nat.add_assoc, Nat.add_comm 1 n] using ht

/-- A token body that is not the one of `T_PERIOD` leaves `period` as it is. -/
theorem exec_token_period (K : Consts) (W : World) (p : t_tokenline_parsed)
    (l l1 : exec_locals) (s s1 : Mode) (hp : p.tok l.t ≠ K.code .T_PERIOD)
    (h : exec_token K W p l s = some (l1, s1)) : l1.period = l.period := by
  unfold exec_token at h
  split at h <;> first
    | (rename_i heq; exact absurd (token_sound K _ _ heq).symm hp)
    | (split at h <;> simp at h <;> (obtain ⟨h, -⟩ := h; subst h; rfl))
    | (simp at h; obtain ⟨h, -⟩ := h; subst h; rfl)

/-- Without a `T_PERIOD` cell the token loop leaves `period` as it is. -/
theorem exec_tokens_period (K : Consts) (W : World) (p : t_tokenline_parsed)
    (hp : ∀ i, p.tok i ≠ K.code .T_PERIOD) :
    ∀ (fuel : Nat) (l l1 : exec_locals) (s s1 : Mode),
      exec_tokens K W p fuel l s = .done l1 s1 → l1.period = l.period := by
  intro fuel
  induction fuel with
  | zero => intro l l1 s s1 h; simp [exec_tokens] at h
  | succ fuel ih =>
    intro l l1 s s1 h
    simp only [exec_tokens] at h
    split at h
    · simp at h; rw [← h.1]
    · split at h
      · simp at h
      · rename_i l2 s2 heq
        have := ih _ _ _ _ h
        rw [this]
        exact exec_token_period K W p l l2 s s2 (hp _) heq

/-- A token body does not move `t` backwards. -/
theorem exec_token_t (K : Consts) (W : World) (p : t_tokenline_parsed)
    (l l1 : exec_locals) (s s1 : Mode)
    (h : exec_token K W p l s = some (l1, s1)) : l.t ≤ l1.t := by
  unfold exec_token at h
  split at h <;> first
    | (split at h <;> simp at h <;> (obtain ⟨h, -⟩ := h; subst h; simp))
    | (simp at h; obtain ⟨h, -⟩ := h; subst h; simp)

/-- The token loop ends: one test of its condition more than there are cells from `t`
on is enough. -/
theorem exec_tokens_total (K : Consts) (W : World) (p : t_tokenline_parsed) :
    ∀ (fuel : Nat) (l : exec_locals) (s : Mode), 0 < fuel → p.tokens.length < l.t + fuel →
      exec_tokens K W p fuel l s ≠ .out_of_fuel := by
  intro fuel
  induction fuel with
  | zero => intro l s h; omega
  | succ fuel ih =>
    intro l s _ h
    simp only [exec_tokens]
    split
    · simp
    · rename_i hne
      have hlt : l.t < p.tokens.length := by
        by_contra hge
        apply hne
        simp only [t_tokenline_parsed.tok]
        rw [List.getD_eq_default _ _ (by omega)]
      split
      · simp
      · rename_i l2 s2 heq
        have := exec_token_t K W p l l2 s s2 heq
        exact ih _ _ (by omega) (by simp only; omega)

/-- C11: cancellation of the continuous scan.  Take a call of `exec` whose token loop
ends with the action scan selected and the continuous flag set, and let the button be
found pressed for the first time at poll number `n` (counted from 0).  Then `exec`
returns the number of tokens used, and after the two messages that announce the scan its
events are exactly `n` rounds of one poll (not pressed), one discovery attempt and one
sleep of the period, followed by the one poll that found the button pressed: one poll
for each round, and no discovery attempt after that poll.  The period is 1000 when no
cell of the command line is `T_PERIOD`. -/
theorem continuous_scan_cancel (K : Consts) (hK : K.WF) (W : World) (p : t_tokenline_parsed)
    (token_pos : Nat) (s s1 : Mode) (l : exec_locals) (n fuel : Nat)
    (hsd : p.tok token_pos ≠ K.code .T_SD)
    (hparse : exec_tokens K W p (p.tokens.length + 1) (exec_locals.start token_pos)
      { s with st25r3916_irq_fn := false } = .done l s1)
    (hscan : l.action = K.code .T_SCAN) (hcont : l.continuous = true)
    (hfalse : ∀ i, i < n → W.hydrabus_ubtn (s1.polls + i) = false)
    (htrue : W.hydrabus_ubtn (s1.polls + n) = true) (hfuel : n < fuel) :
    exec K W p token_pos s fuel = some ((l.t : Int) - token_pos,
      { s1 with
        st25r3916_irq_fn := false
        irq_count := 0
        polls := s1.polls + n + 1
        out := s1.out ++
          [Event.cprintf "Scanning NFC-%s " [.str (K.nfc_technology_to_str s1.nfc_technology)],
           Event.cprintf "with %dms period. Press user button to stop.\r\n" [.int l.period]] ++
          (List.replicate n [Event.hydrabus_ubtn false, Event.ScanTags s1.nfc_technology,
            Event.chThdSleepMilliseconds l.period]).flatten ++
          [Event.hydrabus_ubtn true] }) ∧
    ((∀ i, p.tok i ≠ K.code .T_PERIOD) → l.period = 1000) := by
  refine ⟨?_, fun hp => exec_tokens_period K W p hp _ _ _ _ _ hparse⟩
  simp only [exec, if_neg hsd, hparse, exec_action, hscan, token_code K hK, hcont, if_true]
  rw [continuous_scan_eq W _ _ n fuel _ hfuel (by simpa [Mode.emit] using hfalse)
    (by simpa [Mode.emit] using htrue)]
  simp [Mode.emit]

/-- C11, witness: `scan continuous period 50` with the button pressed from the first
poll; the loop polls once, starts no discovery attempt and `exec` returns. -/
theorem continuous_scan_cancel_witness :
    exec consts0 world_pressed
      (cmdline [consts0.code .T_SCAN, consts0.code .T_CONTINUOUS, consts0.code .T_PERIOD, 99, 0])
      0 mode0 1 = some (5,
        { mode0 with
          polls := 1
          out := [Event.cprintf "Scanning NFC-%s " [.str "A/B/V/F"],
            Event.cprintf "with %dms period. Press user button to stop.\r\n" [.int 50],
            Event.hydrabus_ubtn true] }) :=
  (continuous_scan_cancel consts0 (by decide) world_pressed
    (cmdline [consts0.code .T_SCAN, consts0.code .T_CONTINUOUS, consts0.code .T_PERIOD, 99, 0])
    0 mode0 mode0
    { exec_locals.start 0 with action := consts0.code .T_SCAN, continuous := true, period := 50
                               t := 5 }
    0 1 (by decide) rfl rfl rfl (fun i hi => absurd hi (Nat.not_lt_zero i)) rfl
    (by decide)).1

/-- C12, the failing run: the command `direct-mode-0` alone.  `exec` selects the action
`T_DIRECT_MODE_0`, returns 1 token used and starts no discovery, but records no event at
all: no message is printed.  The command `sniff` alone, by contrast, prints
`T_SNIFF not implemented.`. -/
theorem direct_mode_silent :
    exec consts0 world_pressed (cmdline [consts0.code .T_DIRECT_MODE_0]) 0 mode0 0
      = some (1, mode0) ∧
    exec consts0 world_pressed (cmdline [consts0.code .T_DIRECT_MODE_1]) 0 mode0 0
      = some (1, mode0) ∧
    exec consts0 world_pressed (cmdline [consts0.code .T_SNIFF]) 0 mode0 0
      = some (1, { mode0 with out := [Event.cprintf "T_SNIFF not implemented.\r\n" []] }) :=
  ⟨rfl, rfl, rfl⟩

/-- C13: failure of the front-end initialisation.  Whenever `rfalInitialize` returns an
error, `init_gpio_spi_nfc` returns `FALSE` and `init` returns 0 tokens used, whatever
the console and the command line; the events of the call are the set-up calls, the two
error messages and the calls of `deinit_gpio_spi_nfc`, after which `st25r3916_irq_fn` is
`NULL`.  No token of the command line is processed: there is no event of `exec`, the
button is not polled, and the result is the one of a call without command line. -/
theorem init_failure (K : Consts) (W : World) (con : Bool) (p : Option t_tokenline_parsed)
    (s : Mode) (fuel : Nat) (h : W.rfalInitialize ≠ K.ERR_NONE) :
    (init_gpio_spi_nfc K W (if con then { s with nfc_technology := .NFC_ALL } else s)).1
      = false ∧
    init K W con p s fuel = some (0,
      { s with
        nfc_technology := if con then .NFC_ALL else s.nfc_technology
        st25r3916_irq_fn := false
        out := s.out ++ gpio_spi_nfc_calls ++
          [Event.call "hal_st25r3916_spiInit(ST25R391X_SPI_DEVICE)",
           Event.call "rfalAnalogConfigInitialize()",
           Event.rfalInitialize W.rfalInitialize,
           Event.cprintf "hydranfc_v2_init_RFAL rfalInitialize() error=%d\r\n"
             [.int W.rfalInitialize],
           Event.cprintf "HydraNFC v2 not found.\r\n" []] ++ deinit_calls }) ∧
    init K W con p s fuel = init K W con none s fuel := by
  cases con <;>
  simp [init, init_gpio_spi_nfc, hydranfc_v2_init_RFAL, deinit_gpio_spi_nfc, Mode.emit, h]

/-- C13, witness: `rfalInitialize` fails with error 5 while the command line asks for a
scan; `init` returns 0 and no discovery is started. -/
theorem init_failure_witness :
    init consts0 world_no_chip true (some (cmdline [1, consts0.code .T_SCAN])) mode0 0 =
      init consts0 world_no_chip true none mode0 0 :=
  (init_failure consts0 world_no_chip true (some (cmdline [1, consts0.code .T_SCAN])) mode0 0
    (by decide)).2.2

/-- C14, the failing run: `rfalInitialize` fails with error 5.  The initialisation fails
(`init_gpio_spi_nfc` returns `FALSE`, the message `HydraNFC v2 not found.` is printed and
`hydranfc_v2_is_detected` returns `FALSE`), and `hydranfc_init` returns `TRUE`. -/
theorem hydranfc_init_true_on_failure :
    (init_gpio_spi_nfc consts0 world_no_chip mode0).1 = false ∧
    (hydranfc_v2_is_detected consts0 world_no_chip mode0).1 = false ∧
    (hydranfc_init consts0 world_no_chip true mode0 0).map Prod.fst = some true ∧
    (hydranfc_init consts0 world_no_chip false mode0 0).map Prod.fst = some true ∧
    ((hydranfc_init consts0 world_no_chip true mode0 0).map (fun r =>
      decide (Event.cprintf "HydraNFC v2 not found.\r\n" [] ∈ r.2.out))) = some true := by
  decide

end HydraNFC
